import Mathlib

/-!
# Macvlan driver: Join / Leave and subnet resolution

A shallow embedding of `daemon/libnetwork/drivers/macvlan/macvlan_joinleave.go`.

Go strings are `String`; parsers run over `String.data`.  Bytes are `Nat`
(truncated with `% 256` where Go's `byte` arithmetic wraps).  A Go pointer
that may be nil is an `Option`.  The part of Go's standard library `net`
package that the driver calls (`ParseCIDR`, `IPMask.Size`, `IPNet.Contains`)
is embedded below, function by function.
-/

namespace Macvlan

/-! ## Go standard library: package `net` -/

/-- Go `net.IP`: a byte slice (4 or 16 bytes when well formed, empty when nil). -/
abbrev IP := List Nat

/-- Go `net.IPMask`: a byte slice. -/
abbrev IPMask := List Nat

/-- Go `net.IPNet`. -/
structure IPNet where
  IP : IP
  Mask : IPMask
deriving DecidableEq, Repr

/-- Go `net.IPv4len`. -/
def IPv4len : Nat := 4

/-- Go `net.IPv6len`. -/
def IPv6len : Nat := 16

/-- Go `net.v4InV6Prefix`. -/
def v4InV6Prefix : List Nat := [0, 0, 0, 0, 0, 0, 0, 0, 0, 0, 255, 255]

/-- Go `IP.To4`: the 4-byte form of an IPv4 address, `none` for Go's nil. -/
def To4 (ip : IP) : Option IP :=
  if ip.length = IPv4len then some ip
  else if ip.length = IPv6len ∧ ip.take 12 = v4InV6Prefix then some (ip.drop 12)
  else none

/-- Inner loop of Go `simpleMaskLength`: `for v&0x80 != 0 { n++; v <<= 1 }`,
returning the final `(n, v)`.  A byte other than `0xff` leaves the loop within
eight rounds. -/
def countOnes : Nat → Nat → Nat → Nat × Nat
  | 0, n, v => (n, v)
  | fuel + 1, n, v =>
    if v &&& 0x80 ≠ 0 then countOnes fuel (n + 1) ((v <<< 1) % 256) else (n, v)

/-- Go `simpleMaskLength`; `none` stands for the `-1` of a non-canonical mask. -/
def simpleMaskLength : IPMask → Nat → Option Nat
  | [], n => some n
  | v :: rest, n =>
    if v = 0xff then simpleMaskLength rest (n + 8)
    else
      let r := countOnes 8 n v
      if r.2 ≠ 0 then none
      else if rest.all (fun b => b == 0) then some r.1
      else none

/-- Go `IPMask.Size`: `(ones, bits)`, and `(0, 0)` for a non-canonical mask. -/
def Size (m : IPMask) : Nat × Nat :=
  match simpleMaskLength m 0 with
  | none => (0, 0)
  | some ones => (ones, m.length * 8)

/-- Go `CIDRMask` loop: one byte per remaining position. -/
def cidrMaskBytes : Nat → Nat → List Nat
  | 0, _ => []
  | l + 1, n =>
    if n ≥ 8 then 0xff :: cidrMaskBytes l (n - 8)
    else (0xff - (0xff >>> n)) :: cidrMaskBytes l 0

/-- Go `net.CIDRMask`; the empty list is Go's nil result. -/
def CIDRMask (ones bits : Nat) : IPMask :=
  if bits ≠ 8 * IPv4len ∧ bits ≠ 8 * IPv6len then []
  else if ones > bits then []
  else cidrMaskBytes (bits / 8) ones

/-- Go `allFF`. -/
def allFF (b : List Nat) : Bool := b.all (fun c => c == 0xff)

/-- Go `IP.Mask`; the empty list is Go's nil result. -/
def IPMaskApply (ip : IP) (mask : IPMask) : IP :=
  let mask1 :=
    if mask.length = IPv6len ∧ ip.length = IPv4len ∧ allFF (mask.take 12) = true
    then mask.drop 12 else mask
  let ip1 :=
    if mask1.length = IPv4len ∧ ip.length = IPv6len ∧ ip.take 12 = v4InV6Prefix
    then ip.drop 12 else ip
  if ip1.length ≠ mask1.length then []
  else List.zipWith (fun a b => a &&& b) ip1 mask1

/-- Go `networkNumberAndMask`; `none` stands for the `(nil, nil)` result. -/
def networkNumberAndMask (n : IPNet) : Option (IP × IPMask) :=
  let ipo : Option IP :=
    match To4 n.IP with
    | some x => some x
    | none => if n.IP.length ≠ IPv6len then none else some n.IP
  match ipo with
  | none => none
  | some ip =>
    if n.Mask.length = IPv4len then
      if ip.length ≠ IPv4len then none else some (ip, n.Mask)
    else if n.Mask.length = IPv6len then
      if ip.length = IPv4len then some (ip, n.Mask.drop 12) else some (ip, n.Mask)
    else none

/-- Go `(*IPNet).Contains`.  With the `(nil, nil)` network number the length
test `l != len(nn)` decides: only a zero-length `ip` passes it. -/
def Contains (n : IPNet) (ip : IP) : Bool :=
  let ip1 := match To4 ip with
    | some x => x
    | none => ip
  match networkNumberAndMask n with
  | none => ip1.length == 0
  | some (nn, m) =>
    if ip1.length ≠ nn.length then false
    else (List.range ip1.length).all
      (fun i => (nn.getD i 0 &&& m.getD i 0) == (ip1.getD i 0 &&& m.getD i 0))

/-! ### Parsing -/

/-- Decimal digit test, `'0' <= c && c <= '9'`. -/
def isDigit (c : Char) : Bool := decide ('0'.toNat ≤ c.toNat ∧ c.toNat ≤ '9'.toNat)

/-- Loop of Go `netip.parseIPv4Fields` over the remaining input.  `prev` is the
previous byte (`none` at index 0), `fields` holds the octets stored so far
(so `pos = fields.length`).  On success returns the pending `val` and the
stored octets. -/
def parseIPv4FieldsLoop :
    List Char → Option Char → Nat → Nat → List Nat → Option (Nat × List Nat)
  | [], _, val, _, fields => some (val, fields)
  | c :: rest, prev, val, digLen, fields =>
    if isDigit c then
      if digLen = 1 ∧ val = 0 then none
      else
        let val1 := val * 10 + (c.toNat - '0'.toNat)
        if val1 > 255 then none
        else parseIPv4FieldsLoop rest (some c) val1 (digLen + 1) fields
    else if c = '.' then
      if prev = none ∨ rest = [] ∨ prev = some '.' then none
      else if fields.length = 3 then none
      else parseIPv4FieldsLoop rest (some c) 0 0 (fields ++ [val])
    else none

/-- Go `netip.parseIPv4Fields`: the four octets, or `none` on a parse error. -/
def parseIPv4Fields (s : List Char) : Option (List Nat) :=
  match parseIPv4FieldsLoop s none 0 0 [] with
  | none => none
  | some (val, fields) => if fields.length < 3 then none else some (fields ++ [val])

/-- Value of a hexadecimal digit, `none` for any other byte. -/
def hexVal (c : Char) : Option Nat :=
  if '0'.toNat ≤ c.toNat ∧ c.toNat ≤ '9'.toNat then some (c.toNat - '0'.toNat)
  else if 'a'.toNat ≤ c.toNat ∧ c.toNat ≤ 'f'.toNat then some (c.toNat - 'a'.toNat + 10)
  else if 'A'.toNat ≤ c.toNat ∧ c.toNat ≤ 'F'.toNat then some (c.toNat - 'A'.toNat + 10)
  else none

/-- Hex-group loop of Go `netip.parseIPv6`: returns `(off, acc, rest)` where
`rest` is `s[off:]`, or `none` on "more than 4 digits" / overflow. -/
def parseHexGroup : List Char → Nat → Nat → Option (Nat × Nat × List Char)
  | [], off, acc => some (off, acc, [])
  | c :: rest, off, acc =>
    match hexVal c with
    | none => some (off, acc, c :: rest)
    | some d =>
      let acc1 := acc * 16 + d
      if off > 3 then none
      else if acc1 > 0xFFFF then none
      else parseHexGroup rest (off + 1) acc1

/-- Main loop of Go `netip.parseIPv6` (`for i < 16`).  `ip` holds the bytes
written so far (`i = ip.length`), `ellipsis` the position of `::`.  Returns the
state at loop exit, `(s, ip, ellipsis)`. -/
def parseIPv6Loop :
    Nat → List Char → List Nat → Option Nat → Option (List Char × List Nat × Option Nat)
  | 0, s, ip, ellipsis => some (s, ip, ellipsis)
  | fuel + 1, s, ip, ellipsis =>
    if ¬ ip.length < 16 then some (s, ip, ellipsis)
    else
      match parseHexGroup s 0 0 with
      | none => none
      | some (off, acc, rest) =>
        if off = 0 then none
        else if rest.head? = some '.' then
          if ellipsis = none ∧ ip.length ≠ 12 then none
          else if ip.length + 4 > 16 then none
          else
            match parseIPv4Fields s with
            | none => none
            | some f => some ([], ip ++ f, ellipsis)
        else
          let ip1 := ip ++ [(acc / 256) % 256, acc % 256]
          match rest with
          | [] => some ([], ip1, ellipsis)
          | c :: s1 =>
            if c ≠ ':' then none
            else if s1 = [] then none
            else
              match s1 with
              | ':' :: s2 =>
                if ellipsis ≠ none then none
                else if s2 = [] then some ([], ip1, some ip1.length)
                else parseIPv6Loop fuel s2 ip1 (some ip1.length)
              | _ => parseIPv6Loop fuel s1 ip1 ellipsis

/-- Go `netip.parseIPv6`, for callers that reject a zone (as `net.ParseCIDR`
does): an input with a `%` gives `none`. -/
def parseIPv6 (inp : List Char) : Option (List Nat) :=
  if '%' ∈ inp then none
  else
    let start : List Char × Option Nat :=
      match inp with
      | ':' :: ':' :: s => (s, some 0)
      | _ => (inp, none)
    if start.2 = some 0 ∧ start.1 = [] then some (List.replicate 16 0)
    else
      match parseIPv6Loop 16 start.1 [] start.2 with
      | none => none
      | some (s, ip, ellipsis) =>
        if s ≠ [] then none
        else if ip.length < 16 then
          match ellipsis with
          | none => none
          | some e => some (ip.take e ++ List.replicate (16 - ip.length) 0 ++ ip.drop e)
        else if ellipsis ≠ none then none
        else some ip

/-- Go `netip.ParseAddr` followed by the zone test of `net.ParseCIDR`: the
address as `(bitLen, As16 bytes)`.  The first of `.`, `:` and `%` selects the
parser. -/
def parseAddrAux : List Char → List Char → Option (Nat × List Nat)
  | [], _ => none
  | c :: rest, whole =>
    if c = '.' then (parseIPv4Fields whole).map (fun f => (32, v4InV6Prefix ++ f))
    else if c = ':' then (parseIPv6 whole).map (fun b => (128, b))
    else if c = '%' then none
    else parseAddrAux rest whole

/-- See `parseAddrAux`. -/
def ParseAddr (s : List Char) : Option (Nat × List Nat) := parseAddrAux s s

/-- Loop of Go `net.dtoi`: `(n, i)` at loop exit, `none` when `n >= big`. -/
def dtoiLoop : List Char → Nat → Nat → Option (Nat × Nat)
  | [], n, i => some (n, i)
  | c :: rest, n, i =>
    if isDigit c then
      let n1 := n * 10 + (c.toNat - '0'.toNat)
      if n1 ≥ 0xFFFFFF then none else dtoiLoop rest n1 (i + 1)
    else some (n, i)

/-- Go `net.dtoi`: `(n, i)` when `ok`, `none` otherwise. -/
def dtoi (s : List Char) : Option (Nat × Nat) :=
  match dtoiLoop s 0 0 with
  | none => none
  | some (n, i) => if i = 0 then none else some (n, i)

/-- Go `strings.Cut(s, "/")`: the text before and after the first `/`. -/
def cutSlash : List Char → Option (List Char × List Char)
  | [] => none
  | c :: rest =>
    if c = '/' then some ([], rest)
    else (cutSlash rest).map (fun p => (c :: p.1, p.2))

/-- Go `net.ParseCIDR`: `(ip, ipnet)`, or `none` for the error result. -/
def ParseCIDR (s : String) : Option (IP × IPNet) :=
  match cutSlash s.data with
  | none => none
  | some (addr, mask) =>
    match ParseAddr addr with
    | none => none
    | some (bitLen, addr16) =>
      match dtoi mask with
      | none => none
      | some (n, i) =>
        if i ≠ mask.length ∨ n > bitLen then none
        else
          let m := CIDRMask n bitLen
          some (addr16, { IP := IPMaskApply addr16 m, Mask := m })

/-! ## The driver's data model -/

/-- Go `ipSubnet` (macvlan configuration): a subnet and its gateway, both in
CIDR text form. -/
structure ipSubnet where
  SubnetIP : String
  GwIP : String
deriving DecidableEq, Repr

/-- Result of a Go function that may dereference nil: a value, or a panic. -/
inductive Run (α : Type) where
  | done (a : α)
  | panicked
deriving DecidableEq, Repr

/-- Go `getSubnetForIP`.  `ip` is the `*net.IPNet` argument (`none` = nil);
reading `ip.Mask` through a nil pointer panics.  The returned subnet is the
list element itself, `none` is the nil result. -/
def getSubnetForIP (ip : Option IPNet) : List ipSubnet → Run (Option ipSubnet)
  | [] => Run.done none
  | s :: rest =>
    match ParseCIDR s.SubnetIP with
    | none => Run.done none
    | some (_, snet) =>
      match ip with
      | none => Run.panicked
      | some a =>
        let i := (Size snet.Mask).1
        let j := (Size a.Mask).1
        if i ≠ j then getSubnetForIP ip rest
        else if Contains snet a.IP then Run.done (some s)
        else getSubnetForIP ip rest

/-- Go `getSubnetforIPv4` of `*network`, on the configured v4 list. -/
def getSubnetforIPv4 (subnets4 : List ipSubnet) (ip : Option IPNet) : Run (Option ipSubnet) :=
  getSubnetForIP ip subnets4

/-- Go `getSubnetforIPv6` of `*network`, on the configured v6 list. -/
def getSubnetforIPv6 (subnets6 : List ipSubnet) (ip : Option IPNet) : Run (Option ipSubnet) :=
  getSubnetForIP ip subnets6

/-- Go `configuration`: the fields `Join` reads. -/
structure configuration where
  Internal : Bool
  Parent : String
  MacvlanMode : String
  Ipv4Subnets : List ipSubnet
  Ipv6Subnets : List ipSubnet
deriving DecidableEq, Repr

/-- Go `endpoint`: `addr` and `addrv6` are `*net.IPNet` (`none` = nil). -/
structure endpoint where
  id : String
  nid : String
  addr : Option IPNet
  addrv6 : Option IPNet
  srcName : String
deriving DecidableEq, Repr

/-- Go `network`: `endpoints` is the map from endpoint ID to `*endpoint`,
kept as an association list read at its first matching key. -/
structure network where
  id : String
  config : configuration
  endpoints : List (String × endpoint)
deriving DecidableEq, Repr

/-- Go `driver`: `networks` is the map from network ID to `*network`. -/
structure driver where
  networks : List (String × network)
deriving DecidableEq, Repr

/-- Modelled from the spec: `getNetwork(networkID) → Network or NotFound`
(`driver.getNetwork` lives in a file that is not among the sources).  The
error carries a message naming the network. -/
def getNetwork (d : driver) (nid : String) : Except String network :=
  match d.networks.lookup nid with
  | some n => Except.ok n
  | none => Except.error ("network id " ++ nid ++ " not found")

/-- Modelled from the spec: `Network.endpoint(endpointID) → Endpoint or absent`
(`network.endpoint` lives in a file that is not among the sources). -/
def network.endpoint (n : network) (eid : String) : Option endpoint :=
  n.endpoints.lookup eid

/-- The write `endpoint.srcName = vethName` seen through the endpoint table:
the first entry stored under `eid` is the pointer `n.endpoint(eid)` returned. -/
def setSrcName (eid vethName : String) : List (String × endpoint) → List (String × endpoint)
  | [] => []
  | (k, e) :: rest =>
    if eid == k then (k, { e with srcName := vethName }) :: rest
    else (k, e) :: setSrcName eid vethName rest

/-- The same write seen through the driver's network table: the network stored
first under `nid` is the pointer `getNetwork` returned. -/
def setNetwork (nid : String) (n1 : network) : List (String × network) → List (String × network)
  | [] => []
  | (k, n) :: rest =>
    if nid == k then (k, n1) :: rest else (k, n) :: setNetwork nid n1 rest

/-- Endpoint options handed to `Join` (`epOpts`). -/
abbrev Options := List (String × String)

/-- What `Join` calls outside this file.  Each field is the result the
collaborator gives when called; an error is its message. -/
structure Collab where
  /-- Go `netutils.GenerateIfaceName(ns.NlHandle(), vethPrefix, vethLen)`. -/
  GenerateIfaceName : Except String String
  /-- Go `createMacVlan(containerIfName, parent, macvlanMode)`. -/
  createMacVlan : String → String → String → Except String String
  /-- Go `jinfo.SetGateway`. -/
  SetGateway : IP → Option String
  /-- Go `jinfo.SetGatewayIPv6`. -/
  SetGatewayIPv6 : IP → Option String
  /-- Go `jinfo.InterfaceName().SetNames(srcName, dstPrefix, dstName)`. -/
  SetNames : String → String → String → Option String
  /-- Go `d.storeUpdate(ep)`. -/
  storeUpdate : endpoint → Option String
  /-- Go constant `containerVethPrefix`. -/
  containerVethPrefix : String
  /-- Go `netlabel.GetIfname(epOpts)`. -/
  GetIfname : Options → String

/-- Calls that `Join` makes, in the order it makes them. -/
inductive Event where
  | GenerateIfaceName
  | createMacVlan (containerIfName parent mode : String)
  | getSubnetforIPv4 (ip : Option IPNet)
  | getSubnetforIPv6 (ip : Option IPNet)
  | SetGateway (gw : IP)
  | SetGatewayIPv6 (gw : IP)
  | DisableGatewayService
  | SetNames (srcName dstPrefix dstName : String)
  | storeUpdate (ep : endpoint)
deriving DecidableEq, Repr

/-- How a call ends: Go's `nil` error, an error with its message, or a
nil-pointer panic. -/
inductive Ret where
  | nil
  | err (msg : String)
  | panicked
deriving DecidableEq, Repr

/-- Text of the error `net.ParseCIDR` returns for `s` (`*net.ParseError`). -/
def parseErrorText (s : String) : String := "invalid CIDR address: " ++ s

/-- One stage of `Join`: the calls it made, and `some r` when it returned `r`
(or panicked) instead of falling through. -/
abbrev Stage := List Event × Option Ret

/-- Lines 54-69 of `Join`: the v4 block of a network that is not internal. -/
def joinV4 (c : Collab) (n : network) (ep : endpoint) (eid : String) : Stage :=
  if n.config.Ipv4Subnets.length > 0 then
    match getSubnetforIPv4 n.config.Ipv4Subnets ep.addr with
    | Run.panicked => ([Event.getSubnetforIPv4 ep.addr], some Ret.panicked)
    | Run.done none =>
      ([Event.getSubnetforIPv4 ep.addr],
        some (Ret.err ("could not find a valid ipv4 subnet for endpoint " ++ eid)))
    | Run.done (some s) =>
      match ParseCIDR s.GwIP with
      | none =>
        ([Event.getSubnetforIPv4 ep.addr],
          some (Ret.err ("gateway " ++ s.GwIP ++ " is not a valid ipv4 address: "
            ++ parseErrorText s.GwIP)))
      | some (v4gw, _) =>
        match c.SetGateway v4gw with
        | some e => ([Event.getSubnetforIPv4 ep.addr, Event.SetGateway v4gw], some (Ret.err e))
        | none =>
          -- the Debugf argument `ep.addr.IP.String()`
          match ep.addr with
          | none => ([Event.getSubnetforIPv4 ep.addr, Event.SetGateway v4gw], some Ret.panicked)
          | some _ => ([Event.getSubnetforIPv4 ep.addr, Event.SetGateway v4gw], none)
  else ([], none)

/-- Lines 70-86 of `Join`: the v6 block of a network that is not internal. -/
def joinV6 (c : Collab) (n : network) (ep : endpoint) (eid : String) : Stage :=
  if ep.addrv6 ≠ none ∧ n.config.Ipv6Subnets.length > 0 then
    match getSubnetforIPv6 n.config.Ipv6Subnets ep.addrv6 with
    | Run.panicked => ([Event.getSubnetforIPv6 ep.addrv6], some Ret.panicked)
    | Run.done none =>
      ([Event.getSubnetforIPv6 ep.addrv6],
        some (Ret.err ("could not find a valid ipv6 subnet for endpoint " ++ eid)))
    | Run.done (some s) =>
      match ParseCIDR s.GwIP with
      | none =>
        ([Event.getSubnetforIPv6 ep.addrv6],
          some (Ret.err ("gateway " ++ s.GwIP ++ " is not a valid ipv6 address: "
            ++ parseErrorText s.GwIP)))
      | some (v6gw, _) =>
        match c.SetGatewayIPv6 v6gw with
        | some e =>
          ([Event.getSubnetforIPv6 ep.addrv6, Event.SetGatewayIPv6 v6gw], some (Ret.err e))
        | none =>
          -- the Debugf argument `ep.addrv6.IP.String()`
          match ep.addrv6 with
          | none =>
            ([Event.getSubnetforIPv6 ep.addrv6, Event.SetGatewayIPv6 v6gw], some Ret.panicked)
          | some _ => ([Event.getSubnetforIPv6 ep.addrv6, Event.SetGatewayIPv6 v6gw], none)
  else ([], none)

/-- Lines 92-103 of `Join`: the branch of an internal network.  The two
`Debugf` calls read `ep.addr.IP` and `ep.addrv6.IP` for their arguments. -/
def joinInternal (n : network) (ep : endpoint) : Stage :=
  if n.config.Ipv4Subnets.length > 0 ∧ ep.addr = none then ([], some Ret.panicked)
  else if n.config.Ipv6Subnets.length > 0 ∧ ep.addrv6 = none then ([], some Ret.panicked)
  else ([Event.DisableGatewayService], none)

/-- Lines 53-104 of `Join`: the gateway-policy step. -/
def gatewayPolicy (c : Collab) (n : network) (ep : endpoint) (eid : String) : Stage :=
  if ¬ n.config.Internal then
    match joinV4 c n ep eid with
    | (ev4, some r) => (ev4, some r)
    | (ev4, none) =>
      match joinV6 c n ep eid with
      | (ev6, some r) => (ev4 ++ ev6, some r)
      | (ev6, none) =>
        if n.config.Ipv4Subnets.length = 0 ∧ n.config.Ipv6Subnets.length = 0 then
          (ev4 ++ ev6 ++ [Event.DisableGatewayService], none)
        else (ev4 ++ ev6, none)
  else joinInternal n ep

/-- Lines 105-114 of `Join`: publish the names, persist the endpoint. -/
def joinFinish (c : Collab) (ep : endpoint) (vethName : String) (epOpts : Options) : Stage :=
  let names := Event.SetNames vethName c.containerVethPrefix (c.GetIfname epOpts)
  match c.SetNames vethName c.containerVethPrefix (c.GetIfname epOpts) with
  | some e => ([names], some (Ret.err e))
  | none =>
    match c.storeUpdate ep with
    | some e =>
      ([names, Event.storeUpdate ep],
        some (Ret.err ("failed to save macvlan endpoint " ++ String.mk (ep.id.data.take 7)
          ++ " to store: " ++ e)))
    | none => ([names, Event.storeUpdate ep], none)

/-- What a call of `Join` leaves behind: how it ended, the calls it made, and
the driver's tables afterwards. -/
structure Outcome where
  ret : Ret
  events : List Event
  d : driver
deriving DecidableEq, Repr

/-- Go `(*driver).Join`.  `sboxKey` and the tracing context do not reach any
decision and are left out. -/
def Join (c : Collab) (d : driver) (nid eid : String) (epOpts : Options) : Outcome :=
  match getNetwork d nid with
  | Except.error e => ⟨Ret.err e, [], d⟩
  | Except.ok n =>
    match n.endpoint eid with
    | none => ⟨Ret.err ("could not find endpoint with id " ++ eid), [], d⟩
    | some _ =>
      match c.GenerateIfaceName with
      | Except.error e =>
        ⟨Ret.err ("error generating an interface name: " ++ e), [Event.GenerateIfaceName], d⟩
      | Except.ok containerIfName =>
        let ev0 := [Event.GenerateIfaceName,
          Event.createMacVlan containerIfName n.config.Parent n.config.MacvlanMode]
        match c.createMacVlan containerIfName n.config.Parent n.config.MacvlanMode with
        | Except.error e => ⟨Ret.err e, ev0, d⟩
        | Except.ok vethName =>
          let n1 : network := { n with endpoints := setSrcName eid vethName n.endpoints }
          let d1 : driver := { networks := setNetwork nid n1 d.networks }
          match n1.endpoint eid with
          | none => ⟨Ret.err ("could not find endpoint with id " ++ eid), ev0, d1⟩
          | some ep =>
            match gatewayPolicy c n1 ep eid with
            | (ev1, some r) => ⟨r, ev0 ++ ev1, d1⟩
            | (ev1, none) =>
              match joinFinish c ep vethName epOpts with
              | (ev2, some r) => ⟨r, ev0 ++ ev1 ++ ev2, d1⟩
              | (ev2, none) => ⟨Ret.nil, ev0 ++ ev1 ++ ev2, d1⟩

/-- Go `(*driver).Leave`.  `getEndpoint` is the lookup `network.getEndpoint`,
whose file is not among the sources: it yields an error, or an endpoint
pointer that may be nil.  `Leave` writes to nothing and calls no collaborator,
so its outcome carries no call and the driver's tables as they were. -/
def Leave (getEndpoint : network → String → Except String (Option endpoint))
    (d : driver) (nid eid : String) : Outcome :=
  match getNetwork d nid with
  | Except.error e => ⟨Ret.err e, [], d⟩
  | Except.ok network =>
    match getEndpoint network eid with
    | Except.error e => ⟨Ret.err e, [], d⟩
    | Except.ok none => ⟨Ret.err ("could not find endpoint with id " ++ eid), [], d⟩
    | Except.ok (some _) => ⟨Ret.nil, [], d⟩

/-- Modelled from the spec: `Network.getEndpoint(endpointID) → Endpoint or
NotFound error` (`network.getEndpoint` lives in a file that is not among the
sources). -/
def network.getEndpoint (n : network) (eid : String) :
    Except String (Option Macvlan.endpoint) :=
  match n.endpoints.lookup eid with
  | some ep => Except.ok (some ep)
  | none => Except.error ("endpoint id " ++ eid ++ " not found")

/-! ## Vocabulary of the specification -/

/-- The specification's matching rule for one configured subnet and a
candidate address `a`: the subnet's CIDR parses, its prefix length equals the
length of `a`'s own mask, and its network contains `a`'s IP. -/
def subnetMatches (a : IPNet) (s : ipSubnet) : Bool :=
  match ParseCIDR s.SubnetIP with
  | none => false
  | some (_, snet) => decide ((Size snet.Mask).1 = (Size a.Mask).1) && Contains snet a.IP

/-- Address `10.0.0.5/24`. -/
def addr_10_0_0_5 : IPNet := { IP := [10, 0, 0, 5], Mask := [255, 255, 255, 0] }

/-- Address `10.0.1.5/24`. -/
def addr_10_0_1_5 : IPNet := { IP := [10, 0, 1, 5], Mask := [255, 255, 255, 0] }

/-- Subnet `10.0.0.0/24` with its gateway in CIDR form. -/
def subnet24 : ipSubnet := { SubnetIP := "10.0.0.0/24", GwIP := "10.0.0.1/24" }

/-- Subnet `10.0.0.0/16`: contains `10.0.0.5` but has another prefix length. -/
def subnet16 : ipSubnet := { SubnetIP := "10.0.0.0/16", GwIP := "10.0.0.1/16" }

/-- Subnet `10.1.0.0/24`. -/
def subnetOther : ipSubnet := { SubnetIP := "10.1.0.0/24", GwIP := "10.1.0.1/24" }

/-- An entry whose subnet text is not a CIDR. -/
def subnetBad : ipSubnet := { SubnetIP := "10.0.0.0", GwIP := "10.0.0.1/24" }

/-- Collaborators that all succeed: the created interface keeps the
candidate name. -/
def okCollab : Collab where
  GenerateIfaceName := Except.ok "veth0a1b2c3"
  createMacVlan := fun containerIfName _ _ => Except.ok containerIfName
  SetGateway := fun _ => none
  SetGatewayIPv6 := fun _ => none
  SetNames := fun _ _ _ => none
  storeUpdate := fun _ => none
  containerVethPrefix := "eth"
  GetIfname := fun _ => ""

/-- A driver with one network `n1` holding one endpoint `e1`. -/
def oneNetwork (internal : Bool) (s4 s6 : List ipSubnet) (a a6 : Option IPNet) : driver :=
  { networks :=
      [("n1",
        { id := "n1",
          config := { Internal := internal, Parent := "eth0", MacvlanMode := "bridge",
                      Ipv4Subnets := s4, Ipv6Subnets := s6 },
          endpoints := [("e1", { id := "e1", nid := "n1", addr := a, addrv6 := a6,
                                 srcName := "" })] })] }

/-- The subnet of the specification's scenario, gateway written `10.0.0.1`. -/
def subnetScenario : ipSubnet := { SubnetIP := "10.0.0.0/24", GwIP := "10.0.0.1" }

/-- Subnet `fd00::/64` with its gateway in CIDR form. -/
def subnetV6 : ipSubnet := { SubnetIP := "fd00::/64", GwIP := "fd00::1/64" }

/-- Address `fd00::5/64`. -/
def addr_fd00_5 : IPNet :=
  { IP := [253, 0, 0, 0, 0, 0, 0, 0, 0, 0, 0, 0, 0, 0, 0, 5],
    Mask := [255, 255, 255, 255, 255, 255, 255, 255, 0, 0, 0, 0, 0, 0, 0, 0] }

/-- Address `fd01::5/64`, outside `fd00::/64`. -/
def addr_fd01_5 : IPNet :=
  { IP := [253, 1, 0, 0, 0, 0, 0, 0, 0, 0, 0, 0, 0, 0, 0, 5],
    Mask := [255, 255, 255, 255, 255, 255, 255, 255, 0, 0, 0, 0, 0, 0, 0, 0] }

/-- A call made to resolve a subnet. -/
def Event.isResolve : Event → Bool
  | Event.getSubnetforIPv4 _ => true
  | Event.getSubnetforIPv6 _ => true
  | _ => false

/-- A call that hands a gateway to the join-info object. -/
def Event.isSetGateway : Event → Bool
  | Event.SetGateway _ => true
  | Event.SetGatewayIPv6 _ => true
  | _ => false

/-- The `SetNames` call. -/
def Event.isSetNames : Event → Bool
  | Event.SetNames _ _ _ => true
  | _ => false

/-- The store update. -/
def Event.isStoreUpdate : Event → Bool
  | Event.storeUpdate _ => true
  | _ => false

/-- The endpoint `e` as `Join` sees it after binding `vethName`. -/
def bound (e : endpoint) (vethName : String) : endpoint := { e with srcName := vethName }

/-- The network `n` after `Join` bound `vethName` to endpoint `eid`. -/
def boundNetwork (n : network) (eid vethName : String) : network :=
  { n with endpoints := setSrcName eid vethName n.endpoints }

/-- Collaborators that all succeed, and a kernel that names the created
interface `veth9z8y7x6` whatever candidate it is given. -/
def renamingCollab : Collab where
  GenerateIfaceName := Except.ok "veth0a1b2c3"
  createMacVlan := fun _ _ _ => Except.ok "veth9z8y7x6"
  SetGateway := fun _ => none
  SetGatewayIPv6 := fun _ => none
  SetNames := fun _ _ _ => none
  storeUpdate := fun _ => none
  containerVethPrefix := "eth"
  GetIfname := fun _ => "net0"

/-- Collaborators that succeed up to the store update, which fails. -/
def storeFailCollab : Collab where
  GenerateIfaceName := Except.ok "veth0a1b2c3"
  createMacVlan := fun containerIfName _ _ => Except.ok containerIfName
  SetGateway := fun _ => none
  SetGatewayIPv6 := fun _ => none
  SetNames := fun _ _ _ => none
  storeUpdate := fun _ => some "boom"
  containerVethPrefix := "eth"
  GetIfname := fun _ => ""

/-- Collaborators whose interface-name generation fails. -/
def genFailCollab : Collab where
  GenerateIfaceName := Except.error "boom"
  createMacVlan := fun containerIfName _ _ => Except.ok containerIfName
  SetGateway := fun _ => none
  SetGatewayIPv6 := fun _ => none
  SetNames := fun _ _ _ => none
  storeUpdate := fun _ => none
  containerVethPrefix := "eth"
  GetIfname := fun _ => ""

/-- A driver with one network `n1` (not internal, no subnets) holding one
endpoint stored under, and carrying, the identifier `eid`. -/
def oneEndpoint (eid : String) : driver :=
  { networks :=
      [("n1",
        { id := "n1",
          config := { Internal := false, Parent := "eth0", MacvlanMode := "bridge",
                      Ipv4Subnets := [], Ipv6Subnets := [] },
          endpoints := [(eid, { id := eid, nid := "n1", addr := none, addrv6 := none,
                                srcName := "" })] })] }

/-- The store update's error text for endpoint identifier `id` and store error
`e`: `%.7s` keeps the first seven characters of `id`. -/
def storeErrorText (id e : String) : String :=
  "failed to save macvlan endpoint " ++ String.mk (id.data.take 7) ++ " to store: " ++ e

/-- The four ways `Join` can end before the interface exists. -/
def failsBeforeCreation (c : Collab) (d : driver) (nid eid : String) : Prop :=
  (∃ msg, getNetwork d nid = Except.error msg) ∨
  (∃ n, getNetwork d nid = Except.ok n ∧ n.endpoint eid = none) ∨
  (∃ n msg, getNetwork d nid = Except.ok n ∧ c.GenerateIfaceName = Except.error msg) ∨
  (∃ n ifName msg, getNetwork d nid = Except.ok n ∧ c.GenerateIfaceName = Except.ok ifName ∧
    c.createMacVlan ifName n.config.Parent n.config.MacvlanMode = Except.error msg)

/-- The gateway steps the policy mandates on a network that is not internal,
all succeeding: with v4 subnets configured, the v4 address resolves to a
subnet whose gateway parses and `SetGateway` accepts it; with a v6 address and
v6 subnets configured, the same for v6. -/
def gatewayStepsSucceed (c : Collab) (cfg : configuration) (e : endpoint) : Prop :=
  (cfg.Ipv4Subnets ≠ [] →
    ∃ S gw gwnet, getSubnetforIPv4 cfg.Ipv4Subnets e.addr = Run.done (some S) ∧
      ParseCIDR S.GwIP = some (gw, gwnet) ∧ c.SetGateway gw = none) ∧
  (e.addrv6 ≠ none → cfg.Ipv6Subnets ≠ [] →
    ∃ S gw gwnet, getSubnetforIPv6 cfg.Ipv6Subnets e.addrv6 = Run.done (some S) ∧
      ParseCIDR S.GwIP = some (gw, gwnet) ∧ c.SetGatewayIPv6 gw = none)

/-- The message contains the identifier. -/
def includesId (id msg : String) : Prop := id.data <:+: msg.data

/-- Errors that `Join` or `Leave` build around the endpoint identifier `eid`
passed to the call. -/
def builtWithEid (eid msg : String) : Prop :=
  msg = "could not find endpoint with id " ++ eid ∨
  msg = "could not find a valid ipv4 subnet for endpoint " ++ eid ∨
  msg = "could not find a valid ipv6 subnet for endpoint " ++ eid

/-- Errors that `Join` builds without the endpoint identifier passed to the
call: name generation (the collaborator's error text), invalid gateway (the
gateway text) and store failure (seven characters of the stored endpoint's
identifier). -/
def builtWithoutEid (msg : String) : Prop :=
  (∃ e, msg = "error generating an interface name: " ++ e) ∨
  (∃ g, msg = "gateway " ++ g ++ " is not a valid ipv4 address: " ++ parseErrorText g) ∨
  (∃ g, msg = "gateway " ++ g ++ " is not a valid ipv6 address: " ++ parseErrorText g) ∨
  (∃ id e, msg = storeErrorText id e)

/-- Errors of `Join`'s collaborators, returned as they are. -/
def passedThrough (c : Collab) (d : driver) (nid msg : String) : Prop :=
  getNetwork d nid = Except.error msg ∨
  (∃ a b m, c.createMacVlan a b m = Except.error msg) ∨
  (∃ gw, c.SetGateway gw = some msg) ∨
  (∃ gw, c.SetGatewayIPv6 gw = some msg) ∨
  (∃ a b m, c.SetNames a b m = some msg)

end Macvlan

/-! # Conversion between API types and the cluster wire format

A shallow embedding of the reference converters of
`daemon/cluster/convert/container.go`.  The Go packages `types` (the engine's
API types) and `swarmapi` (the generated wire types) are not among the sources:
their structs are written out here with the fields the converters read and
write.  A pointer field that may be nil is an `Option`; the list arguments hold
non-nil references. -/

namespace Convert

namespace types

/-- Go `types.SecretReferenceFileTarget`; `Mode` is an `os.FileMode`. -/
structure SecretReferenceFileTarget where
  Name : String
  UID : String
  GID : String
  Mode : Nat
deriving DecidableEq, Repr

/-- Go `types.SecretReference`. -/
structure SecretReference where
  File : Option SecretReferenceFileTarget
  SecretID : String
  SecretName : String
deriving DecidableEq, Repr

/-- Go `types.ConfigReferenceFileTarget`; `Mode` is an `os.FileMode`. -/
structure ConfigReferenceFileTarget where
  Name : String
  UID : String
  GID : String
  Mode : Nat
deriving DecidableEq, Repr

/-- Go `types.ConfigReferenceRuntimeTarget`, a struct without fields. -/
structure ConfigReferenceRuntimeTarget where
deriving DecidableEq, Repr

/-- Go `types.ConfigReference`. -/
structure ConfigReference where
  File : Option ConfigReferenceFileTarget
  Runtime : Option ConfigReferenceRuntimeTarget
  ConfigID : String
  ConfigName : String
deriving DecidableEq, Repr

/-- Go `types.CredentialSpec`. -/
structure CredentialSpec where
  Config : String
  File : String
  Registry : String
deriving DecidableEq, Repr

end types

namespace swarmapi

/-- Go `swarmapi.FileTarget`; `Mode` is an `os.FileMode`. -/
structure FileTarget where
  Name : String
  UID : String
  GID : String
  Mode : Nat
deriving DecidableEq, Repr

/-- Go `swarmapi.RuntimeTarget`, a message without fields. -/
structure RuntimeTarget where
deriving DecidableEq, Repr

/-- Go `isSecretReference_Target`: the one wrapper `SecretReference_File`,
whose `File` pointer may be nil. -/
inductive SecretReference_Target where
  | File (File : Option FileTarget)
deriving DecidableEq, Repr

/-- Go `swarmapi.SecretReference`; `Target` is an interface value, nil when
unset. -/
structure SecretReference where
  SecretID : String
  SecretName : String
  Target : Option SecretReference_Target
deriving DecidableEq, Repr

/-- Go `(*SecretReference).GetFile`. -/
def SecretReference.GetFile (m : SecretReference) : Option FileTarget :=
  match m.Target with
  | some (SecretReference_Target.File x) => x
  | none => none

/-- Go `isConfigReference_Target`: the wrappers `ConfigReference_File` and
`ConfigReference_Runtime`, whose inner pointers may be nil. -/
inductive ConfigReference_Target where
  | File (File : Option FileTarget)
  | Runtime (Runtime : Option RuntimeTarget)
deriving DecidableEq, Repr

/-- Go `swarmapi.ConfigReference`. -/
structure ConfigReference where
  ConfigID : String
  ConfigName : String
  Target : Option ConfigReference_Target
deriving DecidableEq, Repr

/-- Go `(*ConfigReference).GetRuntime`. -/
def ConfigReference.GetRuntime (m : ConfigReference) : Option RuntimeTarget :=
  match m.Target with
  | some (ConfigReference_Target.Runtime x) => x
  | _ => none

/-- Go `(*ConfigReference).GetFile`. -/
def ConfigReference.GetFile (m : ConfigReference) : Option FileTarget :=
  match m.Target with
  | some (ConfigReference_Target.File x) => x
  | _ => none

/-- Go `isPrivileges_CredentialSpec_Source`: the three wrappers. -/
inductive Privileges_CredentialSpec_Source where
  | Config (Config : String)
  | File (File : String)
  | Registry (Registry : String)
deriving DecidableEq, Repr

/-- Go `swarmapi.Privileges_CredentialSpec`. -/
structure Privileges_CredentialSpec where
  Source : Option Privileges_CredentialSpec_Source
deriving DecidableEq, Repr

/-- Go `(*Privileges_CredentialSpec).GetConfig`. -/
def Privileges_CredentialSpec.GetConfig (m : Privileges_CredentialSpec) : String :=
  match m.Source with
  | some (Privileges_CredentialSpec_Source.Config x) => x
  | _ => ""

/-- Go `(*Privileges_CredentialSpec).GetFile`. -/
def Privileges_CredentialSpec.GetFile (m : Privileges_CredentialSpec) : String :=
  match m.Source with
  | some (Privileges_CredentialSpec_Source.File x) => x
  | _ => ""

/-- Go `(*Privileges_CredentialSpec).GetRegistry`. -/
def Privileges_CredentialSpec.GetRegistry (m : Privileges_CredentialSpec) : String :=
  match m.Source with
  | some (Privileges_CredentialSpec_Source.Registry x) => x
  | _ => ""

end swarmapi

/-- Loop of Go `secretReferencesToGRPC`: `refs` holds what was appended so
far. -/
def secretReferencesToGRPCLoop (refs : List swarmapi.SecretReference) :
    List types.SecretReference → List swarmapi.SecretReference
  | [] => refs
  | s :: rest =>
    let ref : swarmapi.SecretReference :=
      { SecretID := s.SecretID, SecretName := s.SecretName, Target := none }
    match s.File with
    | some f =>
      secretReferencesToGRPCLoop
        (refs ++ [{ ref with Target := some (swarmapi.SecretReference_Target.File
          (some { Name := f.Name, UID := f.UID, GID := f.GID, Mode := f.Mode })) }]) rest
    | none => secretReferencesToGRPCLoop (refs ++ [ref]) rest

/-- Go `secretReferencesToGRPC`. -/
def secretReferencesToGRPC (sr : List types.SecretReference) : List swarmapi.SecretReference :=
  secretReferencesToGRPCLoop [] sr

/-- Loop of Go `secretReferencesFromGRPC`; a reference without file target is
skipped (`continue`). -/
def secretReferencesFromGRPCLoop (refs : List types.SecretReference) :
    List swarmapi.SecretReference → List types.SecretReference
  | [] => refs
  | s :: rest =>
    match s.GetFile with
    | none => secretReferencesFromGRPCLoop refs rest
    | some target =>
      secretReferencesFromGRPCLoop
        (refs ++ [{ File := some { Name := target.Name, UID := target.UID, GID := target.GID,
                                   Mode := target.Mode },
                    SecretID := s.SecretID, SecretName := s.SecretName }]) rest

/-- Go `secretReferencesFromGRPC`. -/
def secretReferencesFromGRPC (sr : List swarmapi.SecretReference) : List types.SecretReference :=
  secretReferencesFromGRPCLoop [] sr

/-- Loop of Go `configReferencesToGRPC`: the first reference with no target or
with both targets ends the conversion with an error. -/
def configReferencesToGRPCLoop (refs : List swarmapi.ConfigReference) :
    List types.ConfigReference → Except String (List swarmapi.ConfigReference)
  | [] => Except.ok refs
  | s :: rest =>
    let ref : swarmapi.ConfigReference :=
      { ConfigID := s.ConfigID, ConfigName := s.ConfigName, Target := none }
    if s.Runtime = none ∧ s.File = none then
      Except.error "either File or Runtime should be set"
    else if s.Runtime ≠ none ∧ s.File ≠ none then
      Except.error "cannot specify both File and Runtime"
    else if s.Runtime ≠ none then
      configReferencesToGRPCLoop
        (refs ++ [{ ref with Target := some (swarmapi.ConfigReference_Target.Runtime
          (some {})) }]) rest
    else
      match s.File with
      | some f =>
        configReferencesToGRPCLoop
          (refs ++ [{ ref with Target := some (swarmapi.ConfigReference_Target.File
            (some { Name := f.Name, UID := f.UID, GID := f.GID, Mode := f.Mode })) }]) rest
      | none => configReferencesToGRPCLoop (refs ++ [ref]) rest

/-- Go `configReferencesToGRPC`. -/
def configReferencesToGRPC (sr : List types.ConfigReference) :
    Except String (List swarmapi.ConfigReference) :=
  configReferencesToGRPCLoop [] sr

/-- Loop of Go `configReferencesFromGRPC`; a reference with neither target is
skipped (`continue`). -/
def configReferencesFromGRPCLoop (refs : List types.ConfigReference) :
    List swarmapi.ConfigReference → List types.ConfigReference
  | [] => refs
  | s :: rest =>
    let r : types.ConfigReference :=
      { File := none, Runtime := none, ConfigID := s.ConfigID, ConfigName := s.ConfigName }
    match s.GetRuntime with
    | some _ => configReferencesFromGRPCLoop (refs ++ [{ r with Runtime := some {} }]) rest
    | none =>
      match s.GetFile with
      | some target =>
        configReferencesFromGRPCLoop
          (refs ++ [{ r with File := some { Name := target.Name, UID := target.UID,
                                            GID := target.GID, Mode := target.Mode } }]) rest
      | none => configReferencesFromGRPCLoop refs rest

/-- Go `configReferencesFromGRPC`. -/
def configReferencesFromGRPC (sr : List swarmapi.ConfigReference) : List types.ConfigReference :=
  configReferencesFromGRPCLoop [] sr

/-- Go `credentialSpecFromGRPC`: the type switch on `c.Source`. -/
def credentialSpecFromGRPC (c : swarmapi.Privileges_CredentialSpec) : types.CredentialSpec :=
  let cs : types.CredentialSpec := { Config := "", File := "", Registry := "" }
  match c.Source with
  | some (swarmapi.Privileges_CredentialSpec_Source.Config _) => { cs with Config := c.GetConfig }
  | some (swarmapi.Privileges_CredentialSpec_Source.File _) => { cs with File := c.GetFile }
  | some (swarmapi.Privileges_CredentialSpec_Source.Registry _) =>
    { cs with Registry := c.GetRegistry }
  | none => cs

/-- The option name between double quotes, as the Go raw strings spell it. -/
def quoted (name : String) : String :=
  String.singleton (Char.ofNat 34) ++ name ++ String.singleton (Char.ofNat 34)

/-- The `opts` slice of Go `credentialSpecToGRPC`: the names of the fields
that are set, in the order config, file, registry. -/
def credentialSpecOpts (c : types.CredentialSpec) : List String :=
  let opts0 : List String := []
  let opts1 := if c.Config ≠ "" then opts0 ++ [quoted "config"] else opts0
  let opts2 := if c.File ≠ "" then opts1 ++ [quoted "file"] else opts1
  if c.Registry ≠ "" then opts2 ++ [quoted "registry"] else opts2

/-- Go `credentialSpecToGRPC`. -/
def credentialSpecToGRPC (c : types.CredentialSpec) :
    Except String swarmapi.Privileges_CredentialSpec :=
  let opts := credentialSpecOpts c
  let l := opts.length
  if l = 0 then
    Except.error ("must either provide " ++ quoted "file" ++ ", " ++ quoted "registry"
      ++ ", or " ++ quoted "config" ++ " for credential spec")
  else if l = 2 then
    Except.error ("cannot specify both " ++ opts.getD 0 "" ++ " and " ++ opts.getD 1 ""
      ++ " credential specs")
  else if l > 2 then
    Except.error ("cannot specify both " ++ ", ".intercalate (opts.take (l - 1)) ++ ", and "
      ++ opts.getD (l - 1) "" ++ " credential specs")
  else
    Except.ok
      { Source :=
          if c.Config ≠ "" then some (swarmapi.Privileges_CredentialSpec_Source.Config c.Config)
          else if c.File ≠ "" then some (swarmapi.Privileges_CredentialSpec_Source.File c.File)
          else if c.Registry ≠ "" then
            some (swarmapi.Privileges_CredentialSpec_Source.Registry c.Registry)
          else none }

/-! ## Vocabulary of the converter claims -/

/-- Exactly one of `Config`, `File` and `Registry` is a non-empty string. -/
def exactlyOneSource (c : types.CredentialSpec) : Prop :=
  (c.Config ≠ "" ∧ c.File = "" ∧ c.Registry = "") ∨
  (c.Config = "" ∧ c.File ≠ "" ∧ c.Registry = "") ∨
  (c.Config = "" ∧ c.File = "" ∧ c.Registry ≠ "")

/-- Exactly one of `File` and `Runtime` is set. -/
def exactlyOneTarget (s : types.ConfigReference) : Prop :=
  (s.File ≠ none ∧ s.Runtime = none) ∨ (s.File = none ∧ s.Runtime ≠ none)

/-- The wire form the claims expect for one config reference: the same
`ConfigID` and `ConfigName`, a Runtime target when `Runtime` is set, a File
target with the same `Name`, `UID`, `GID` and `Mode` when `File` is set. -/
def expectedConfigReference (s : types.ConfigReference) : swarmapi.ConfigReference :=
  { ConfigID := s.ConfigID,
    ConfigName := s.ConfigName,
    Target :=
      match s.Runtime, s.File with
      | some _, _ => some (swarmapi.ConfigReference_Target.Runtime (some {}))
      | none, some f =>
        some (swarmapi.ConfigReference_Target.File
          (some { Name := f.Name, UID := f.UID, GID := f.GID, Mode := f.Mode }))
      | none, none => none }

/-- The wire form of one secret reference: the same `SecretID` and
`SecretName`, a File target with the same fields when `File` is set, no target
otherwise. -/
def expectedSecretReference (s : types.SecretReference) : swarmapi.SecretReference :=
  { SecretID := s.SecretID,
    SecretName := s.SecretName,
    Target :=
      match s.File with
      | some f =>
        some (swarmapi.SecretReference_Target.File
          (some { Name := f.Name, UID := f.UID, GID := f.GID, Mode := f.Mode }))
      | none => none }

/-- A config reference with a file target. -/
def configWithFile : types.ConfigReference :=
  { File := some { Name := "app.conf", UID := "0", GID := "0", Mode := 292 },
    Runtime := none, ConfigID := "cfg1", ConfigName := "app" }

/-- A config reference with a runtime target. -/
def configWithRuntime : types.ConfigReference :=
  { File := none, Runtime := some {}, ConfigID := "cfg2", ConfigName := "spec" }

/-- A config reference with no target. -/
def configWithNothing : types.ConfigReference :=
  { File := none, Runtime := none, ConfigID := "cfg3", ConfigName := "bare" }

/-- A secret reference with a file target. -/
def secretWithFile : types.SecretReference :=
  { File := some { Name := "key.pem", UID := "0", GID := "0", Mode := 256 },
    SecretID := "sec1", SecretName := "key" }

/-- A secret reference without file target. -/
def secretWithoutFile : types.SecretReference :=
  { File := none, SecretID := "sec2", SecretName := "bare" }

end Convert

namespace Macvlan

/-! ## Subnet resolution -/

theorem getSubnetForIP_cons_unparsed (a : IPNet) (s : ipSubnet) (rest : List ipSubnet)
    (h : ParseCIDR s.SubnetIP = none) :
    getSubnetForIP (some a) (s :: rest) = Run.done none := by
  simp [getSubnetForIP, h]

theorem subnetMatches_unparsed (a : IPNet) (s : ipSubnet)
    (h : ParseCIDR s.SubnetIP = none) : subnetMatches a s = false := by
  simp [subnetMatches, h]

theorem getSubnetForIP_cons_match (a : IPNet) (s : ipSubnet) (rest : List ipSubnet)
    (h : subnetMatches a s = true) :
    getSubnetForIP (some a) (s :: rest) = Run.done (some s) := by
  unfold subnetMatches at h
  cases hp : ParseCIDR s.SubnetIP with
  | none => simp [hp] at h
  | some p =>
    obtain ⟨ip, snet⟩ := p
    simp [hp] at h
    simp [getSubnetForIP, hp, h.1, h.2]

theorem getSubnetForIP_cons_skip (a : IPNet) (s : ipSubnet) (rest : List ipSubnet)
    (hp : ParseCIDR s.SubnetIP ≠ none) (h : subnetMatches a s = false) :
    getSubnetForIP (some a) (s :: rest) = getSubnetForIP (some a) rest := by
  unfold subnetMatches at h
  cases hq : ParseCIDR s.SubnetIP with
  | none => exact absurd hq hp
  | some p =>
    obtain ⟨ip, snet⟩ := p
    simp [hq] at h
    by_cases hsz : (Size snet.Mask).1 = (Size a.Mask).1
    · simp [getSubnetForIP, hq, hsz, h hsz]
    · simp [getSubnetForIP, hq, hsz]

/-- On a list whose entries all parse, the loop is `List.find?` for the
matching rule. -/
theorem getSubnetForIP_eq_find (a : IPNet) (L : List ipSubnet)
    (hparse : ∀ s ∈ L, ParseCIDR s.SubnetIP ≠ none) :
    getSubnetForIP (some a) L = Run.done (L.find? (subnetMatches a)) := by
  induction L with
  | nil => simp [getSubnetForIP]
  | cons s rest ih =>
    have hrest : ∀ t ∈ rest, ParseCIDR t.SubnetIP ≠ none :=
      fun t ht => hparse t (List.mem_cons_of_mem _ ht)
    cases hm : subnetMatches a s with
    | true => simp [getSubnetForIP_cons_match a s rest hm, List.find?, hm]
    | false =>
      rw [getSubnetForIP_cons_skip a s rest (hparse s (List.mem_cons_self _ _)) hm, ih hrest]
      simp [List.find?, hm]

/-- When nothing in the list matches, the result is nil, parse failures or not. -/
theorem getSubnetForIP_no_match (a : IPNet) (L : List ipSubnet)
    (h : ∀ t ∈ L, subnetMatches a t = false) :
    getSubnetForIP (some a) L = Run.done none := by
  induction L with
  | nil => simp [getSubnetForIP]
  | cons s rest ih =>
    have hs := h s (List.mem_cons_self _ _)
    have hrest : ∀ t ∈ rest, subnetMatches a t = false :=
      fun t ht => h t (List.mem_cons_of_mem _ ht)
    cases hp : ParseCIDR s.SubnetIP with
    | none => exact getSubnetForIP_cons_unparsed a s rest hp
    | some p =>
      rw [getSubnetForIP_cons_skip a s rest (by simp [hp]) hs]
      exact ih hrest

/-- A prefix without a match either ends the search with nil or hands it on
to the rest of the list. -/
theorem getSubnetForIP_append_no_match (a : IPNet) (pre rest : List ipSubnet)
    (h : ∀ t ∈ pre, subnetMatches a t = false) :
    getSubnetForIP (some a) (pre ++ rest) = Run.done none ∨
      getSubnetForIP (some a) (pre ++ rest) = getSubnetForIP (some a) rest := by
  induction pre with
  | nil => right; rfl
  | cons s pre ih =>
    have hs := h s (List.mem_cons_self _ _)
    have hpre : ∀ t ∈ pre, subnetMatches a t = false :=
      fun t ht => h t (List.mem_cons_of_mem _ ht)
    cases hp : ParseCIDR s.SubnetIP with
    | none => left; exact getSubnetForIP_cons_unparsed a s _ hp
    | some p =>
      rw [List.cons_append, getSubnetForIP_cons_skip a s _ (by simp [hp]) hs]
      exact ih hpre

/-- The result with a non-nil address is never a panic. -/
theorem getSubnetForIP_some_done (a : IPNet) (L : List ipSubnet) :
    ∃ r, getSubnetForIP (some a) L = Run.done r := by
  induction L with
  | nil => exact ⟨none, by simp [getSubnetForIP]⟩
  | cons s rest ih =>
    cases hp : ParseCIDR s.SubnetIP with
    | none => exact ⟨none, getSubnetForIP_cons_unparsed a s rest hp⟩
    | some p =>
      cases hm : subnetMatches a s with
      | true => exact ⟨some s, getSubnetForIP_cons_match a s rest hm⟩
      | false =>
        rw [getSubnetForIP_cons_skip a s rest (by simp [hp]) hm]
        exact ih

/-- A returned subnet is an entry of the list that matches the address. -/
theorem getSubnetForIP_sound (a : IPNet) (L : List ipSubnet) (s : ipSubnet)
    (h : getSubnetForIP (some a) L = Run.done (some s)) :
    s ∈ L ∧ subnetMatches a s = true := by
  induction L with
  | nil => simp [getSubnetForIP] at h
  | cons t rest ih =>
    cases hp : ParseCIDR t.SubnetIP with
    | none => rw [getSubnetForIP_cons_unparsed a t rest hp] at h; simp at h
    | some p =>
      cases hm : subnetMatches a t with
      | true =>
        rw [getSubnetForIP_cons_match a t rest hm] at h
        have : t = s := by simpa using h
        subst this
        exact ⟨List.mem_cons_self _ _, hm⟩
      | false =>
        rw [getSubnetForIP_cons_skip a t rest (by simp [hp]) hm] at h
        exact ⟨List.mem_cons_of_mem _ (ih h).1, (ih h).2⟩

/-- C1: for every candidate address `a` and every ordered subnet list `L` in
which every subnet CIDR parses, `getSubnetForIP` returns the first entry of `L`
whose prefix length equals the length of `a`'s mask and whose network contains
`a`'s IP (the entry `s` with `L = pre ++ s :: post`, `s` matching and nothing
in `pre` matching), and returns nil exactly when `L` has no such entry. -/
theorem getSubnetForIP_first_match (a : IPNet) (L : List ipSubnet)
    (hparse : ∀ s ∈ L, ParseCIDR s.SubnetIP ≠ none) :
    getSubnetForIP (some a) L = Run.done (L.find? (subnetMatches a)) ∧
    (∀ s, getSubnetForIP (some a) L = Run.done (some s) ↔
      ∃ pre post, L = pre ++ s :: post ∧ subnetMatches a s = true ∧
        ∀ t ∈ pre, subnetMatches a t = false) ∧
    (getSubnetForIP (some a) L = Run.done none ↔ ∀ t ∈ L, subnetMatches a t = false) := by
  have hfind := getSubnetForIP_eq_find a L hparse
  refine ⟨hfind, ?_, ?_⟩
  · intro s
    rw [hfind]
    constructor
    · intro h
      have h1 : L.find? (subnetMatches a) = some s := by simpa using h
      obtain ⟨hs, pre, post, hL, hpre⟩ := List.find?_eq_some.mp h1
      exact ⟨pre, post, hL, hs, fun t ht => by simpa using hpre t ht⟩
    · rintro ⟨pre, post, hL, hs, hpre⟩
      have : L.find? (subnetMatches a) = some s :=
        List.find?_eq_some.mpr ⟨hs, pre, post, hL, fun t ht => by simp [hpre t ht]⟩
      rw [this]
  · rw [hfind]
    constructor
    · intro h
      have h1 : L.find? (subnetMatches a) = none := by simpa using h
      intro t ht
      have := List.find?_eq_none.mp h1 t ht
      simpa using this
    · intro h
      have : L.find? (subnetMatches a) = none :=
        List.find?_eq_none.mpr (fun t ht => by simp [h t ht])
      rw [this]

/-- Witness for C1: in `[10.1.0.0/24, 10.0.0.0/24]` the address `10.0.0.5/24`
resolves to the second entry. -/
theorem getSubnetForIP_first_match_witness :
    getSubnetForIP (some addr_10_0_0_5) [subnetOther, subnet24] = Run.done (some subnet24) :=
  ((getSubnetForIP_first_match addr_10_0_0_5 [subnetOther, subnet24] (by decide)).2.1
    subnet24).mpr ⟨[subnetOther], [], rfl, by decide, by decide⟩

/-- C7: if an entry of the list fails to parse as a CIDR and no entry before it
matches the address, `getSubnetForIP` returns nil, whatever follows the
unparsable entry. -/
theorem getSubnetForIP_parse_failure_aborts (a : IPNet) (pre post : List ipSubnet)
    (s : ipSubnet) (hbad : ParseCIDR s.SubnetIP = none)
    (hpre : ∀ t ∈ pre, subnetMatches a t = false) :
    getSubnetForIP (some a) (pre ++ s :: post) = Run.done none := by
  rcases getSubnetForIP_append_no_match a pre (s :: post) hpre with h | h
  · exact h
  · rw [h]
    exact getSubnetForIP_cons_unparsed a s post hbad

/-- Witness for C7: `10.0.0.0/24` matches `10.0.0.5/24`, but it stands behind
an entry that does not parse, so the result is nil. -/
theorem getSubnetForIP_parse_failure_aborts_witness :
    subnetMatches addr_10_0_0_5 subnet24 = true ∧
    getSubnetForIP (some addr_10_0_0_5) ([subnetOther] ++ subnetBad :: [subnet24])
      = Run.done none :=
  ⟨by decide,
    getSubnetForIP_parse_failure_aborts addr_10_0_0_5 [subnetOther] [subnet24] subnetBad
      (by decide) (by decide)⟩

/-- C8 as stated fails: in `[unparsable, 10.0.0.0/24]` exactly one entry has
the prefix length of `10.0.0.5/24` and contains it, and the result is nil. -/
theorem getSubnetForIP_unique_counterexample :
    subnet24 ∈ [subnetBad, subnet24] ∧
    subnetMatches addr_10_0_0_5 subnet24 = true ∧
    (∀ T ∈ [subnetBad, subnet24], subnetMatches addr_10_0_0_5 T = true → T = subnet24) ∧
    getSubnetForIP (some addr_10_0_0_5) [subnetBad, subnet24] = Run.done none := by
  decide

/-- C8, amended: when exactly one entry `S` of the list has the prefix length
of `a`'s mask and contains `a`, and every entry before `S` parses,
`getSubnetForIP` returns `S`; when no entry of the list matches `a`, it
returns nil. -/
theorem getSubnetForIP_unique (a : IPNet) (L : List ipSubnet) :
    (∀ pre post S, L = pre ++ S :: post →
      (∀ t ∈ pre, ParseCIDR t.SubnetIP ≠ none) →
      subnetMatches a S = true →
      (∀ T ∈ L, subnetMatches a T = true → T = S) →
      getSubnetForIP (some a) L = Run.done (some S)) ∧
    ((∀ T ∈ L, subnetMatches a T = false) →
      getSubnetForIP (some a) L = Run.done none) := by
  refine ⟨?_, getSubnetForIP_no_match a L⟩
  intro pre post S hL hparse hS huniq
  subst hL
  induction pre with
  | nil => exact getSubnetForIP_cons_match a S post hS
  | cons t pre ih =>
    cases hm : subnetMatches a t with
    | true =>
      have : t = S := huniq t (List.mem_cons_self _ _) hm
      subst this
      exact getSubnetForIP_cons_match a t _ hm
    | false =>
      rw [List.cons_append,
        getSubnetForIP_cons_skip a t _ (hparse t (List.mem_cons_self _ _)) hm]
      exact ih (fun u hu => hparse u (List.mem_cons_of_mem _ hu))
        (fun T hT => huniq T (List.mem_cons_of_mem _ hT))

/-- Witness for C8: in `[10.1.0.0/24, 10.0.0.0/24, 10.0.0.0/16]` only the
second entry matches `10.0.0.5/24`, and it is returned. -/
theorem getSubnetForIP_unique_witness :
    getSubnetForIP (some addr_10_0_0_5) [subnetOther, subnet24, subnet16]
      = Run.done (some subnet24) :=
  (getSubnetForIP_unique addr_10_0_0_5 [subnetOther, subnet24, subnet16]).1
    [subnetOther] [subnet16] subnet24 rfl (by decide) (by decide) (by decide)

/-- C9: `getSubnetForIP` never returns a subnet whose prefix length differs from
the length of the address's mask, whether or not its network contains the
address. -/
theorem getSubnetForIP_never_other_prefix (a : IPNet) (L : List ipSubnet) (S : ipSubnet)
    (ip : IP) (snet : IPNet) (hS : ParseCIDR S.SubnetIP = some (ip, snet))
    (hlen : (Size snet.Mask).1 ≠ (Size a.Mask).1) :
    getSubnetForIP (some a) L ≠ Run.done (some S) := by
  intro h
  have hm := (getSubnetForIP_sound a L S h).2
  simp [subnetMatches, hS, hlen] at hm

/-- Witness for C9: `10.0.0.0/16` contains `10.0.0.5`, but the address carries
a `/24` mask, and the subnet is not returned. -/
theorem getSubnetForIP_never_other_prefix_witness :
    Contains { IP := [10, 0, 0, 0], Mask := [255, 255, 0, 0] } addr_10_0_0_5.IP = true ∧
    getSubnetForIP (some addr_10_0_0_5) [subnet16] ≠ Run.done (some subnet16) :=
  ⟨by decide,
    getSubnetForIP_never_other_prefix addr_10_0_0_5 [subnet16] subnet16
      [0, 0, 0, 0, 0, 0, 0, 0, 0, 0, 255, 255, 10, 0, 0, 0]
      { IP := [10, 0, 0, 0], Mask := [255, 255, 0, 0] } (by decide) (by decide)⟩

/-! ## Join: reaching the gateway-policy step -/

theorem lookup_setSrcName (eid vethName : String) (l : List (String × endpoint)) :
    (setSrcName eid vethName l).lookup eid = (l.lookup eid).map (fun e => bound e vethName) := by
  induction l with
  | nil => simp [setSrcName]
  | cons p rest ih =>
    obtain ⟨k, e⟩ := p
    by_cases h : (eid == k) = true
    · simp [setSrcName, h, List.lookup, bound]
    · have h1 : (eid == k) = false := by simpa using h
      simp [setSrcName, h1, List.lookup, ih]

theorem boundNetwork_endpoint (n : network) (eid vethName : String) (e : endpoint)
    (he : n.endpoint eid = some e) :
    (boundNetwork n eid vethName).endpoint eid = some (bound e vethName) := by
  unfold network.endpoint at he
  simp [boundNetwork, network.endpoint, lookup_setSrcName, he]

/-- The call of `Join` once network and endpoint are found and the interface
is created: what remains is the gateway-policy step and the final stage. -/
theorem Join_reached (c : Collab) (d : driver) (nid eid : String) (epOpts : Options)
    (n : network) (e : endpoint) (ifName vethName : String)
    (hn : getNetwork d nid = Except.ok n) (he : n.endpoint eid = some e)
    (hgen : c.GenerateIfaceName = Except.ok ifName)
    (hcreate : c.createMacVlan ifName n.config.Parent n.config.MacvlanMode
      = Except.ok vethName) :
    Join c d nid eid epOpts =
      match gatewayPolicy c (boundNetwork n eid vethName) (bound e vethName) eid with
      | (ev1, some r) =>
        ⟨r, [Event.GenerateIfaceName,
              Event.createMacVlan ifName n.config.Parent n.config.MacvlanMode] ++ ev1,
          { networks := setNetwork nid (boundNetwork n eid vethName) d.networks }⟩
      | (ev1, none) =>
        match joinFinish c (bound e vethName) vethName epOpts with
        | (ev2, some r) =>
          ⟨r, [Event.GenerateIfaceName,
                Event.createMacVlan ifName n.config.Parent n.config.MacvlanMode] ++ ev1 ++ ev2,
            { networks := setNetwork nid (boundNetwork n eid vethName) d.networks }⟩
        | (ev2, none) =>
          ⟨Ret.nil, [Event.GenerateIfaceName,
                Event.createMacVlan ifName n.config.Parent n.config.MacvlanMode] ++ ev1 ++ ev2,
            { networks := setNetwork nid (boundNetwork n eid vethName) d.networks }⟩ := by
  have hb := boundNetwork_endpoint n eid vethName e he
  unfold boundNetwork at hb
  unfold Join
  simp only [hn, he, hgen, hcreate, hb]
  rfl

/-- The calls of a reached `Join`: the two creation calls, those of the
gateway-policy step and, when that step falls through, those of the final
stage. -/
theorem Join_reached_events (c : Collab) (d : driver) (nid eid : String) (epOpts : Options)
    (n : network) (e : endpoint) (ifName vethName : String)
    (hn : getNetwork d nid = Except.ok n) (he : n.endpoint eid = some e)
    (hgen : c.GenerateIfaceName = Except.ok ifName)
    (hcreate : c.createMacVlan ifName n.config.Parent n.config.MacvlanMode
      = Except.ok vethName) :
    (Join c d nid eid epOpts).events =
      [Event.GenerateIfaceName,
        Event.createMacVlan ifName n.config.Parent n.config.MacvlanMode]
      ++ (gatewayPolicy c (boundNetwork n eid vethName) (bound e vethName) eid).1
      ++ (match (gatewayPolicy c (boundNetwork n eid vethName) (bound e vethName) eid).2 with
          | some _ => []
          | none => (joinFinish c (bound e vethName) vethName epOpts).1) := by
  rw [Join_reached c d nid eid epOpts n e ifName vethName hn he hgen hcreate]
  rcases hP : gatewayPolicy c (boundNetwork n eid vethName) (bound e vethName) eid
    with ⟨ev1, _ | r⟩
  · rcases hF : joinFinish c (bound e vethName) vethName epOpts with ⟨ev2, _ | r2⟩ <;> simp
  · simp

/-- The result of a reached `Join`: that of the gateway-policy step when it
returns, else that of the final stage. -/
theorem Join_reached_ret (c : Collab) (d : driver) (nid eid : String) (epOpts : Options)
    (n : network) (e : endpoint) (ifName vethName : String)
    (hn : getNetwork d nid = Except.ok n) (he : n.endpoint eid = some e)
    (hgen : c.GenerateIfaceName = Except.ok ifName)
    (hcreate : c.createMacVlan ifName n.config.Parent n.config.MacvlanMode
      = Except.ok vethName) :
    (Join c d nid eid epOpts).ret =
      match (gatewayPolicy c (boundNetwork n eid vethName) (bound e vethName) eid).2 with
      | some r => r
      | none =>
        match (joinFinish c (bound e vethName) vethName epOpts).2 with
        | some r => r
        | none => Ret.nil := by
  rw [Join_reached c d nid eid epOpts n e ifName vethName hn he hgen hcreate]
  rcases hP : gatewayPolicy c (boundNetwork n eid vethName) (bound e vethName) eid
    with ⟨ev1, _ | r⟩
  · rcases hF : joinFinish c (bound e vethName) vethName epOpts with ⟨ev2, _ | r2⟩ <;> simp
  · simp

/-- A `Join` that does not reach the gateway-policy step makes at most the
two creation calls. -/
theorem Join_unreached_events (c : Collab) (d : driver) (nid eid : String) (epOpts : Options)
    (h : ∀ ifName vethName n, getNetwork d nid = Except.ok n →
      c.GenerateIfaceName = Except.ok ifName →
      c.createMacVlan ifName n.config.Parent n.config.MacvlanMode ≠ Except.ok vethName) :
    (∃ msg, (Join c d nid eid epOpts).ret = Ret.err msg) ∧
    ∀ ev ∈ (Join c d nid eid epOpts).events,
      ev = Event.GenerateIfaceName ∨ ∃ a b m, ev = Event.createMacVlan a b m := by
  cases hn : getNetwork d nid with
  | error msg => simp [Join, hn]
  | ok n =>
    cases he : n.endpoint eid with
    | none => simp [Join, hn, he]
    | some e =>
      cases hgen : c.GenerateIfaceName with
      | error msg => simp [Join, hn, he, hgen]
      | ok ifName =>
        cases hcreate : c.createMacVlan ifName n.config.Parent n.config.MacvlanMode with
        | error msg => simp [Join, hn, he, hgen, hcreate]
        | ok vethName => exact absurd hcreate (h ifName vethName n hn hgen)

/-- The final stage only publishes the names and updates the store. -/
theorem joinFinish_events (c : Collab) (ep : endpoint) (vethName : String) (epOpts : Options) :
    ∀ ev ∈ (joinFinish c ep vethName epOpts).1,
      ev.isResolve = false ∧ ev.isSetGateway = false ∧ ev ≠ Event.DisableGatewayService := by
  unfold joinFinish
  intro ev hev
  cases h1 : c.SetNames vethName c.containerVethPrefix (c.GetIfname epOpts) with
  | some msg =>
    simp [h1] at hev
    subst hev
    simp [Event.isResolve, Event.isSetGateway]
  | none =>
    cases h2 : c.storeUpdate ep with
    | some msg =>
      simp [h1, h2] at hev
      rcases hev with hev | hev <;> subst hev <;> simp [Event.isResolve, Event.isSetGateway]
    | none =>
      simp [h1, h2] at hev
      rcases hev with hev | hev <;> subst hev <;> simp [Event.isResolve, Event.isSetGateway]

/-- The final stage succeeds when `SetNames` and the store update do. -/
theorem joinFinish_ok (c : Collab) (ep : endpoint) (vethName : String) (epOpts : Options)
    (hnames : c.SetNames vethName c.containerVethPrefix (c.GetIfname epOpts) = none)
    (hstore : c.storeUpdate ep = none) :
    (joinFinish c ep vethName epOpts).2 = none := by
  simp [joinFinish, hnames, hstore]

/-! ## Join: the gateway-policy step -/

theorem gatewayPolicy_internal (c : Collab) (n : network) (ep : endpoint) (eid : String)
    (hint : n.config.Internal = true) :
    gatewayPolicy c n ep eid = joinInternal n ep := by
  simp [gatewayPolicy, hint]

theorem joinInternal_ok (n : network) (ep : endpoint)
    (h4 : n.config.Ipv4Subnets ≠ [] → ep.addr ≠ none)
    (h6 : n.config.Ipv6Subnets ≠ [] → ep.addrv6 ≠ none) :
    joinInternal n ep = ([Event.DisableGatewayService], none) := by
  unfold joinInternal
  have e4 : ¬ (n.config.Ipv4Subnets.length > 0 ∧ ep.addr = none) := by
    rintro ⟨hl, ha⟩
    exact h4 (List.ne_nil_of_length_pos hl) ha
  have e6 : ¬ (n.config.Ipv6Subnets.length > 0 ∧ ep.addrv6 = none) := by
    rintro ⟨hl, ha⟩
    exact h6 (List.ne_nil_of_length_pos hl) ha
  rw [if_neg e4, if_neg e6]

/-- The v4 block when the resolution finds no subnet. -/
theorem joinV4_unresolved (c : Collab) (n : network) (ep : endpoint) (eid : String)
    (h4 : n.config.Ipv4Subnets ≠ [])
    (hres : getSubnetforIPv4 n.config.Ipv4Subnets ep.addr = Run.done none) :
    joinV4 c n ep eid =
      ([Event.getSubnetforIPv4 ep.addr],
        some (Ret.err ("could not find a valid ipv4 subnet for endpoint " ++ eid))) := by
  have hl : n.config.Ipv4Subnets.length > 0 := List.length_pos.mpr h4
  simp [joinV4, hl, hres]

/-- The v6 block when the resolution finds no subnet. -/
theorem joinV6_unresolved (c : Collab) (n : network) (ep : endpoint) (eid : String)
    (ha : ep.addrv6 ≠ none) (h6 : n.config.Ipv6Subnets ≠ [])
    (hres : getSubnetforIPv6 n.config.Ipv6Subnets ep.addrv6 = Run.done none) :
    joinV6 c n ep eid =
      ([Event.getSubnetforIPv6 ep.addrv6],
        some (Ret.err ("could not find a valid ipv6 subnet for endpoint " ++ eid))) := by
  have hl : n.config.Ipv6Subnets.length > 0 := List.length_pos.mpr h6
  simp [joinV6, hl, ha, hres]

/-- The v6 block is skipped when the endpoint has no v6 address or no v6 subnet
is configured. -/
theorem joinV6_skipped (c : Collab) (n : network) (ep : endpoint) (eid : String)
    (h : ep.addrv6 = none ∨ n.config.Ipv6Subnets = []) :
    joinV6 c n ep eid = ([], none) := by
  rcases h with h | h <;> simp [joinV6, h]

/-- The v4 block is skipped when no v4 subnet is configured. -/
theorem joinV4_skipped (c : Collab) (n : network) (ep : endpoint) (eid : String)
    (h : n.config.Ipv4Subnets = []) :
    joinV4 c n ep eid = ([], none) := by
  simp [joinV4, h]

/-- The resolution with a nil address never returns a subnet. -/
theorem getSubnetForIP_nil_addr (L : List ipSubnet) (S : ipSubnet) :
    getSubnetForIP none L ≠ Run.done (some S) := by
  cases L with
  | nil => simp [getSubnetForIP]
  | cons s rest =>
    cases hp : ParseCIDR s.SubnetIP with
    | none => simp [getSubnetForIP, hp]
    | some p => simp [getSubnetForIP, hp]

/-- The v4 block when the resolution succeeds, the gateway parses and
`SetGateway` accepts it. -/
theorem joinV4_resolved (c : Collab) (n : network) (ep : endpoint) (eid : String)
    (S : ipSubnet) (gw : IP) (gwnet : IPNet)
    (hres : getSubnetforIPv4 n.config.Ipv4Subnets ep.addr = Run.done (some S))
    (hgw : ParseCIDR S.GwIP = some (gw, gwnet)) (hset : c.SetGateway gw = none) :
    joinV4 c n ep eid = ([Event.getSubnetforIPv4 ep.addr, Event.SetGateway gw], none) := by
  have hl : n.config.Ipv4Subnets.length > 0 := by
    cases hL : n.config.Ipv4Subnets with
    | nil => simp [getSubnetforIPv4, hL, getSubnetForIP] at hres
    | cons s rest => simp
  cases ha : ep.addr with
  | none =>
    rw [ha] at hres
    exact absurd hres (getSubnetForIP_nil_addr _ S)
  | some a =>
    rw [ha] at hres
    simp [joinV4, hl, ha, hres, hgw, hset]

/-- The v6 block when the resolution succeeds, the gateway parses and
`SetGatewayIPv6` accepts it. -/
theorem joinV6_resolved (c : Collab) (n : network) (ep : endpoint) (eid : String)
    (S : ipSubnet) (gw : IP) (gwnet : IPNet)
    (hres : getSubnetforIPv6 n.config.Ipv6Subnets ep.addrv6 = Run.done (some S))
    (hgw : ParseCIDR S.GwIP = some (gw, gwnet)) (hset : c.SetGatewayIPv6 gw = none) :
    joinV6 c n ep eid = ([Event.getSubnetforIPv6 ep.addrv6, Event.SetGatewayIPv6 gw], none) := by
  have hl : n.config.Ipv6Subnets.length > 0 := by
    cases hL : n.config.Ipv6Subnets with
    | nil => simp [getSubnetforIPv6, hL, getSubnetForIP] at hres
    | cons s rest => simp
  cases ha : ep.addrv6 with
  | none =>
    rw [ha] at hres
    exact absurd hres (getSubnetForIP_nil_addr _ S)
  | some a =>
    rw [ha] at hres
    simp [joinV6, hl, ha, hres, hgw, hset]

/-- The v4 block falls through exactly when it is skipped or its resolution,
gateway parsing and `SetGateway` all succeed. -/
theorem joinV4_falls_through_iff (c : Collab) (n : network) (ep : endpoint) (eid : String) :
    (joinV4 c n ep eid).2 = none ↔
      (n.config.Ipv4Subnets ≠ [] →
        ∃ S gw gwnet, getSubnetforIPv4 n.config.Ipv4Subnets ep.addr = Run.done (some S) ∧
          ParseCIDR S.GwIP = some (gw, gwnet) ∧ c.SetGateway gw = none) := by
  constructor
  · intro h h4
    have hl : n.config.Ipv4Subnets.length > 0 := List.length_pos.mpr h4
    cases hres : getSubnetforIPv4 n.config.Ipv4Subnets ep.addr with
    | panicked => simp [joinV4, hl, hres] at h
    | done r =>
      cases r with
      | none => simp [joinV4, hl, hres] at h
      | some S =>
        cases hgw : ParseCIDR S.GwIP with
        | none => simp [joinV4, hl, hres, hgw] at h
        | some p =>
          obtain ⟨gw, gwnet⟩ := p
          cases hset : c.SetGateway gw with
          | some m => simp [joinV4, hl, hres, hgw, hset] at h
          | none => exact ⟨S, gw, gwnet, rfl, hgw, hset⟩
  · intro h
    by_cases h4 : n.config.Ipv4Subnets = []
    · rw [joinV4_skipped c n ep eid h4]
    · obtain ⟨S, gw, gwnet, hres, hgw, hset⟩ := h h4
      rw [joinV4_resolved c n ep eid S gw gwnet hres hgw hset]

/-- The v6 block falls through exactly when it is skipped or its resolution,
gateway parsing and `SetGatewayIPv6` all succeed. -/
theorem joinV6_falls_through_iff (c : Collab) (n : network) (ep : endpoint) (eid : String) :
    (joinV6 c n ep eid).2 = none ↔
      (ep.addrv6 ≠ none → n.config.Ipv6Subnets ≠ [] →
        ∃ S gw gwnet, getSubnetforIPv6 n.config.Ipv6Subnets ep.addrv6 = Run.done (some S) ∧
          ParseCIDR S.GwIP = some (gw, gwnet) ∧ c.SetGatewayIPv6 gw = none) := by
  constructor
  · intro h ha h6
    have hl : n.config.Ipv6Subnets.length > 0 := List.length_pos.mpr h6
    cases hres : getSubnetforIPv6 n.config.Ipv6Subnets ep.addrv6 with
    | panicked => simp [joinV6, hl, ha, hres] at h
    | done r =>
      cases r with
      | none => simp [joinV6, hl, ha, hres] at h
      | some S =>
        cases hgw : ParseCIDR S.GwIP with
        | none => simp [joinV6, hl, ha, hres, hgw] at h
        | some p =>
          obtain ⟨gw, gwnet⟩ := p
          cases hset : c.SetGatewayIPv6 gw with
          | some m => simp [joinV6, hl, ha, hres, hgw, hset] at h
          | none => exact ⟨S, gw, gwnet, rfl, hgw, hset⟩
  · intro h
    by_cases hs : ep.addrv6 = none ∨ n.config.Ipv6Subnets = []
    · rw [joinV6_skipped c n ep eid hs]
    · have ha : ep.addrv6 ≠ none := fun h1 => hs (Or.inl h1)
      have h6 : n.config.Ipv6Subnets ≠ [] := fun h1 => hs (Or.inr h1)
      obtain ⟨S, gw, gwnet, hres, hgw, hset⟩ := h ha h6
      rw [joinV6_resolved c n ep eid S gw gwnet hres hgw hset]

/-- Calls of the v4 block: the v4 resolution and `SetGateway`, nothing else. -/
theorem joinV4_events (c : Collab) (n : network) (ep : endpoint) (eid : String) :
    ∀ ev ∈ (joinV4 c n ep eid).1,
      ev = Event.getSubnetforIPv4 ep.addr ∨ ∃ gw, ev = Event.SetGateway gw := by
  intro ev hev
  unfold joinV4 at hev
  split at hev
  · split at hev
    · simp at hev; exact Or.inl hev
    · simp at hev; exact Or.inl hev
    · split at hev
      · simp at hev; exact Or.inl hev
      · split at hev
        · simp at hev
          rcases hev with h | h
          · exact Or.inl h
          · exact Or.inr ⟨_, h⟩
        · split at hev <;>
          · simp at hev
            rcases hev with h | h
            · exact Or.inl h
            · exact Or.inr ⟨_, h⟩
  · simp at hev

/-- Calls of the v6 block: the v6 resolution and `SetGatewayIPv6`, nothing
else. -/
theorem joinV6_events (c : Collab) (n : network) (ep : endpoint) (eid : String) :
    ∀ ev ∈ (joinV6 c n ep eid).1,
      ev = Event.getSubnetforIPv6 ep.addrv6 ∨ ∃ gw, ev = Event.SetGatewayIPv6 gw := by
  intro ev hev
  unfold joinV6 at hev
  split at hev
  · split at hev
    · simp at hev; exact Or.inl hev
    · simp at hev; exact Or.inl hev
    · split at hev
      · simp at hev; exact Or.inl hev
      · split at hev
        · simp at hev
          rcases hev with h | h
          · exact Or.inl h
          · exact Or.inr ⟨_, h⟩
        · split at hev <;>
          · simp at hev
            rcases hev with h | h
            · exact Or.inl h
            · exact Or.inr ⟨_, h⟩
  · simp at hev

@[simp] theorem boundNetwork_config (n : network) (eid vethName : String) :
    (boundNetwork n eid vethName).config = n.config := rfl

@[simp] theorem bound_addr (e : endpoint) (vethName : String) :
    (bound e vethName).addr = e.addr := rfl

@[simp] theorem bound_addrv6 (e : endpoint) (vethName : String) :
    (bound e vethName).addrv6 = e.addrv6 := rfl

/-- The error text of a failed v4 resolution names the family and ends with
the endpoint ID. -/
theorem v4_error_names (eid : String) :
    "ipv4".data <:+: ("could not find a valid ipv4 subnet for endpoint " ++ eid).data ∧
    eid.data <:+ ("could not find a valid ipv4 subnet for endpoint " ++ eid).data := by
  refine ⟨⟨"could not find a valid ".data, " subnet for endpoint ".data ++ eid.data, ?_⟩, ?_⟩
  · simp [String.data_append]
  · rw [String.data_append]
    exact List.suffix_append _ _

/-- The error text of a failed v6 resolution names the family and ends with
the endpoint ID. -/
theorem v6_error_names (eid : String) :
    "ipv6".data <:+: ("could not find a valid ipv6 subnet for endpoint " ++ eid).data ∧
    eid.data <:+ ("could not find a valid ipv6 subnet for endpoint " ++ eid).data := by
  refine ⟨⟨"could not find a valid ".data, " subnet for endpoint ".data ++ eid.data, ?_⟩, ?_⟩
  · simp [String.data_append]
  · rw [String.data_append]
    exact List.suffix_append _ _

/-- C3: on a network that is not internal and has a v4 subnet configured, if
the endpoint's v4 address resolves to no subnet then `Join` returns an error
and calls neither `SetGateway`, `SetNames` nor the store update; once the
interface is created the error is
`could not find a valid ipv4 subnet for endpoint <eid>`, which names the ipv4
family and the endpoint ID. -/
theorem Join_v4_unresolved (c : Collab) (d : driver) (nid eid : String) (epOpts : Options)
    (n : network) (e : endpoint)
    (hn : getNetwork d nid = Except.ok n) (he : n.endpoint eid = some e)
    (hint : n.config.Internal = false) (h4 : n.config.Ipv4Subnets ≠ [])
    (hres : getSubnetforIPv4 n.config.Ipv4Subnets e.addr = Run.done none) :
    (∃ msg, (Join c d nid eid epOpts).ret = Ret.err msg) ∧
    (∀ ev ∈ (Join c d nid eid epOpts).events,
      ev.isSetGateway = false ∧ ev.isSetNames = false ∧ ev.isStoreUpdate = false) ∧
    (∀ ifName vethName, c.GenerateIfaceName = Except.ok ifName →
      c.createMacVlan ifName n.config.Parent n.config.MacvlanMode = Except.ok vethName →
      (Join c d nid eid epOpts).ret
        = Ret.err ("could not find a valid ipv4 subnet for endpoint " ++ eid)) ∧
    "ipv4".data <:+: ("could not find a valid ipv4 subnet for endpoint " ++ eid).data ∧
    eid.data <:+ ("could not find a valid ipv4 subnet for endpoint " ++ eid).data := by
  have hreach : ∀ ifName vethName, c.GenerateIfaceName = Except.ok ifName →
      c.createMacVlan ifName n.config.Parent n.config.MacvlanMode = Except.ok vethName →
      (Join c d nid eid epOpts).ret
          = Ret.err ("could not find a valid ipv4 subnet for endpoint " ++ eid) ∧
        (Join c d nid eid epOpts).events =
          [Event.GenerateIfaceName,
            Event.createMacVlan ifName n.config.Parent n.config.MacvlanMode,
            Event.getSubnetforIPv4 e.addr] := by
    intro ifName vethName hgen hcreate
    have hP : gatewayPolicy c (boundNetwork n eid vethName) (bound e vethName) eid =
        ([Event.getSubnetforIPv4 e.addr],
          some (Ret.err ("could not find a valid ipv4 subnet for endpoint " ++ eid))) := by
      have := joinV4_unresolved c (boundNetwork n eid vethName) (bound e vethName) eid
        (by simpa using h4) (by simpa using hres)
      simp [gatewayPolicy, hint, this]
    constructor
    · rw [Join_reached_ret c d nid eid epOpts n e ifName vethName hn he hgen hcreate, hP]
    · rw [Join_reached_events c d nid eid epOpts n e ifName vethName hn he hgen hcreate, hP]
      simp
  refine ⟨?_, ?_, fun i v hg hc => (hreach i v hg hc).1, v4_error_names eid⟩
  · cases hgen : c.GenerateIfaceName with
    | error msg => simp [Join, hn, he, hgen]
    | ok ifName =>
      cases hcreate : c.createMacVlan ifName n.config.Parent n.config.MacvlanMode with
      | error msg => simp [Join, hn, he, hgen, hcreate]
      | ok vethName => exact ⟨_, (hreach ifName vethName hgen hcreate).1⟩
  · cases hgen : c.GenerateIfaceName with
    | error msg =>
      intro ev hev
      simp [Join, hn, he, hgen] at hev
      subst hev
      simp [Event.isSetGateway, Event.isSetNames, Event.isStoreUpdate]
    | ok ifName =>
      cases hcreate : c.createMacVlan ifName n.config.Parent n.config.MacvlanMode with
      | error msg =>
        intro ev hev
        simp [Join, hn, he, hgen, hcreate] at hev
        rcases hev with h | h <;> subst h <;>
          simp [Event.isSetGateway, Event.isSetNames, Event.isStoreUpdate]
      | ok vethName =>
        intro ev hev
        rw [(hreach ifName vethName hgen hcreate).2] at hev
        simp at hev
        rcases hev with h | h | h <;> subst h <;>
          simp [Event.isSetGateway, Event.isSetNames, Event.isStoreUpdate]

/-- Witness for C3: the address `10.0.1.5/24` lies outside `10.0.0.0/24`, and
`Join` returns the v4 error for endpoint `e1`. -/
theorem Join_v4_unresolved_witness :
    (Join okCollab (oneNetwork false [subnet24] [] (some addr_10_0_1_5) none) "n1" "e1" []).ret
      = Ret.err ("could not find a valid ipv4 subnet for endpoint " ++ "e1") :=
  (Join_v4_unresolved okCollab (oneNetwork false [subnet24] [] (some addr_10_0_1_5) none)
    "n1" "e1" []
    { id := "n1",
      config := { Internal := false, Parent := "eth0", MacvlanMode := "bridge",
                  Ipv4Subnets := [subnet24], Ipv6Subnets := [] },
      endpoints := [("e1", { id := "e1", nid := "n1", addr := some addr_10_0_1_5,
                             addrv6 := none, srcName := "" })] }
    { id := "e1", nid := "n1", addr := some addr_10_0_1_5, addrv6 := none, srcName := "" }
    rfl rfl rfl (by decide) (by decide)).2.2.1
    "veth0a1b2c3" "veth0a1b2c3" rfl rfl

/-- C5: on an internal network, whatever subnets are configured, with an
endpoint that has an address in every family with configured subnets, a `Join`
that reaches the gateway-policy step resolves no subnet, calls neither
`SetGateway` nor `SetGatewayIPv6`, gets no error from the policy step, always
calls `DisableGatewayService`, and returns success when `SetNames` and the
store update succeed. -/
theorem Join_internal (c : Collab) (d : driver) (nid eid : String) (epOpts : Options)
    (n : network) (e : endpoint) (ifName vethName : String)
    (hn : getNetwork d nid = Except.ok n) (he : n.endpoint eid = some e)
    (hgen : c.GenerateIfaceName = Except.ok ifName)
    (hcreate : c.createMacVlan ifName n.config.Parent n.config.MacvlanMode
      = Except.ok vethName)
    (hint : n.config.Internal = true)
    (h4 : n.config.Ipv4Subnets ≠ [] → e.addr ≠ none)
    (h6 : n.config.Ipv6Subnets ≠ [] → e.addrv6 ≠ none) :
    gatewayPolicy c (boundNetwork n eid vethName) (bound e vethName) eid
      = ([Event.DisableGatewayService], none) ∧
    Event.DisableGatewayService ∈ (Join c d nid eid epOpts).events ∧
    (∀ ev ∈ (Join c d nid eid epOpts).events,
      ev.isResolve = false ∧ ev.isSetGateway = false) ∧
    (c.SetNames vethName c.containerVethPrefix (c.GetIfname epOpts) = none →
      c.storeUpdate (bound e vethName) = none →
      (Join c d nid eid epOpts).ret = Ret.nil) := by
  have hP : gatewayPolicy c (boundNetwork n eid vethName) (bound e vethName) eid
      = ([Event.DisableGatewayService], none) := by
    rw [gatewayPolicy_internal c _ _ eid (by simpa using hint)]
    exact joinInternal_ok _ _ (by simpa using h4) (by simpa using h6)
  have hev := Join_reached_events c d nid eid epOpts n e ifName vethName hn he hgen hcreate
  rw [hP] at hev
  refine ⟨hP, ?_, ?_, ?_⟩
  · rw [hev]; simp
  · intro ev hmem
    rw [hev] at hmem
    simp only [List.mem_append, List.mem_cons, List.mem_singleton, List.not_mem_nil,
      or_false] at hmem
    rcases hmem with ((h | h) | h) | h
    · subst h; simp [Event.isResolve, Event.isSetGateway]
    · subst h; simp [Event.isResolve, Event.isSetGateway]
    · subst h; simp [Event.isResolve, Event.isSetGateway]
    · have := joinFinish_events c (bound e vethName) vethName epOpts ev h
      exact ⟨this.1, this.2.1⟩
  · intro hnames hstore
    rw [Join_reached_ret c d nid eid epOpts n e ifName vethName hn he hgen hcreate, hP,
      joinFinish_ok c _ vethName epOpts hnames hstore]

/-- Witness for C5: an internal network with v4 and v6 subnets and an endpoint
with both addresses joins with the gateway service disabled. -/
theorem Join_internal_witness :
    Event.DisableGatewayService ∈
      (Join okCollab (oneNetwork true [subnet24] [subnetV6] (some addr_10_0_0_5)
        (some addr_fd00_5)) "n1" "e1" []).events :=
  (Join_internal okCollab
    (oneNetwork true [subnet24] [subnetV6] (some addr_10_0_0_5) (some addr_fd00_5))
    "n1" "e1" []
    { id := "n1",
      config := { Internal := true, Parent := "eth0", MacvlanMode := "bridge",
                  Ipv4Subnets := [subnet24], Ipv6Subnets := [subnetV6] },
      endpoints := [("e1", { id := "e1", nid := "n1", addr := some addr_10_0_0_5,
                             addrv6 := some addr_fd00_5, srcName := "" })] }
    { id := "e1", nid := "n1", addr := some addr_10_0_0_5, addrv6 := some addr_fd00_5,
      srcName := "" }
    "veth0a1b2c3" "veth0a1b2c3" rfl rfl rfl rfl rfl
    (by decide) (by decide)).2.1

/-! ## Join: the shapes of the two address-family blocks -/

/-- How the v4 block can end when the endpoint has a v4 address whenever v4
subnets are configured: skipped, resolution error, gateway error, error from
`SetGateway`, or gateway set. -/
theorem joinV4_cases (c : Collab) (n : network) (ep : endpoint) (eid : String)
    (haddr : n.config.Ipv4Subnets ≠ [] → ep.addr ≠ none) :
    (n.config.Ipv4Subnets = [] ∧ joinV4 c n ep eid = ([], none)) ∨
    (n.config.Ipv4Subnets ≠ [] ∧
      ((∃ msg, joinV4 c n ep eid = ([Event.getSubnetforIPv4 ep.addr], some (Ret.err msg))) ∨
       (∃ gw msg, joinV4 c n ep eid =
          ([Event.getSubnetforIPv4 ep.addr, Event.SetGateway gw], some (Ret.err msg))) ∨
       (∃ gw, joinV4 c n ep eid =
          ([Event.getSubnetforIPv4 ep.addr, Event.SetGateway gw], none)))) := by
  by_cases h4 : n.config.Ipv4Subnets = []
  · exact Or.inl ⟨h4, joinV4_skipped c n ep eid h4⟩
  · right
    refine ⟨h4, ?_⟩
    have hl : n.config.Ipv4Subnets.length > 0 := List.length_pos.mpr h4
    obtain ⟨a, ha⟩ := Option.ne_none_iff_exists'.mp (haddr h4)
    obtain ⟨r, hr⟩ := getSubnetForIP_some_done a n.config.Ipv4Subnets
    have hres : getSubnetforIPv4 n.config.Ipv4Subnets ep.addr = Run.done r := by
      rw [ha]; exact hr
    cases r with
    | none => exact Or.inl ⟨_, joinV4_unresolved c n ep eid h4 hres⟩
    | some S =>
      cases hgw : ParseCIDR S.GwIP with
      | none =>
        exact Or.inl ⟨"gateway " ++ S.GwIP ++ " is not a valid ipv4 address: "
          ++ parseErrorText S.GwIP, by simp [joinV4, hl, hres, hgw]⟩
      | some p =>
        obtain ⟨gw, gwnet⟩ := p
        cases hset : c.SetGateway gw with
        | some msg =>
          exact Or.inr (Or.inl ⟨gw, msg, by simp [joinV4, hl, hres, hgw, hset]⟩)
        | none => exact Or.inr (Or.inr ⟨gw, joinV4_resolved c n ep eid S gw gwnet hres hgw hset⟩)

/-- How the v6 block can end: skipped, resolution error, gateway error, error
from `SetGatewayIPv6`, or gateway set. -/
theorem joinV6_cases (c : Collab) (n : network) (ep : endpoint) (eid : String) :
    ((ep.addrv6 = none ∨ n.config.Ipv6Subnets = []) ∧ joinV6 c n ep eid = ([], none)) ∨
    ((ep.addrv6 ≠ none ∧ n.config.Ipv6Subnets ≠ []) ∧
      ((∃ msg, joinV6 c n ep eid = ([Event.getSubnetforIPv6 ep.addrv6], some (Ret.err msg))) ∨
       (∃ gw msg, joinV6 c n ep eid =
          ([Event.getSubnetforIPv6 ep.addrv6, Event.SetGatewayIPv6 gw], some (Ret.err msg))) ∨
       (∃ gw, joinV6 c n ep eid =
          ([Event.getSubnetforIPv6 ep.addrv6, Event.SetGatewayIPv6 gw], none)))) := by
  by_cases h : ep.addrv6 = none ∨ n.config.Ipv6Subnets = []
  · exact Or.inl ⟨h, joinV6_skipped c n ep eid h⟩
  · right
    have h' : ep.addrv6 ≠ none ∧ n.config.Ipv6Subnets ≠ [] := by
      constructor
      · exact fun h1 => h (Or.inl h1)
      · exact fun h1 => h (Or.inr h1)
    refine ⟨h', ?_⟩
    have hl : n.config.Ipv6Subnets.length > 0 := List.length_pos.mpr h'.2
    obtain ⟨a, ha⟩ := Option.ne_none_iff_exists'.mp h'.1
    obtain ⟨r, hr⟩ := getSubnetForIP_some_done a n.config.Ipv6Subnets
    have hres : getSubnetforIPv6 n.config.Ipv6Subnets ep.addrv6 = Run.done r := by
      rw [ha]; exact hr
    cases r with
    | none => exact Or.inl ⟨_, joinV6_unresolved c n ep eid h'.1 h'.2 hres⟩
    | some S =>
      cases hgw : ParseCIDR S.GwIP with
      | none =>
        exact Or.inl ⟨"gateway " ++ S.GwIP ++ " is not a valid ipv6 address: "
          ++ parseErrorText S.GwIP, by simp [joinV6, hl, h'.1, hres, hgw]⟩
      | some p =>
        obtain ⟨gw, gwnet⟩ := p
        cases hset : c.SetGatewayIPv6 gw with
        | some msg =>
          exact Or.inr (Or.inl ⟨gw, msg, by simp [joinV6, hl, h'.1, hres, hgw, hset]⟩)
        | none => exact Or.inr (Or.inr ⟨gw, joinV6_resolved c n ep eid S gw gwnet hres hgw hset⟩)

/-- The policy step of a network that is not internal, once the v4 block fell
through. -/
theorem gatewayPolicy_after_v4 (c : Collab) (n : network) (ep : endpoint) (eid : String)
    (hint : n.config.Internal = false) (ev4 : List Event)
    (h4 : joinV4 c n ep eid = (ev4, none)) :
    gatewayPolicy c n ep eid =
      match joinV6 c n ep eid with
      | (ev6, some r) => (ev4 ++ ev6, some r)
      | (ev6, none) =>
        if n.config.Ipv4Subnets.length = 0 ∧ n.config.Ipv6Subnets.length = 0 then
          (ev4 ++ ev6 ++ [Event.DisableGatewayService], none)
        else (ev4 ++ ev6, none) := by
  simp [gatewayPolicy, hint, h4]

/-- The policy step of a network that is not internal, when the v4 block
returns. -/
theorem gatewayPolicy_v4_returns (c : Collab) (n : network) (ep : endpoint) (eid : String)
    (hint : n.config.Internal = false) (ev4 : List Event) (r : Ret)
    (h4 : joinV4 c n ep eid = (ev4, some r)) :
    gatewayPolicy c n ep eid = (ev4, some r) := by
  simp [gatewayPolicy, hint, h4]

/-! ## Join: a resolved v4 gateway -/

/-- C4 as stated fails.  In the specification's scenario (subnet
`10.0.0.0/24` with gateway text `10.0.0.1`, endpoint `10.0.0.5/24`) the
address resolves, but the gateway text is not a CIDR: `Join` returns the
gateway error and never calls `SetGateway`.  And with the gateway in CIDR
form, a v6 address outside the configured v6 subnet still makes `Join` fail
after the v4 gateway was set. -/
theorem Join_scenario_counterexample :
    getSubnetforIPv4 [subnetScenario] (some addr_10_0_0_5) = Run.done (some subnetScenario) ∧
    (Join okCollab (oneNetwork false [subnetScenario] [] (some addr_10_0_0_5) none)
        "n1" "e1" []).ret
      = Ret.err "gateway 10.0.0.1 is not a valid ipv4 address: invalid CIDR address: 10.0.0.1" ∧
    (∀ ev ∈ (Join okCollab (oneNetwork false [subnetScenario] [] (some addr_10_0_0_5) none)
        "n1" "e1" []).events, ev.isSetGateway = false) ∧
    getSubnetforIPv4 [subnet24] (some addr_10_0_0_5) = Run.done (some subnet24) ∧
    (Join okCollab (oneNetwork false [subnet24] [subnetV6] (some addr_10_0_0_5)
        (some addr_fd01_5)) "n1" "e1" []).ret
      = Ret.err "could not find a valid ipv6 subnet for endpoint e1" := by
  decide

/-- C4, amended: on a network that is not internal, when the endpoint's v4
address resolves to a configured subnet `S` whose gateway text parses as a
CIDR (`10.0.0.1/24`, not `10.0.0.1`), and the v6 block is skipped or resolves
and sets its gateway likewise, `Join` succeeds when the collaborators succeed,
hands the address of `S`'s gateway to `SetGateway`, and does not disable the
gateway service. -/
theorem Join_v4_gateway (c : Collab) (d : driver) (nid eid : String) (epOpts : Options)
    (n : network) (e : endpoint) (ifName vethName : String)
    (S : ipSubnet) (gw : IP) (gwnet : IPNet)
    (hn : getNetwork d nid = Except.ok n) (he : n.endpoint eid = some e)
    (hgen : c.GenerateIfaceName = Except.ok ifName)
    (hcreate : c.createMacVlan ifName n.config.Parent n.config.MacvlanMode
      = Except.ok vethName)
    (hint : n.config.Internal = false)
    (hres : getSubnetforIPv4 n.config.Ipv4Subnets e.addr = Run.done (some S))
    (hgw : ParseCIDR S.GwIP = some (gw, gwnet))
    (hset : c.SetGateway gw = none)
    (hv6 : e.addrv6 = none ∨ n.config.Ipv6Subnets = [] ∨
      ∃ S6 gw6 gwnet6,
        getSubnetforIPv6 n.config.Ipv6Subnets e.addrv6 = Run.done (some S6) ∧
        ParseCIDR S6.GwIP = some (gw6, gwnet6) ∧ c.SetGatewayIPv6 gw6 = none)
    (hnames : c.SetNames vethName c.containerVethPrefix (c.GetIfname epOpts) = none)
    (hstore : c.storeUpdate (bound e vethName) = none) :
    (Join c d nid eid epOpts).ret = Ret.nil ∧
    Event.SetGateway gw ∈ (Join c d nid eid epOpts).events ∧
    Event.DisableGatewayService ∉ (Join c d nid eid epOpts).events := by
  have h4 := joinV4_resolved c (boundNetwork n eid vethName) (bound e vethName) eid S gw gwnet
    (by simpa using hres) hgw hset
  have hl : n.config.Ipv4Subnets ≠ [] := by
    intro h
    rw [h] at hres
    simp [getSubnetforIPv4, getSubnetForIP] at hres
  have hl' : ¬ (n.config.Ipv4Subnets.length = 0 ∧ n.config.Ipv6Subnets.length = 0) := by
    rintro ⟨h, _⟩
    exact hl (List.length_eq_zero.mp h)
  obtain ⟨ev6, h6⟩ : ∃ ev6,
      joinV6 c (boundNetwork n eid vethName) (bound e vethName) eid = (ev6, none) := by
    rcases hv6 with h | h | ⟨S6, gw6, gwnet6, hr6, hg6, hs6⟩
    · exact ⟨[], joinV6_skipped c _ _ eid (Or.inl (by simpa using h))⟩
    · exact ⟨[], joinV6_skipped c _ _ eid (Or.inr (by simpa using h))⟩
    · exact ⟨_, joinV6_resolved c (boundNetwork n eid vethName) (bound e vethName) eid
        S6 gw6 gwnet6 (by simpa using hr6) hg6 hs6⟩
  have hP : gatewayPolicy c (boundNetwork n eid vethName) (bound e vethName) eid
      = ([Event.getSubnetforIPv4 e.addr, Event.SetGateway gw] ++ ev6, none) := by
    rw [gatewayPolicy_after_v4 c _ _ eid (by simpa using hint) _ h4, h6]
    simp only [boundNetwork_config]
    rw [if_neg hl']
    simp
  have hev := Join_reached_events c d nid eid epOpts n e ifName vethName hn he hgen hcreate
  rw [hP] at hev
  refine ⟨?_, ?_, ?_⟩
  · rw [Join_reached_ret c d nid eid epOpts n e ifName vethName hn he hgen hcreate, hP,
      joinFinish_ok c _ vethName epOpts hnames hstore]
  · rw [hev]; simp
  · rw [hev]
    intro hmem
    simp only [List.mem_append, List.mem_cons, List.mem_singleton, List.not_mem_nil,
      or_false] at hmem
    rcases hmem with (((h | h) | (h | h) | h)) | h
    · exact absurd h (by simp)
    · exact absurd h (by simp)
    · exact absurd h (by simp)
    · exact absurd h (by simp)
    · have := joinV6_events c (boundNetwork n eid vethName) (bound e vethName) eid
      rw [h6] at this
      rcases this _ h with h1 | ⟨g, h1⟩ <;> exact absurd h1 (by simp)
    · exact (joinFinish_events c (bound e vethName) vethName epOpts _ h).2.2 rfl

/-- Witness for C4: with the gateway written `10.0.0.1/24`, the endpoint
`10.0.0.5/24` joins and `SetGateway` receives `10.0.0.1`. -/
theorem Join_v4_gateway_witness :
    (Join okCollab (oneNetwork false [subnet24] [] (some addr_10_0_0_5) none)
        "n1" "e1" []).ret = Ret.nil ∧
    Event.SetGateway [0, 0, 0, 0, 0, 0, 0, 0, 0, 0, 255, 255, 10, 0, 0, 1] ∈
      (Join okCollab (oneNetwork false [subnet24] [] (some addr_10_0_0_5) none)
        "n1" "e1" []).events ∧
    Event.DisableGatewayService ∉
      (Join okCollab (oneNetwork false [subnet24] [] (some addr_10_0_0_5) none)
        "n1" "e1" []).events :=
  Join_v4_gateway okCollab (oneNetwork false [subnet24] [] (some addr_10_0_0_5) none)
    "n1" "e1" []
    { id := "n1",
      config := { Internal := false, Parent := "eth0", MacvlanMode := "bridge",
                  Ipv4Subnets := [subnet24], Ipv6Subnets := [] },
      endpoints := [("e1", { id := "e1", nid := "n1", addr := some addr_10_0_0_5,
                             addrv6 := none, srcName := "" })] }
    { id := "e1", nid := "n1", addr := some addr_10_0_0_5, addrv6 := none, srcName := "" }
    "veth0a1b2c3" "veth0a1b2c3" subnet24
    [0, 0, 0, 0, 0, 0, 0, 0, 0, 0, 255, 255, 10, 0, 0, 1]
    { IP := [10, 0, 0, 0], Mask := [255, 255, 255, 0] }
    rfl rfl rfl rfl rfl (by decide) (by decide) rfl (Or.inl rfl) rfl rfl

/-! ## Join: the v6 block -/

/-- C6 as stated fails when `Join` returns before the v6 block.  On the
network with v4 subnet `10.0.0.0/24` and v6 subnet `fd00::/64`, the endpoint
with addresses `10.0.1.5/24` and `fd00::5/64` has a v6 address and a
configured v6 subnet, yet `Join` returns the ipv4 error after the v4
resolution and makes no v6 resolution.  Likewise when the interface name
cannot be generated: the only call made is the name generation. -/
theorem Join_v6_policy_counterexample :
    (Join okCollab (oneNetwork false [subnet24] [subnetV6] (some addr_10_0_1_5)
        (some addr_fd00_5)) "n1" "e1" []).ret
      = Ret.err "could not find a valid ipv4 subnet for endpoint e1" ∧
    (Join okCollab (oneNetwork false [subnet24] [subnetV6] (some addr_10_0_1_5)
        (some addr_fd00_5)) "n1" "e1" []).events
      = [Event.GenerateIfaceName, Event.createMacVlan "veth0a1b2c3" "eth0" "bridge",
          Event.getSubnetforIPv4 (some addr_10_0_1_5)] ∧
    ¬ ((∃ x, Event.getSubnetforIPv6 x ∈
          (Join okCollab (oneNetwork false [subnet24] [subnetV6] (some addr_10_0_1_5)
            (some addr_fd00_5)) "n1" "e1" []).events) ↔
        ((some addr_fd00_5 : Option IPNet) ≠ none ∧ [subnetV6] ≠ ([] : List ipSubnet))) ∧
    (Join genFailCollab (oneNetwork false [] [subnetV6] none (some addr_fd00_5))
        "n1" "e1" []).events = [Event.GenerateIfaceName] := by
  have hev : (Join okCollab (oneNetwork false [subnet24] [subnetV6] (some addr_10_0_1_5)
        (some addr_fd00_5)) "n1" "e1" []).events
      = [Event.GenerateIfaceName, Event.createMacVlan "veth0a1b2c3" "eth0" "bridge",
          Event.getSubnetforIPv4 (some addr_10_0_1_5)] := by decide
  refine ⟨by decide, hev, ?_, by decide⟩
  intro h
  obtain ⟨x, hx⟩ := h.mpr ⟨by simp, by simp⟩
  rw [hev] at hx
  simp at hx

/-- C6, amended: on a network that is not internal, for a `Join` that reaches
the gateway-policy step, a v6 resolution is made if and only if the endpoint
has a v6 address, a v6 subnet is configured, and the v4 block did not return
(no v4 subnet is configured, or the v4 address resolved to a subnet whose
gateway parsed and `SetGateway` accepted it).  Under these conditions the
resolution is made with the endpoint's v6 address, and a resolution that finds
no subnet makes `Join` return
`could not find a valid ipv6 subnet for endpoint <eid>`, which names the ipv6
family and the endpoint ID.  When the address or the subnets are missing, the
v6 block makes no call and returns no error, and `SetGatewayIPv6` is never
called; when the v4 block returns, no v6 call is made either. -/
theorem Join_v6_policy (c : Collab) (d : driver) (nid eid : String) (epOpts : Options)
    (n : network) (e : endpoint) (ifName vethName : String)
    (hn : getNetwork d nid = Except.ok n) (he : n.endpoint eid = some e)
    (hgen : c.GenerateIfaceName = Except.ok ifName)
    (hcreate : c.createMacVlan ifName n.config.Parent n.config.MacvlanMode
      = Except.ok vethName)
    (hint : n.config.Internal = false) :
    ((∃ x, Event.getSubnetforIPv6 x ∈ (Join c d nid eid epOpts).events) ↔
      (e.addrv6 ≠ none ∧ n.config.Ipv6Subnets ≠ [] ∧
        (n.config.Ipv4Subnets ≠ [] →
          ∃ S gw gwnet, getSubnetforIPv4 n.config.Ipv4Subnets e.addr = Run.done (some S) ∧
            ParseCIDR S.GwIP = some (gw, gwnet) ∧ c.SetGateway gw = none))) ∧
    ((e.addrv6 = none ∨ n.config.Ipv6Subnets = []) →
      joinV6 c (boundNetwork n eid vethName) (bound e vethName) eid = ([], none) ∧
      ∀ gw, Event.SetGatewayIPv6 gw ∉ (Join c d nid eid epOpts).events) ∧
    ((n.config.Ipv4Subnets ≠ [] →
        ∃ S gw gwnet, getSubnetforIPv4 n.config.Ipv4Subnets e.addr = Run.done (some S) ∧
          ParseCIDR S.GwIP = some (gw, gwnet) ∧ c.SetGateway gw = none) →
      e.addrv6 ≠ none → n.config.Ipv6Subnets ≠ [] →
      Event.getSubnetforIPv6 e.addrv6 ∈ (Join c d nid eid epOpts).events ∧
      (getSubnetforIPv6 n.config.Ipv6Subnets e.addrv6 = Run.done none →
        (Join c d nid eid epOpts).ret
          = Ret.err ("could not find a valid ipv6 subnet for endpoint " ++ eid))) ∧
    ((joinV4 c (boundNetwork n eid vethName) (bound e vethName) eid).2 ≠ none →
      ∀ ev ∈ (Join c d nid eid epOpts).events,
        (∀ x, ev ≠ Event.getSubnetforIPv6 x) ∧ (∀ gw, ev ≠ Event.SetGatewayIPv6 gw)) ∧
    "ipv6".data <:+: ("could not find a valid ipv6 subnet for endpoint " ++ eid).data ∧
    eid.data <:+ ("could not find a valid ipv6 subnet for endpoint " ++ eid).data := by
  have hev := Join_reached_events c d nid eid epOpts n e ifName vethName hn he hgen hcreate
  have hret := Join_reached_ret c d nid eid epOpts n e ifName vethName hn he hgen hcreate
  have hint' : (boundNetwork n eid vethName).config.Internal = false := by simpa using hint
  -- the v4 block falls through exactly when its steps are skipped or succeed
  have hv4 : (joinV4 c (boundNetwork n eid vethName) (bound e vethName) eid).2 = none ↔
      (n.config.Ipv4Subnets ≠ [] →
        ∃ S gw gwnet, getSubnetforIPv4 n.config.Ipv4Subnets e.addr = Run.done (some S) ∧
          ParseCIDR S.GwIP = some (gw, gwnet) ∧ c.SetGateway gw = none) := by
    simpa using joinV4_falls_through_iff c (boundNetwork n eid vethName) (bound e vethName) eid
  -- every v6 call of the policy step comes from the v6 block, after the v4
  -- block fell through
  have hsrc : ∀ ev ∈ (Join c d nid eid epOpts).events,
      ((∃ x, ev = Event.getSubnetforIPv6 x) ∨ (∃ gw, ev = Event.SetGatewayIPv6 gw)) →
      ev ∈ (joinV6 c (boundNetwork n eid vethName) (bound e vethName) eid).1 ∧
      (joinV4 c (boundNetwork n eid vethName) (bound e vethName) eid).2 = none := by
    intro ev hmem hv6
    rw [hev] at hmem
    simp only [List.mem_append, List.mem_cons, List.mem_singleton, List.not_mem_nil,
      or_false] at hmem
    rcases hmem with ((h | h) | h) | h
    · subst h; rcases hv6 with ⟨x, hx⟩ | ⟨x, hx⟩ <;> simp at hx
    · subst h; rcases hv6 with ⟨x, hx⟩ | ⟨x, hx⟩ <;> simp at hx
    · rcases h4 : joinV4 c (boundNetwork n eid vethName) (bound e vethName) eid
        with ⟨ev4, _ | r⟩
      · have h4ev := joinV4_events c (boundNetwork n eid vethName) (bound e vethName) eid
        rw [h4] at h4ev
        rw [gatewayPolicy_after_v4 c _ _ eid hint' ev4 h4] at h
        refine ⟨?_, rfl⟩
        rcases h6 : joinV6 c (boundNetwork n eid vethName) (bound e vethName) eid
          with ⟨ev6, _ | r6⟩
        · rw [h6] at h
          simp only at h
          split at h
          · simp only [List.mem_append, List.mem_singleton] at h
            rcases h with (h | h) | h
            · rcases h4ev ev h with h1 | ⟨g, h1⟩ <;> subst h1 <;>
                rcases hv6 with ⟨x, hx⟩ | ⟨x, hx⟩ <;> simp at hx
            · exact h
            · subst h; rcases hv6 with ⟨x, hx⟩ | ⟨x, hx⟩ <;> simp at hx
          · simp only [List.mem_append] at h
            rcases h with h | h
            · rcases h4ev ev h with h1 | ⟨g, h1⟩ <;> subst h1 <;>
                rcases hv6 with ⟨x, hx⟩ | ⟨x, hx⟩ <;> simp at hx
            · exact h
        · rw [h6] at h
          simp only [List.mem_append] at h
          rcases h with h | h
          · rcases h4ev ev h with h1 | ⟨g, h1⟩ <;> subst h1 <;>
              rcases hv6 with ⟨x, hx⟩ | ⟨x, hx⟩ <;> simp at hx
          · exact h
      · have h4ev := joinV4_events c (boundNetwork n eid vethName) (bound e vethName) eid
        rw [h4] at h4ev
        rw [gatewayPolicy_v4_returns c _ _ eid hint' ev4 r h4] at h
        rcases h4ev ev h with h1 | ⟨g, h1⟩ <;> subst h1 <;>
          rcases hv6 with ⟨x, hx⟩ | ⟨x, hx⟩ <;> simp at hx
    · have hF : ev ∈ (joinFinish c (bound e vethName) vethName epOpts).1 := by
        rcases hP : (gatewayPolicy c (boundNetwork n eid vethName) (bound e vethName) eid).2
          with _ | r
        · rw [hP] at h; exact h
        · rw [hP] at h; simp at h
      have := joinFinish_events c (bound e vethName) vethName epOpts ev hF
      rcases hv6 with ⟨x, hx⟩ | ⟨x, hx⟩ <;> subst hx <;>
        simp [Event.isResolve, Event.isSetGateway] at this
  have hskip : (e.addrv6 = none ∨ n.config.Ipv6Subnets = []) →
      joinV6 c (boundNetwork n eid vethName) (bound e vethName) eid = ([], none) :=
    fun h => joinV6_skipped c _ _ eid (by simpa using h)
  -- with the v4 block fallen through and the guard of the v6 block true, the
  -- v6 resolution is made
  have hmade : (joinV4 c (boundNetwork n eid vethName) (bound e vethName) eid).2 = none →
      e.addrv6 ≠ none → n.config.Ipv6Subnets ≠ [] →
      Event.getSubnetforIPv6 e.addrv6 ∈ (Join c d nid eid epOpts).events ∧
      (getSubnetforIPv6 n.config.Ipv6Subnets e.addrv6 = Run.done none →
        (Join c d nid eid epOpts).ret
          = Ret.err ("could not find a valid ipv6 subnet for endpoint " ++ eid)) := by
    intro h4 ha hs
    rcases h4' : joinV4 c (boundNetwork n eid vethName) (bound e vethName) eid
      with ⟨ev4, r4⟩
    rw [h4'] at h4
    simp only at h4
    subst h4
    have hP := gatewayPolicy_after_v4 c _ _ eid hint' ev4 h4'
    have hl : n.config.Ipv6Subnets.length > 0 := List.length_pos.mpr hs
    have hl' : ¬ (n.config.Ipv4Subnets.length = 0 ∧ n.config.Ipv6Subnets.length = 0) := by
      rintro ⟨_, h⟩
      omega
    constructor
    · rcases joinV6_cases c (boundNetwork n eid vethName) (bound e vethName) eid
        with ⟨hor, _⟩ | ⟨_, hc⟩
      · rcases hor with h | h
        · exact absurd (by simpa using h) ha
        · exact absurd (by simpa using h) hs
      · rw [hev, hP]
        rcases hc with ⟨msg, h6⟩ | ⟨gw, msg, h6⟩ | ⟨gw, h6⟩
        · rw [h6]; simp
        · rw [h6]; simp
        · rw [h6]
          simp only [boundNetwork_config]
          rw [if_neg hl']
          simp
    · intro hres
      have h6 := joinV6_unresolved c (boundNetwork n eid vethName) (bound e vethName) eid
        (by simpa using ha) (by simpa using hs) (by simpa using hres)
      rw [hret, hP, h6]
  refine ⟨⟨?_, ?_⟩, ?_, ?_, ?_, v6_error_names eid⟩
  · rintro ⟨x, hx⟩
    have hx' := hsrc _ hx (Or.inl ⟨x, rfl⟩)
    refine ⟨?_, ?_, hv4.mp hx'.2⟩
    · intro ha
      rw [hskip (Or.inl ha)] at hx'
      simp at hx'
    · intro hs
      rw [hskip (Or.inr hs)] at hx'
      simp at hx'
  · rintro ⟨ha, hs, h4⟩
    exact ⟨_, (hmade (hv4.mpr h4) ha hs).1⟩
  · intro hor
    refine ⟨hskip hor, ?_⟩
    intro gw hmem
    have := hsrc _ hmem (Or.inr ⟨gw, rfl⟩)
    rw [hskip hor] at this
    simp at this
  · intro h4 ha hs
    exact hmade (hv4.mpr h4) ha hs
  · intro h4 ev hmem
    refine ⟨?_, ?_⟩
    · intro x hx
      exact h4 (hsrc ev hmem (Or.inl ⟨x, hx⟩)).2
    · intro gw hx
      exact h4 (hsrc ev hmem (Or.inr ⟨gw, hx⟩)).2

/-- Witness for C6: with a v4 gateway set and the v6 address `fd01::5/64`
outside `fd00::/64`, `Join` returns the v6 error for endpoint `e1`. -/
theorem Join_v6_policy_witness :
    (Join okCollab (oneNetwork false [subnet24] [subnetV6] (some addr_10_0_0_5)
        (some addr_fd01_5)) "n1" "e1" []).ret
      = Ret.err ("could not find a valid ipv6 subnet for endpoint " ++ "e1") :=
  ((Join_v6_policy okCollab
    (oneNetwork false [subnet24] [subnetV6] (some addr_10_0_0_5) (some addr_fd01_5))
    "n1" "e1" []
    { id := "n1",
      config := { Internal := false, Parent := "eth0", MacvlanMode := "bridge",
                  Ipv4Subnets := [subnet24], Ipv6Subnets := [subnetV6] },
      endpoints := [("e1", { id := "e1", nid := "n1", addr := some addr_10_0_0_5,
                             addrv6 := some addr_fd01_5, srcName := "" })] }
    { id := "e1", nid := "n1", addr := some addr_10_0_0_5, addrv6 := some addr_fd01_5,
      srcName := "" }
    "veth0a1b2c3" "veth0a1b2c3" rfl rfl rfl rfl rfl).2.2.1
    (fun _ => ⟨subnet24, [0, 0, 0, 0, 0, 0, 0, 0, 0, 0, 255, 255, 10, 0, 0, 1],
      { IP := [10, 0, 0, 0], Mask := [255, 255, 255, 0] }, by decide, by decide, rfl⟩)
    (by decide) (by decide)).2 (by decide)

/-! ## Join: when the gateway service is disabled -/

/-- Calls of the policy step on a network that is not internal: those of the
two blocks, and `DisableGatewayService` only with both subnet lists empty. -/
theorem gatewayPolicy_external_events (c : Collab) (n : network) (ep : endpoint)
    (eid : String) (hint : n.config.Internal = false) :
    ∀ ev ∈ (gatewayPolicy c n ep eid).1,
      ev ∈ (joinV4 c n ep eid).1 ∨ ev ∈ (joinV6 c n ep eid).1 ∨
      (ev = Event.DisableGatewayService ∧
        n.config.Ipv4Subnets = [] ∧ n.config.Ipv6Subnets = []) := by
  intro ev h
  rcases h4 : joinV4 c n ep eid with ⟨ev4, _ | r⟩
  · rw [gatewayPolicy_after_v4 c n ep eid hint ev4 h4] at h
    rcases h6 : joinV6 c n ep eid with ⟨ev6, _ | r6⟩
    · rw [h6] at h
      simp only at h
      split at h
      · rename_i hboth
        simp only [List.mem_append, List.mem_singleton] at h
        rcases h with (h | h) | h
        · exact Or.inl h
        · exact Or.inr (Or.inl h)
        · exact Or.inr (Or.inr ⟨h, List.length_eq_zero.mp hboth.1,
            List.length_eq_zero.mp hboth.2⟩)
      · simp only [List.mem_append] at h
        rcases h with h | h
        · exact Or.inl h
        · exact Or.inr (Or.inl h)
    · rw [h6] at h
      simp only [List.mem_append] at h
      rcases h with h | h
      · exact Or.inl h
      · exact Or.inr (Or.inl h)
  · rw [gatewayPolicy_v4_returns c n ep eid hint ev4 r h4] at h
    exact Or.inl h

/-- A reached `Join` on a network that is not internal and has a subnet
configured never calls `DisableGatewayService`. -/
theorem Join_external_no_disable (c : Collab) (d : driver) (nid eid : String)
    (epOpts : Options) (n : network) (e : endpoint) (ifName vethName : String)
    (hn : getNetwork d nid = Except.ok n) (he : n.endpoint eid = some e)
    (hgen : c.GenerateIfaceName = Except.ok ifName)
    (hcreate : c.createMacVlan ifName n.config.Parent n.config.MacvlanMode
      = Except.ok vethName)
    (hint : n.config.Internal = false)
    (hsub : ¬ (n.config.Ipv4Subnets = [] ∧ n.config.Ipv6Subnets = [])) :
    Event.DisableGatewayService ∉ (Join c d nid eid epOpts).events := by
  intro hmem
  rw [Join_reached_events c d nid eid epOpts n e ifName vethName hn he hgen hcreate] at hmem
  simp only [List.mem_append, List.mem_cons, List.mem_singleton, List.not_mem_nil,
    or_false] at hmem
  rcases hmem with ((h | h) | h) | h
  · exact absurd h (by simp)
  · exact absurd h (by simp)
  · rcases gatewayPolicy_external_events c (boundNetwork n eid vethName) (bound e vethName)
      eid (by simpa using hint) _ h with h1 | h1 | h1
    · rcases joinV4_events c _ _ eid _ h1 with h2 | ⟨g, h2⟩ <;> exact absurd h2 (by simp)
    · rcases joinV6_events c _ _ eid _ h1 with h2 | ⟨g, h2⟩ <;> exact absurd h2 (by simp)
    · exact hsub (by simpa using h1.2)
  · have hF : Event.DisableGatewayService ∈
        (joinFinish c (bound e vethName) vethName epOpts).1 := by
      rcases hP : (gatewayPolicy c (boundNetwork n eid vethName) (bound e vethName) eid).2
        with _ | r
      · rw [hP] at h; exact h
      · rw [hP] at h; simp at h
    exact (joinFinish_events c (bound e vethName) vethName epOpts _ hF).2.2 rfl

/-- The policy step on a network that is not internal and has no subnet in
either family: a single call, `DisableGatewayService`. -/
theorem gatewayPolicy_no_subnets (c : Collab) (n : network) (ep : endpoint) (eid : String)
    (hint : n.config.Internal = false)
    (h4 : n.config.Ipv4Subnets = []) (h6 : n.config.Ipv6Subnets = []) :
    gatewayPolicy c n ep eid = ([Event.DisableGatewayService], none) := by
  rw [gatewayPolicy_after_v4 c n ep eid hint [] (joinV4_skipped c n ep eid h4),
    joinV6_skipped c n ep eid (Or.inr h6)]
  simp [h4, h6]

/-- For every reached `Join` that does not panic, `DisableGatewayService` is
called if and only if the network is internal or both subnet lists are empty;
and a network that is not internal and has no subnets joins successfully,
with the gateway service disabled, when the collaborators succeed. -/
theorem Join_disable_iff (c : Collab) (d : driver) (nid eid : String)
    (epOpts : Options) (n : network) (e : endpoint) (ifName vethName : String)
    (hn : getNetwork d nid = Except.ok n) (he : n.endpoint eid = some e)
    (hgen : c.GenerateIfaceName = Except.ok ifName)
    (hcreate : c.createMacVlan ifName n.config.Parent n.config.MacvlanMode
      = Except.ok vethName) :
    ((Join c d nid eid epOpts).ret ≠ Ret.panicked →
      (Event.DisableGatewayService ∈ (Join c d nid eid epOpts).events ↔
        (n.config.Internal = true ∨
          (n.config.Ipv4Subnets = [] ∧ n.config.Ipv6Subnets = [])))) ∧
    (n.config.Internal = false → n.config.Ipv4Subnets = [] → n.config.Ipv6Subnets = [] →
      c.SetNames vethName c.containerVethPrefix (c.GetIfname epOpts) = none →
      c.storeUpdate (bound e vethName) = none →
      (Join c d nid eid epOpts).ret = Ret.nil ∧
      Event.DisableGatewayService ∈ (Join c d nid eid epOpts).events) := by
  have hev := Join_reached_events c d nid eid epOpts n e ifName vethName hn he hgen hcreate
  have hret := Join_reached_ret c d nid eid epOpts n e ifName vethName hn he hgen hcreate
  constructor
  · intro hnp
    cases hint : n.config.Internal with
    | true =>
      simp only [true_or, iff_true]
      have hP := gatewayPolicy_internal c (boundNetwork n eid vethName) (bound e vethName) eid
        (by simpa using hint)
      by_cases hok : (n.config.Ipv4Subnets ≠ [] → e.addr ≠ none) ∧
          (n.config.Ipv6Subnets ≠ [] → e.addrv6 ≠ none)
      · rw [joinInternal_ok _ _ (by simpa using hok.1) (by simpa using hok.2)] at hP
        rw [hev, hP]; simp
      · exfalso
        apply hnp
        rw [hret, hP]
        unfold joinInternal
        simp only [boundNetwork_config, bound_addr, bound_addrv6]
        by_cases h4 : n.config.Ipv4Subnets.length > 0 ∧ e.addr = none
        · rw [if_pos h4]
        · rw [if_neg h4]
          by_cases h6 : n.config.Ipv6Subnets.length > 0 ∧ e.addrv6 = none
          · rw [if_pos h6]
          · exfalso
            apply hok
            constructor
            · intro hne ha
              exact h4 ⟨List.length_pos.mpr hne, ha⟩
            · intro hne ha
              exact h6 ⟨List.length_pos.mpr hne, ha⟩
    | false =>
      simp only [Bool.false_eq_true, false_or]
      constructor
      · intro hmem
        by_contra hsub
        exact Join_external_no_disable c d nid eid epOpts n e ifName vethName hn he hgen
          hcreate hint hsub hmem
      · rintro ⟨h4, h6⟩
        rw [hev, gatewayPolicy_no_subnets c _ _ eid (by simpa using hint)
          (by simpa using h4) (by simpa using h6)]
        simp
  · intro hint h4 h6 hnames hstore
    have hP := gatewayPolicy_no_subnets c (boundNetwork n eid vethName) (bound e vethName)
      eid (by simpa using hint) (by simpa using h4) (by simpa using h6)
    constructor
    · rw [hret, hP, joinFinish_ok c _ vethName epOpts hnames hstore]
    · rw [hev, hP]; simp

/-- C2, at the failing input: an internal network with a v6 subnet and an
endpoint without v6 address.  `Join` reaches the gateway-policy step, panics
on `ep.addrv6.IP` (line 98) and never calls `DisableGatewayService`. -/
theorem nil_address_panics_before_disable :
    (Join okCollab (oneNetwork true [] [subnetV6] (some addr_10_0_0_5) none)
        "n1" "e1" []).ret = Ret.panicked ∧
    Event.DisableGatewayService ∉
      (Join okCollab (oneNetwork true [] [subnetV6] (some addr_10_0_0_5) none)
        "n1" "e1" []).events ∧
    (Join okCollab (oneNetwork true [] [subnetV6] (some addr_10_0_0_5) none)
        "n1" "e1" []).events =
      [Event.GenerateIfaceName, Event.createMacVlan "veth0a1b2c3" "eth0" "bridge"] := by
  decide

/-! ## Join: mandatory resolution on a network that is not internal -/

/-- C10 as stated fails.  On a network that is not internal, with a v6 subnet
configured and an endpoint without v6 address, `Join` reaches the policy
step, resolves nothing, sets no gateway and succeeds: neither alternative
occurs.  And with both families configured, the v4 gateway is set and then the
v6 resolution fails: both alternatives occur in one call. -/
theorem Join_mandatory_counterexample :
    (Join okCollab (oneNetwork false [] [subnetV6] (some addr_10_0_0_5) none)
        "n1" "e1" []).ret = Ret.nil ∧
    (∀ ev ∈ (Join okCollab (oneNetwork false [] [subnetV6] (some addr_10_0_0_5) none)
        "n1" "e1" []).events, ev.isResolve = false ∧ ev.isSetGateway = false) ∧
    (Join okCollab (oneNetwork false [subnet24] [subnetV6] (some addr_10_0_0_5)
        (some addr_fd01_5)) "n1" "e1" []).ret
      = Ret.err "could not find a valid ipv6 subnet for endpoint e1" ∧
    Event.SetGateway [0, 0, 0, 0, 0, 0, 0, 0, 0, 0, 255, 255, 10, 0, 0, 1] ∈
      (Join okCollab (oneNetwork false [subnet24] [subnetV6] (some addr_10_0_0_5)
        (some addr_fd01_5)) "n1" "e1" []).events := by
  decide

/-- C10, amended: for a `Join` that reaches the gateway-policy step on a
network that is not internal, with an endpoint that has a v4 address whenever
v4 subnets are configured: if a v4 subnet is configured, or a v6 subnet is
configured and the endpoint has a v6 address, then a resolution is made, `Join`
returns an error or has handed a resolved gateway to `SetGateway` or
`SetGatewayIPv6` (possibly both), it does not panic and the gateway service is
not disabled; if only v6 subnets are configured and the endpoint has no v6
address, nothing is resolved, no gateway is set, and `Join` succeeds when
`SetNames` and the store update do. -/
theorem Join_mandatory_resolution (c : Collab) (d : driver) (nid eid : String)
    (epOpts : Options) (n : network) (e : endpoint) (ifName vethName : String)
    (hn : getNetwork d nid = Except.ok n) (he : n.endpoint eid = some e)
    (hgen : c.GenerateIfaceName = Except.ok ifName)
    (hcreate : c.createMacVlan ifName n.config.Parent n.config.MacvlanMode
      = Except.ok vethName)
    (hint : n.config.Internal = false)
    (haddr : n.config.Ipv4Subnets ≠ [] → e.addr ≠ none) :
    ((n.config.Ipv4Subnets ≠ [] ∨ (e.addrv6 ≠ none ∧ n.config.Ipv6Subnets ≠ [])) →
      (∃ ev ∈ (Join c d nid eid epOpts).events, ev.isResolve = true) ∧
      ((∃ msg, (Join c d nid eid epOpts).ret = Ret.err msg) ∨
        ∃ ev ∈ (Join c d nid eid epOpts).events, ev.isSetGateway = true) ∧
      (Join c d nid eid epOpts).ret ≠ Ret.panicked ∧
      Event.DisableGatewayService ∉ (Join c d nid eid epOpts).events) ∧
    (n.config.Ipv4Subnets = [] → n.config.Ipv6Subnets ≠ [] → e.addrv6 = none →
      (∀ ev ∈ (Join c d nid eid epOpts).events,
        ev.isResolve = false ∧ ev.isSetGateway = false) ∧
      (c.SetNames vethName c.containerVethPrefix (c.GetIfname epOpts) = none →
        c.storeUpdate (bound e vethName) = none →
        (Join c d nid eid epOpts).ret = Ret.nil)) := by
  have hev := Join_reached_events c d nid eid epOpts n e ifName vethName hn he hgen hcreate
  have hret := Join_reached_ret c d nid eid epOpts n e ifName vethName hn he hgen hcreate
  have hint' : (boundNetwork n eid vethName).config.Internal = false := by simpa using hint
  have hfin : ∀ r, (joinFinish c (bound e vethName) vethName epOpts).2 = some r →
      ∃ msg, r = Ret.err msg := by
    intro r hr
    unfold joinFinish at hr
    cases h1 : c.SetNames vethName c.containerVethPrefix (c.GetIfname epOpts) with
    | some m => simp [h1] at hr; exact ⟨_, hr.symm⟩
    | none =>
      cases h2 : c.storeUpdate (bound e vethName) with
      | some m => simp [h1, h2] at hr; exact ⟨_, hr.symm⟩
      | none => simp [h1, h2] at hr
  constructor
  · intro hcond
    have hsub : ¬ (n.config.Ipv4Subnets = [] ∧ n.config.Ipv6Subnets = []) := by
      rintro ⟨h4, h6⟩
      rcases hcond with h | h
      · exact h h4
      · exact h.2 h6
    have hsub' : ¬ ((boundNetwork n eid vethName).config.Ipv4Subnets.length = 0 ∧
        (boundNetwork n eid vethName).config.Ipv6Subnets.length = 0) := by
      rintro ⟨h4, h6⟩
      exact hsub ⟨List.length_eq_zero.mp (by simpa using h4),
        List.length_eq_zero.mp (by simpa using h6)⟩
    refine ⟨?_, ?_, ?_, Join_external_no_disable c d nid eid epOpts n e ifName vethName
      hn he hgen hcreate hint hsub⟩
    all_goals
      rcases joinV4_cases c (boundNetwork n eid vethName) (bound e vethName) eid
          (by simpa using haddr)
        with ⟨h4e, h4⟩ | ⟨h4ne, ⟨msg, h4⟩ | ⟨gw, msg, h4⟩ | ⟨gw, h4⟩⟩
    -- a resolution is made
    · rcases joinV6_cases c (boundNetwork n eid vethName) (bound e vethName) eid
        with ⟨hor, h6⟩ | ⟨_, ⟨msg, h6⟩ | ⟨gw, msg, h6⟩ | ⟨gw, h6⟩⟩
      · exfalso
        rcases hcond with h | h
        · exact h (by simpa using h4e)
        · rcases hor with h1 | h1
          · exact h.1 (by simpa using h1)
          · exact h.2 (by simpa using h1)
      all_goals
        refine ⟨Event.getSubnetforIPv6 e.addrv6, ?_, rfl⟩
        rw [hev, gatewayPolicy_after_v4 c _ _ eid hint' _ h4, h6]
        simp [hsub]
    · exact ⟨Event.getSubnetforIPv4 e.addr, by
        rw [hev, gatewayPolicy_v4_returns c _ _ eid hint' _ _ h4]; simp, rfl⟩
    · exact ⟨Event.getSubnetforIPv4 e.addr, by
        rw [hev, gatewayPolicy_v4_returns c _ _ eid hint' _ _ h4]; simp, rfl⟩
    · refine ⟨Event.getSubnetforIPv4 e.addr, ?_, rfl⟩
      rw [hev, gatewayPolicy_after_v4 c _ _ eid hint' _ h4]
      rcases h6 : joinV6 c (boundNetwork n eid vethName) (bound e vethName) eid
        with ⟨ev6, _ | r6⟩
      · simp only
        rw [if_neg hsub']
        simp
      · simp
    -- an error, or a gateway handed over
    · rcases joinV6_cases c (boundNetwork n eid vethName) (bound e vethName) eid
        with ⟨hor, h6⟩ | ⟨_, ⟨msg, h6⟩ | ⟨gw, msg, h6⟩ | ⟨gw, h6⟩⟩
      · exfalso
        rcases hcond with h | h
        · exact h (by simpa using h4e)
        · rcases hor with h1 | h1
          · exact h.1 (by simpa using h1)
          · exact h.2 (by simpa using h1)
      · left
        exact ⟨msg, by rw [hret, gatewayPolicy_after_v4 c _ _ eid hint' _ h4, h6]⟩
      · left
        exact ⟨msg, by rw [hret, gatewayPolicy_after_v4 c _ _ eid hint' _ h4, h6]⟩
      · right
        refine ⟨Event.SetGatewayIPv6 gw, ?_, rfl⟩
        rw [hev, gatewayPolicy_after_v4 c _ _ eid hint' _ h4, h6]
        simp only
        rw [if_neg hsub']
        simp
    · left
      exact ⟨msg, by rw [hret, gatewayPolicy_v4_returns c _ _ eid hint' _ _ h4]⟩
    · left
      exact ⟨msg, by rw [hret, gatewayPolicy_v4_returns c _ _ eid hint' _ _ h4]⟩
    · right
      refine ⟨Event.SetGateway gw, ?_, rfl⟩
      rw [hev, gatewayPolicy_after_v4 c _ _ eid hint' _ h4]
      rcases h6 : joinV6 c (boundNetwork n eid vethName) (bound e vethName) eid
        with ⟨ev6, _ | r6⟩
      · simp only
        rw [if_neg hsub']
        simp
      · simp
    -- no panic
    all_goals
      have hnp6 : ∀ ev4, joinV4 c (boundNetwork n eid vethName) (bound e vethName) eid
            = (ev4, none) → (Join c d nid eid epOpts).ret ≠ Ret.panicked := by
        intro ev4 h4'
        rw [hret, gatewayPolicy_after_v4 c _ _ eid hint' _ h4']
        rcases joinV6_cases c (boundNetwork n eid vethName) (bound e vethName) eid
          with ⟨hor, h6⟩ | ⟨_, ⟨msg, h6⟩ | ⟨gw, msg, h6⟩ | ⟨gw, h6⟩⟩
        · rw [h6]
          simp only
          rw [if_neg hsub']
          simp only
          rcases hF : (joinFinish c (bound e vethName) vethName epOpts).2 with _ | r
          · simp
          · obtain ⟨m, hm⟩ := hfin r hF
            simp [hm]
        · rw [h6]; simp
        · rw [h6]; simp
        · rw [h6]
          simp only
          rw [if_neg hsub']
          simp only
          rcases hF : (joinFinish c (bound e vethName) vethName epOpts).2 with _ | r
          · simp
          · obtain ⟨m, hm⟩ := hfin r hF
            simp [hm]
    · exact hnp6 _ h4
    · rw [hret, gatewayPolicy_v4_returns c _ _ eid hint' _ _ h4]; simp
    · rw [hret, gatewayPolicy_v4_returns c _ _ eid hint' _ _ h4]; simp
    · exact hnp6 _ h4
  · intro h4 h6 ha
    have hP : gatewayPolicy c (boundNetwork n eid vethName) (bound e vethName) eid
        = ([], none) := by
      rw [gatewayPolicy_after_v4 c _ _ eid hint' [] (joinV4_skipped c _ _ eid
          (by simpa using h4)),
        joinV6_skipped c _ _ eid (Or.inl (by simpa using ha))]
      have : ¬ ((boundNetwork n eid vethName).config.Ipv4Subnets.length = 0 ∧
          (boundNetwork n eid vethName).config.Ipv6Subnets.length = 0) := by
        rintro ⟨_, h⟩
        exact h6 (List.length_eq_zero.mp (by simpa using h))
      simp only
      rw [if_neg this]
      simp
    constructor
    · intro ev hmem
      rw [hev, hP] at hmem
      simp only [List.mem_append, List.mem_cons, List.mem_singleton, List.not_mem_nil,
        or_false] at hmem
      rcases hmem with (h | h) | h
      · subst h; simp [Event.isResolve, Event.isSetGateway]
      · subst h; simp [Event.isResolve, Event.isSetGateway]
      · have := joinFinish_events c (bound e vethName) vethName epOpts ev h
        exact ⟨this.1, this.2.1⟩
    · intro hnames hstore
      rw [hret, hP, joinFinish_ok c _ vethName epOpts hnames hstore]

/-- Witness for C10: on the network with `10.0.0.0/24` configured, the join of
endpoint `10.0.0.5/24` makes a resolution. -/
theorem Join_mandatory_resolution_witness :
    ∃ ev ∈ (Join okCollab (oneNetwork false [subnet24] [] (some addr_10_0_0_5) none)
        "n1" "e1" []).events, ev.isResolve = true :=
  ((Join_mandatory_resolution okCollab
    (oneNetwork false [subnet24] [] (some addr_10_0_0_5) none) "n1" "e1" []
    { id := "n1",
      config := { Internal := false, Parent := "eth0", MacvlanMode := "bridge",
                  Ipv4Subnets := [subnet24], Ipv6Subnets := [] },
      endpoints := [("e1", { id := "e1", nid := "n1", addr := some addr_10_0_0_5,
                             addrv6 := none, srcName := "" })] }
    { id := "e1", nid := "n1", addr := some addr_10_0_0_5, addrv6 := none, srcName := "" }
    "veth0a1b2c3" "veth0a1b2c3" rfl rfl rfl rfl rfl (by decide)).1
    (Or.inl (by decide))).1

/-! ## Join: what it leaves in the registry -/

theorem lookup_setNetwork (nid : String) (n n1 : network) (l : List (String × network))
    (h : l.lookup nid = some n) : (setNetwork nid n1 l).lookup nid = some n1 := by
  induction l with
  | nil => simp at h
  | cons p rest ih =>
    obtain ⟨k, m⟩ := p
    by_cases hk : (nid == k) = true
    · simp [setNetwork, hk, List.lookup]
    · have hk1 : (nid == k) = false := by simpa using hk
      simp only [List.lookup, hk1] at h
      simp [setNetwork, hk1, List.lookup, ih h]

theorem getNetwork_ok_lookup (d : driver) (nid : String) (n : network)
    (h : getNetwork d nid = Except.ok n) : d.networks.lookup nid = some n := by
  unfold getNetwork at h
  cases hl : d.networks.lookup nid with
  | none => simp [hl] at h
  | some m =>
    simp [hl] at h
    rw [h]

theorem getNetwork_setNetwork (d : driver) (nid : String) (n n1 : network)
    (h : getNetwork d nid = Except.ok n) :
    getNetwork { networks := setNetwork nid n1 d.networks } nid = Except.ok n1 := by
  simp [getNetwork, lookup_setNetwork nid n n1 d.networks (getNetwork_ok_lookup d nid n h)]

/-- The driver's tables after a `Join` that created the interface: the
endpoint carries the created name, whatever `Join` returns. -/
theorem Join_reached_d (c : Collab) (d : driver) (nid eid : String) (epOpts : Options)
    (n : network) (e : endpoint) (ifName vethName : String)
    (hn : getNetwork d nid = Except.ok n) (he : n.endpoint eid = some e)
    (hgen : c.GenerateIfaceName = Except.ok ifName)
    (hcreate : c.createMacVlan ifName n.config.Parent n.config.MacvlanMode
      = Except.ok vethName) :
    (Join c d nid eid epOpts).d
      = { networks := setNetwork nid (boundNetwork n eid vethName) d.networks } := by
  rw [Join_reached c d nid eid epOpts n e ifName vethName hn he hgen hcreate]
  rcases hP : gatewayPolicy c (boundNetwork n eid vethName) (bound e vethName) eid
    with ⟨ev1, _ | r⟩
  · rcases hF : joinFinish c (bound e vethName) vethName epOpts with ⟨ev2, _ | r2⟩ <;> simp
  · simp

/-- A `Join` that ends before the interface exists returns an error, leaves
the tables as they were and calls nothing but the two creation
collaborators. -/
theorem Join_fails_before_creation (c : Collab) (d : driver) (nid eid : String)
    (epOpts : Options) (h : failsBeforeCreation c d nid eid) :
    (∃ msg, (Join c d nid eid epOpts).ret = Ret.err msg) ∧
    (Join c d nid eid epOpts).d = d ∧
    ∀ ev ∈ (Join c d nid eid epOpts).events,
      ev = Event.GenerateIfaceName ∨ ∃ a b m, ev = Event.createMacVlan a b m := by
  rcases h with ⟨msg, hn⟩ | ⟨n, hn, he⟩ | ⟨n, msg, hn, hgen⟩ | ⟨n, ifName, msg, hn, hgen, hcr⟩
  · simp [Join, hn]
  · simp [Join, hn, he]
  · cases he : n.endpoint eid with
    | none => simp [Join, hn, he]
    | some e => simp [Join, hn, he, hgen]
  · cases he : n.endpoint eid with
    | none => simp [Join, hn, he]
    | some e => simp [Join, hn, he, hgen, hcr]

/-- The final stage, when it falls through: both collaborators succeeded and
were called once each, with the created name. -/
theorem joinFinish_nil (c : Collab) (ep : endpoint) (vethName : String) (epOpts : Options)
    (h : (joinFinish c ep vethName epOpts).2 = none) :
    c.SetNames vethName c.containerVethPrefix (c.GetIfname epOpts) = none ∧
    c.storeUpdate ep = none ∧
    (joinFinish c ep vethName epOpts).1 =
      [Event.SetNames vethName c.containerVethPrefix (c.GetIfname epOpts),
        Event.storeUpdate ep] := by
  unfold joinFinish at h ⊢
  cases h1 : c.SetNames vethName c.containerVethPrefix (c.GetIfname epOpts) with
  | some m => simp [h1] at h
  | none =>
    cases h2 : c.storeUpdate ep with
    | some m => simp [h1, h2] at h
    | none => simp [h1, h2]

/-- The policy step publishes no names and touches no store. -/
theorem gatewayPolicy_events_kind (c : Collab) (n : network) (ep : endpoint) (eid : String) :
    ∀ ev ∈ (gatewayPolicy c n ep eid).1, ev.isSetNames = false ∧ ev.isStoreUpdate = false := by
  intro ev h
  cases hint : n.config.Internal with
  | true =>
    rw [gatewayPolicy_internal c n ep eid hint] at h
    unfold joinInternal at h
    split at h
    · simp at h
    · split at h
      · simp at h
      · simp at h
        subst h
        simp [Event.isSetNames, Event.isStoreUpdate]
  | false =>
    rcases gatewayPolicy_external_events c n ep eid hint ev h with h1 | h1 | h1
    · rcases joinV4_events c n ep eid ev h1 with h2 | ⟨g, h2⟩ <;> subst h2 <;>
        simp [Event.isSetNames, Event.isStoreUpdate]
    · rcases joinV6_events c n ep eid ev h1 with h2 | ⟨g, h2⟩ <;> subst h2 <;>
        simp [Event.isSetNames, Event.isStoreUpdate]
    · rw [h1.1]
      simp [Event.isSetNames, Event.isStoreUpdate]

/-- What the v4 block can return: a panic, the resolution error, the gateway
error, or the error of `SetGateway`. -/
theorem joinV4_ret_cases (c : Collab) (n : network) (ep : endpoint) (eid : String) (r : Ret)
    (h : (joinV4 c n ep eid).2 = some r) :
    r = Ret.panicked ∨
    r = Ret.err ("could not find a valid ipv4 subnet for endpoint " ++ eid) ∨
    (∃ g, r = Ret.err ("gateway " ++ g ++ " is not a valid ipv4 address: "
      ++ parseErrorText g)) ∨
    (∃ gw msg, c.SetGateway gw = some msg ∧ r = Ret.err msg) := by
  unfold joinV4 at h
  split at h
  · split at h
    · simp at h; exact Or.inl h.symm
    · simp at h; exact Or.inr (Or.inl h.symm)
    · split at h
      · simp at h; exact Or.inr (Or.inr (Or.inl ⟨_, h.symm⟩))
      · split at h
        · rename_i hset
          simp at h
          exact Or.inr (Or.inr (Or.inr ⟨_, _, hset, h.symm⟩))
        · split at h
          · simp at h; exact Or.inl h.symm
          · simp at h
  · simp at h

/-- What the v6 block can return: a panic, the resolution error, the gateway
error, or the error of `SetGatewayIPv6`. -/
theorem joinV6_ret_cases (c : Collab) (n : network) (ep : endpoint) (eid : String) (r : Ret)
    (h : (joinV6 c n ep eid).2 = some r) :
    r = Ret.panicked ∨
    r = Ret.err ("could not find a valid ipv6 subnet for endpoint " ++ eid) ∨
    (∃ g, r = Ret.err ("gateway " ++ g ++ " is not a valid ipv6 address: "
      ++ parseErrorText g)) ∨
    (∃ gw msg, c.SetGatewayIPv6 gw = some msg ∧ r = Ret.err msg) := by
  unfold joinV6 at h
  split at h
  · split at h
    · simp at h; exact Or.inl h.symm
    · simp at h; exact Or.inr (Or.inl h.symm)
    · split at h
      · simp at h; exact Or.inr (Or.inr (Or.inl ⟨_, h.symm⟩))
      · split at h
        · rename_i hset
          simp at h
          exact Or.inr (Or.inr (Or.inr ⟨_, _, hset, h.symm⟩))
        · split at h
          · simp at h; exact Or.inl h.symm
          · simp at h
  · simp at h

/-- What the policy step can return: a panic or one of the errors of its two
blocks. -/
theorem gatewayPolicy_ret_cases (c : Collab) (n : network) (ep : endpoint) (eid : String)
    (r : Ret) (h : (gatewayPolicy c n ep eid).2 = some r) :
    r = Ret.panicked ∨ (joinV4 c n ep eid).2 = some r ∨ (joinV6 c n ep eid).2 = some r := by
  cases hint : n.config.Internal with
  | true =>
    rw [gatewayPolicy_internal c n ep eid hint] at h
    unfold joinInternal at h
    split at h
    · simp at h; exact Or.inl h.symm
    · split at h
      · simp at h; exact Or.inl h.symm
      · simp at h
  | false =>
    rcases h4 : joinV4 c n ep eid with ⟨ev4, _ | r4⟩
    · rw [gatewayPolicy_after_v4 c n ep eid hint ev4 h4] at h
      rcases h6 : joinV6 c n ep eid with ⟨ev6, _ | r6⟩
      · rw [h6] at h
        simp only at h
        split at h <;> simp at h
      · rw [h6] at h
        simp at h
        exact Or.inr (Or.inr (by simp [h]))
    · rw [gatewayPolicy_v4_returns c n ep eid hint ev4 r4 h4] at h
      simp at h
      exact Or.inr (Or.inl (by simp [h]))

/-- The policy step never returns Go's nil error: it falls through
instead. -/
theorem gatewayPolicy_ret_ne_nil (c : Collab) (n : network) (ep : endpoint) (eid : String)
    (r : Ret) (h : (gatewayPolicy c n ep eid).2 = some r) : r ≠ Ret.nil := by
  rcases gatewayPolicy_ret_cases c n ep eid r h with h1 | h1 | h1
  · rw [h1]; simp
  · rcases joinV4_ret_cases c n ep eid r h1 with h2 | h2 | ⟨g, h2⟩ | ⟨gw, m, _, h2⟩ <;>
      rw [h2] <;> simp
  · rcases joinV6_ret_cases c n ep eid r h1 with h2 | h2 | ⟨g, h2⟩ | ⟨gw, m, _, h2⟩ <;>
      rw [h2] <;> simp

/-- What the final stage can return: the error of `SetNames`, or the store
error text. -/
theorem joinFinish_ret_cases (c : Collab) (ep : endpoint) (vethName : String)
    (epOpts : Options) (r : Ret) (h : (joinFinish c ep vethName epOpts).2 = some r) :
    (∃ m, c.SetNames vethName c.containerVethPrefix (c.GetIfname epOpts) = some m ∧
      r = Ret.err m) ∨
    (c.SetNames vethName c.containerVethPrefix (c.GetIfname epOpts) = none ∧
      ∃ m, c.storeUpdate ep = some m ∧ r = Ret.err (storeErrorText ep.id m)) := by
  cases h1 : c.SetNames vethName c.containerVethPrefix (c.GetIfname epOpts) with
  | some m =>
    simp [joinFinish, h1] at h
    exact Or.inl ⟨m, rfl, h.symm⟩
  | none =>
    cases h2 : c.storeUpdate ep with
    | some m =>
      simp [joinFinish, h1, h2] at h
      exact Or.inr ⟨rfl, m, rfl, by rw [← h]; rfl⟩
    | none => simp [joinFinish, h1, h2] at h

/-- When the policy step of a reached `Join` returns, `Join` returns the same
and has called neither `SetNames` nor the store update. -/
theorem Join_policy_returns (c : Collab) (d : driver) (nid eid : String) (epOpts : Options)
    (n : network) (e : endpoint) (ifName vethName : String)
    (hn : getNetwork d nid = Except.ok n) (he : n.endpoint eid = some e)
    (hgen : c.GenerateIfaceName = Except.ok ifName)
    (hcreate : c.createMacVlan ifName n.config.Parent n.config.MacvlanMode
      = Except.ok vethName)
    (r : Ret)
    (hr : (gatewayPolicy c (boundNetwork n eid vethName) (bound e vethName) eid).2 = some r) :
    (Join c d nid eid epOpts).ret = r ∧
    ∀ ev ∈ (Join c d nid eid epOpts).events,
      ev.isSetNames = false ∧ ev.isStoreUpdate = false := by
  constructor
  · rw [Join_reached_ret c d nid eid epOpts n e ifName vethName hn he hgen hcreate, hr]
  · intro ev hmem
    rw [Join_reached_events c d nid eid epOpts n e ifName vethName hn he hgen hcreate,
      hr] at hmem
    simp only [List.mem_append, List.mem_cons, List.mem_singleton, List.not_mem_nil,
      or_false] at hmem
    rcases hmem with (h | h) | h
    · subst h; simp [Event.isSetNames, Event.isStoreUpdate]
    · subst h; simp [Event.isSetNames, Event.isStoreUpdate]
    · exact gatewayPolicy_events_kind c _ _ eid ev h

/-- C11 as stated fails: in the scenario (subnet `10.0.0.0/24`, endpoint
`10.0.1.5/24`) `Join` returns the v4 error, and the registry differs from the
one before the call: endpoint `e1` now carries the name of the interface that
was created, and no store update was made. -/
theorem Join_error_rollback_counterexample :
    (Join okCollab (oneNetwork false [subnet24] [] (some addr_10_0_1_5) none)
        "n1" "e1" []).ret
      = Ret.err "could not find a valid ipv4 subnet for endpoint e1" ∧
    (Join okCollab (oneNetwork false [subnet24] [] (some addr_10_0_1_5) none)
        "n1" "e1" []).d
      ≠ oneNetwork false [subnet24] [] (some addr_10_0_1_5) none ∧
    ((oneNetwork false [subnet24] [] (some addr_10_0_1_5) none).networks.lookup "n1").bind
        (fun n => (n.endpoint "e1").map (fun e => e.srcName)) = some "" ∧
    ((Join okCollab (oneNetwork false [subnet24] [] (some addr_10_0_1_5) none)
        "n1" "e1" []).d.networks.lookup "n1").bind
        (fun n => (n.endpoint "e1").map (fun e => e.srcName)) = some "veth0a1b2c3" ∧
    (∀ ev ∈ (Join okCollab (oneNetwork false [subnet24] [] (some addr_10_0_1_5) none)
        "n1" "e1" []).events, ev.isStoreUpdate = false) := by
  decide

/-- C11, amended: when `Join` fails before the interface is created (unknown
network, absent endpoint, failed name generation, failed `createMacVlan`) it
returns an error and the registry is left as it was.  Once `createMacVlan`
succeeded, the endpoint carries the created name in the registry whatever
`Join` returns, with no rollback; and when the gateway-policy step returns,
neither `SetNames` nor the store update has run. -/
theorem Join_error_registry (c : Collab) (d : driver) (nid eid : String) (epOpts : Options) :
    (failsBeforeCreation c d nid eid →
      (∃ msg, (Join c d nid eid epOpts).ret = Ret.err msg) ∧
      (Join c d nid eid epOpts).d = d) ∧
    (∀ n e ifName vethName, getNetwork d nid = Except.ok n → n.endpoint eid = some e →
      c.GenerateIfaceName = Except.ok ifName →
      c.createMacVlan ifName n.config.Parent n.config.MacvlanMode = Except.ok vethName →
      getNetwork (Join c d nid eid epOpts).d nid = Except.ok (boundNetwork n eid vethName) ∧
      (boundNetwork n eid vethName).endpoint eid = some (bound e vethName) ∧
      (bound e vethName).srcName = vethName ∧
      (∀ r, (gatewayPolicy c (boundNetwork n eid vethName) (bound e vethName) eid).2 = some r →
        (Join c d nid eid epOpts).ret = r ∧
        ∀ ev ∈ (Join c d nid eid epOpts).events,
          ev.isSetNames = false ∧ ev.isStoreUpdate = false)) := by
  constructor
  · intro h
    have := Join_fails_before_creation c d nid eid epOpts h
    exact ⟨this.1, this.2.1⟩
  · intro n e ifName vethName hn he hgen hcreate
    refine ⟨?_, boundNetwork_endpoint n eid vethName e he, rfl, ?_⟩
    · rw [Join_reached_d c d nid eid epOpts n e ifName vethName hn he hgen hcreate]
      exact getNetwork_setNetwork d nid n _ hn
    · intro r hr
      exact Join_policy_returns c d nid eid epOpts n e ifName vethName hn he hgen hcreate r hr

/-- Witness for C11: with an unknown network the registry is left as it
was. -/
theorem Join_error_registry_witness :
    (Join okCollab (oneEndpoint "e1") "n2" "e1" []).d = oneEndpoint "e1" :=
  ((Join_error_registry okCollab (oneEndpoint "e1") "n2" "e1" []).1
    (Or.inl ⟨"network id n2 not found", rfl⟩)).2

/-- C12: if the network ID is unknown, or the endpoint ID is absent from the
network, `Join` returns an error at once: it makes no call at all (no name
generated, no interface created, join-info untouched, nothing persisted) and
leaves the registry as it was. -/
theorem Join_not_found (c : Collab) (d : driver) (nid eid : String) (epOpts : Options)
    (h : (∃ msg, getNetwork d nid = Except.error msg) ∨
      (∃ n, getNetwork d nid = Except.ok n ∧ n.endpoint eid = none)) :
    (∃ msg, (Join c d nid eid epOpts).ret = Ret.err msg) ∧
    (Join c d nid eid epOpts).events = [] ∧
    (Join c d nid eid epOpts).d = d := by
  rcases h with ⟨msg, hn⟩ | ⟨n, hn, he⟩
  · simp [Join, hn]
  · simp [Join, hn, he]

/-- Witness for C12: endpoint `e2` is absent from network `n1`. -/
theorem Join_not_found_witness :
    (Join okCollab (oneEndpoint "e1") "n1" "e2" []).events = [] ∧
    (Join okCollab (oneEndpoint "e1") "n1" "e2" []).d = oneEndpoint "e1" :=
  (Join_not_found okCollab (oneEndpoint "e1") "n1" "e2" []
    (Or.inr ⟨{ id := "n1",
               config := { Internal := false, Parent := "eth0", MacvlanMode := "bridge",
                           Ipv4Subnets := [], Ipv6Subnets := [] },
               endpoints := [("e1", { id := "e1", nid := "n1", addr := none, addrv6 := none,
                                      srcName := "" })] }, rfl, rfl⟩)).2

/-- C13: whenever `Join` returns success, the interface was created under
some name `vethName` returned by `createMacVlan`; the endpoint found in the
registry afterwards carries `vethName` as its `srcName`; `SetNames` was called
exactly with `vethName`, the container-side prefix and the override read from
the options; and the store update received the endpoint carrying
`vethName`. -/
theorem Join_success_names (c : Collab) (d : driver) (nid eid : String) (epOpts : Options)
    (h : (Join c d nid eid epOpts).ret = Ret.nil) :
    ∃ n e ifName vethName,
      getNetwork d nid = Except.ok n ∧ n.endpoint eid = some e ∧
      c.GenerateIfaceName = Except.ok ifName ∧
      c.createMacVlan ifName n.config.Parent n.config.MacvlanMode = Except.ok vethName ∧
      getNetwork (Join c d nid eid epOpts).d nid = Except.ok (boundNetwork n eid vethName) ∧
      (boundNetwork n eid vethName).endpoint eid = some (bound e vethName) ∧
      (bound e vethName).srcName = vethName ∧
      (∀ ev ∈ (Join c d nid eid epOpts).events, ev.isSetNames = true →
        ev = Event.SetNames vethName c.containerVethPrefix (c.GetIfname epOpts)) ∧
      Event.SetNames vethName c.containerVethPrefix (c.GetIfname epOpts)
        ∈ (Join c d nid eid epOpts).events ∧
      (∀ ev ∈ (Join c d nid eid epOpts).events, ev.isStoreUpdate = true →
        ev = Event.storeUpdate (bound e vethName)) ∧
      Event.storeUpdate (bound e vethName) ∈ (Join c d nid eid epOpts).events := by
  cases hn : getNetwork d nid with
  | error msg => simp [Join, hn] at h
  | ok n =>
    cases he : n.endpoint eid with
    | none => simp [Join, hn, he] at h
    | some e =>
      cases hgen : c.GenerateIfaceName with
      | error msg => simp [Join, hn, he, hgen] at h
      | ok ifName =>
        cases hcreate : c.createMacVlan ifName n.config.Parent n.config.MacvlanMode with
        | error msg => simp [Join, hn, he, hgen, hcreate] at h
        | ok vethName =>
          have hret := Join_reached_ret c d nid eid epOpts n e ifName vethName hn he hgen hcreate
          have hev := Join_reached_events c d nid eid epOpts n e ifName vethName hn he hgen
            hcreate
          rw [h] at hret
          rcases hP : (gatewayPolicy c (boundNetwork n eid vethName) (bound e vethName) eid).2
            with _ | r
          · rw [hP] at hret hev
            simp only at hret hev
            have hF : (joinFinish c (bound e vethName) vethName epOpts).2 = none := by
              rcases hF : (joinFinish c (bound e vethName) vethName epOpts).2 with _ | r2
              · rfl
              · rw [hF] at hret
                simp only at hret
                rw [← hret] at hF
                unfold joinFinish at hF
                cases h1 : c.SetNames vethName c.containerVethPrefix (c.GetIfname epOpts) with
                | some m => simp [h1] at hF
                | none =>
                  cases h2 : c.storeUpdate (bound e vethName) with
                  | some m => simp [h1, h2] at hF
                  | none => simp [h1, h2] at hF
            have hfin := joinFinish_nil c (bound e vethName) vethName epOpts hF
            rw [hfin.2.2] at hev
            have hreg := boundNetwork_endpoint n eid vethName e he
            have hkind := gatewayPolicy_events_kind c (boundNetwork n eid vethName)
              (bound e vethName) eid
            refine ⟨n, e, ifName, vethName, rfl, he, rfl, hcreate, ?_, hreg, rfl,
              ?_, ?_, ?_, ?_⟩
            · rw [Join_reached_d c d nid eid epOpts n e ifName vethName hn he hgen hcreate]
              exact getNetwork_setNetwork d nid n _ hn
            · intro ev hmem hk
              rw [hev] at hmem
              simp only [List.mem_append, List.mem_cons, List.mem_singleton, List.not_mem_nil,
                or_false] at hmem
              rcases hmem with ((h1 | h1) | h1) | (h1 | h1)
              · subst h1; simp [Event.isSetNames] at hk
              · subst h1; simp [Event.isSetNames] at hk
              · rw [(hkind ev h1).1] at hk; simp at hk
              · exact h1
              · subst h1; simp [Event.isSetNames] at hk
            · rw [hev]; simp
            · intro ev hmem hk
              rw [hev] at hmem
              simp only [List.mem_append, List.mem_cons, List.mem_singleton, List.not_mem_nil,
                or_false] at hmem
              rcases hmem with ((h1 | h1) | h1) | (h1 | h1)
              · subst h1; simp [Event.isStoreUpdate] at hk
              · subst h1; simp [Event.isStoreUpdate] at hk
              · rw [(hkind ev h1).2] at hk; simp at hk
              · subst h1; simp [Event.isStoreUpdate] at hk
              · exact h1
            · rw [hev]; simp
          · rw [hP] at hret
            simp only at hret
            exfalso
            exact gatewayPolicy_ret_ne_nil c _ _ eid r hP hret.symm

/-- Witness for C13: the kernel names the interface `veth9z8y7x6`, not the
candidate `veth0a1b2c3`, and that is the name `SetNames` receives. -/
theorem Join_success_names_witness :
    (∃ n e ifName vethName,
      getNetwork (oneEndpoint "e1") "n1" = Except.ok n ∧ n.endpoint "e1" = some e ∧
      renamingCollab.GenerateIfaceName = Except.ok ifName ∧
      renamingCollab.createMacVlan ifName n.config.Parent n.config.MacvlanMode
        = Except.ok vethName ∧
      getNetwork (Join renamingCollab (oneEndpoint "e1") "n1" "e1" []).d "n1"
        = Except.ok (boundNetwork n "e1" vethName) ∧
      (boundNetwork n "e1" vethName).endpoint "e1" = some (bound e vethName) ∧
      (bound e vethName).srcName = vethName ∧
      (∀ ev ∈ (Join renamingCollab (oneEndpoint "e1") "n1" "e1" []).events,
        ev.isSetNames = true →
        ev = Event.SetNames vethName renamingCollab.containerVethPrefix
          (renamingCollab.GetIfname [])) ∧
      Event.SetNames vethName renamingCollab.containerVethPrefix (renamingCollab.GetIfname [])
        ∈ (Join renamingCollab (oneEndpoint "e1") "n1" "e1" []).events ∧
      (∀ ev ∈ (Join renamingCollab (oneEndpoint "e1") "n1" "e1" []).events,
        ev.isStoreUpdate = true → ev = Event.storeUpdate (bound e vethName)) ∧
      Event.storeUpdate (bound e vethName)
        ∈ (Join renamingCollab (oneEndpoint "e1") "n1" "e1" []).events) ∧
    Event.SetNames "veth9z8y7x6" "eth" "net0"
      ∈ (Join renamingCollab (oneEndpoint "e1") "n1" "e1" []).events :=
  ⟨Join_success_names renamingCollab (oneEndpoint "e1") "n1" "e1" [] (by decide), by decide⟩

/-! ## Join: success and failure, step by step -/

/-- On a network that is not internal, the policy step falls through exactly
when the gateway steps it mandates all succeed. -/
theorem gatewayPolicy_falls_through_iff (c : Collab) (n : network) (ep : endpoint)
    (eid : String) (hint : n.config.Internal = false) :
    (gatewayPolicy c n ep eid).2 = none ↔ gatewayStepsSucceed c n.config ep := by
  unfold gatewayStepsSucceed
  rw [← joinV4_falls_through_iff c n ep eid, ← joinV6_falls_through_iff c n ep eid]
  rcases h4 : joinV4 c n ep eid with ⟨ev4, _ | r4⟩
  · rw [gatewayPolicy_after_v4 c n ep eid hint ev4 h4]
    rcases h6 : joinV6 c n ep eid with ⟨ev6, _ | r6⟩
    · simp only [true_and]
      split <;> simp
    · simp
  · rw [gatewayPolicy_v4_returns c n ep eid hint ev4 r4 h4]
    simp

/-- On an internal network, the policy step falls through exactly when the
endpoint has an address in every family with configured subnets. -/
theorem gatewayPolicy_internal_falls_through_iff (c : Collab) (n : network) (ep : endpoint)
    (eid : String) (hint : n.config.Internal = true) :
    (gatewayPolicy c n ep eid).2 = none ↔
      ((n.config.Ipv4Subnets ≠ [] → ep.addr ≠ none) ∧
        (n.config.Ipv6Subnets ≠ [] → ep.addrv6 ≠ none)) := by
  rw [gatewayPolicy_internal c n ep eid hint]
  constructor
  · intro h
    unfold joinInternal at h
    by_cases h4 : n.config.Ipv4Subnets.length > 0 ∧ ep.addr = none
    · rw [if_pos h4] at h; simp at h
    · rw [if_neg h4] at h
      by_cases h6 : n.config.Ipv6Subnets.length > 0 ∧ ep.addrv6 = none
      · rw [if_pos h6] at h; simp at h
      · exact ⟨fun hne ha => h4 ⟨List.length_pos.mpr hne, ha⟩,
          fun hne ha => h6 ⟨List.length_pos.mpr hne, ha⟩⟩
  · intro h
    rw [joinInternal_ok n ep h.1 h.2]

/-- The final stage calls the store update at most once, and only after
`SetNames` was called and succeeded. -/
theorem joinFinish_store_once (c : Collab) (ep : endpoint) (vethName : String)
    (epOpts : Options) :
    ((joinFinish c ep vethName epOpts).1.filter Event.isStoreUpdate).length ≤ 1 ∧
    ((∃ ev ∈ (joinFinish c ep vethName epOpts).1, ev.isStoreUpdate = true) →
      Event.SetNames vethName c.containerVethPrefix (c.GetIfname epOpts)
        ∈ (joinFinish c ep vethName epOpts).1 ∧
      c.SetNames vethName c.containerVethPrefix (c.GetIfname epOpts) = none) := by
  cases h1 : c.SetNames vethName c.containerVethPrefix (c.GetIfname epOpts) with
  | some m => simp [joinFinish, h1, List.filter, Event.isStoreUpdate]
  | none =>
    cases h2 : c.storeUpdate ep with
    | some m => simp [joinFinish, h1, h2, List.filter, Event.isStoreUpdate]
    | none => simp [joinFinish, h1, h2, List.filter, Event.isStoreUpdate]

/-- In any `Join` the store update is called at most once, and only after
`SetNames` was called and succeeded. -/
theorem Join_store_once (c : Collab) (d : driver) (nid eid : String) (epOpts : Options) :
    ((Join c d nid eid epOpts).events.filter Event.isStoreUpdate).length ≤ 1 ∧
    ((∃ ev ∈ (Join c d nid eid epOpts).events, ev.isStoreUpdate = true) →
      ∃ a b m, Event.SetNames a b m ∈ (Join c d nid eid epOpts).events ∧
        c.SetNames a b m = none) := by
  cases hn : getNetwork d nid with
  | error msg => simp [Join, hn]
  | ok n =>
    cases he : n.endpoint eid with
    | none => simp [Join, hn, he]
    | some e =>
      cases hgen : c.GenerateIfaceName with
      | error msg => simp [Join, hn, he, hgen, List.filter, Event.isStoreUpdate]
      | ok ifName =>
        cases hcreate : c.createMacVlan ifName n.config.Parent n.config.MacvlanMode with
        | error msg => simp [Join, hn, he, hgen, hcreate, List.filter, Event.isStoreUpdate]
        | ok vethName =>
          have hev := Join_reached_events c d nid eid epOpts n e ifName vethName hn he hgen
            hcreate
          have hkind := gatewayPolicy_events_kind c (boundNetwork n eid vethName)
            (bound e vethName) eid
          have hPf : (gatewayPolicy c (boundNetwork n eid vethName) (bound e vethName)
              eid).1.filter Event.isStoreUpdate = [] := by
            rw [List.filter_eq_nil_iff]
            intro ev hmem
            simp [(hkind ev hmem).2]
          have hfin := joinFinish_store_once c (bound e vethName) vethName epOpts
          rcases hP : (gatewayPolicy c (boundNetwork n eid vethName) (bound e vethName) eid).2
            with _ | r
          · rw [hP] at hev
            simp only at hev
            constructor
            · rw [hev]
              simp only [List.filter_append, hPf, List.append_nil, List.length_append]
              simpa [List.filter, Event.isStoreUpdate] using hfin.1
            · rintro ⟨ev, hmem, hk⟩
              rw [hev] at hmem
              simp only [List.mem_append, List.mem_cons, List.mem_singleton, List.not_mem_nil,
                or_false] at hmem
              rcases hmem with ((h1 | h1) | h1) | h1
              · subst h1; simp [Event.isStoreUpdate] at hk
              · subst h1; simp [Event.isStoreUpdate] at hk
              · rw [(hkind ev h1).2] at hk; simp at hk
              · have := hfin.2 ⟨ev, h1, hk⟩
                exact ⟨_, _, _, by rw [hev]; simp [this.1], this.2⟩
          · rw [hP] at hev
            simp only [List.append_nil] at hev
            constructor
            · rw [hev]
              simp [List.filter_append, hPf, List.filter, Event.isStoreUpdate]
            · rintro ⟨ev, hmem, hk⟩
              rw [hev] at hmem
              simp only [List.mem_append, List.mem_cons, List.mem_singleton, List.not_mem_nil,
                or_false] at hmem
              rcases hmem with (h1 | h1) | h1
              · subst h1; simp [Event.isStoreUpdate] at hk
              · subst h1; simp [Event.isStoreUpdate] at hk
              · rw [(hkind ev h1).2] at hk; simp at hk

/-- A reached `Join` whose policy step fell through and whose `SetNames`
fails returns that error without calling the store update. -/
theorem Join_setnames_fails (c : Collab) (d : driver) (nid eid : String) (epOpts : Options)
    (n : network) (e : endpoint) (ifName vethName : String)
    (hn : getNetwork d nid = Except.ok n) (he : n.endpoint eid = some e)
    (hgen : c.GenerateIfaceName = Except.ok ifName)
    (hcreate : c.createMacVlan ifName n.config.Parent n.config.MacvlanMode
      = Except.ok vethName)
    (hP : (gatewayPolicy c (boundNetwork n eid vethName) (bound e vethName) eid).2 = none)
    (msg : String)
    (hnames : c.SetNames vethName c.containerVethPrefix (c.GetIfname epOpts) = some msg) :
    (Join c d nid eid epOpts).ret = Ret.err msg ∧
    ∀ ev ∈ (Join c d nid eid epOpts).events, ev.isStoreUpdate = false := by
  have hF : joinFinish c (bound e vethName) vethName epOpts =
      ([Event.SetNames vethName c.containerVethPrefix (c.GetIfname epOpts)],
        some (Ret.err msg)) := by
    simp [joinFinish, hnames]
  constructor
  · rw [Join_reached_ret c d nid eid epOpts n e ifName vethName hn he hgen hcreate, hP, hF]
  · intro ev hmem
    rw [Join_reached_events c d nid eid epOpts n e ifName vethName hn he hgen hcreate,
      hP, hF] at hmem
    simp only [List.mem_append, List.mem_cons, List.mem_singleton, List.not_mem_nil,
      or_false] at hmem
    rcases hmem with ((h1 | h1) | h1) | h1
    · subst h1; simp [Event.isStoreUpdate]
    · subst h1; simp [Event.isStoreUpdate]
    · exact (gatewayPolicy_events_kind c _ _ eid ev h1).2
    · subst h1; simp [Event.isStoreUpdate]

/-- A reached `Join` whose earlier steps all succeeded and whose store update
fails returns the store error text. -/
theorem Join_store_fails (c : Collab) (d : driver) (nid eid : String) (epOpts : Options)
    (n : network) (e : endpoint) (ifName vethName : String)
    (hn : getNetwork d nid = Except.ok n) (he : n.endpoint eid = some e)
    (hgen : c.GenerateIfaceName = Except.ok ifName)
    (hcreate : c.createMacVlan ifName n.config.Parent n.config.MacvlanMode
      = Except.ok vethName)
    (hP : (gatewayPolicy c (boundNetwork n eid vethName) (bound e vethName) eid).2 = none)
    (hnames : c.SetNames vethName c.containerVethPrefix (c.GetIfname epOpts) = none)
    (msg : String) (hstore : c.storeUpdate (bound e vethName) = some msg) :
    (Join c d nid eid epOpts).ret = Ret.err (storeErrorText e.id msg) := by
  have hF : (joinFinish c (bound e vethName) vethName epOpts).2 =
      some (Ret.err (storeErrorText e.id msg)) := by
    unfold joinFinish
    simp only [hnames, hstore]
    rfl
  rw [Join_reached_ret c d nid eid epOpts n e ifName vethName hn he hgen hcreate, hP, hF]

/-- A `Join` that returns Go's nil error went through every stage. -/
theorem Join_nil_inv (c : Collab) (d : driver) (nid eid : String) (epOpts : Options)
    (h : (Join c d nid eid epOpts).ret = Ret.nil) :
    ∃ n e ifName vethName,
      getNetwork d nid = Except.ok n ∧ n.endpoint eid = some e ∧
      c.GenerateIfaceName = Except.ok ifName ∧
      c.createMacVlan ifName n.config.Parent n.config.MacvlanMode = Except.ok vethName ∧
      (gatewayPolicy c (boundNetwork n eid vethName) (bound e vethName) eid).2 = none ∧
      (joinFinish c (bound e vethName) vethName epOpts).2 = none := by
  cases hn : getNetwork d nid with
  | error msg => simp [Join, hn] at h
  | ok n =>
    cases he : n.endpoint eid with
    | none => simp [Join, hn, he] at h
    | some e =>
      cases hgen : c.GenerateIfaceName with
      | error msg => simp [Join, hn, he, hgen] at h
      | ok ifName =>
        cases hcreate : c.createMacVlan ifName n.config.Parent n.config.MacvlanMode with
        | error msg => simp [Join, hn, he, hgen, hcreate] at h
        | ok vethName =>
          have hret := Join_reached_ret c d nid eid epOpts n e ifName vethName hn he hgen hcreate
          rw [h] at hret
          refine ⟨n, e, ifName, vethName, rfl, he, rfl, hcreate, ?_, ?_⟩
          · rcases hP : (gatewayPolicy c (boundNetwork n eid vethName) (bound e vethName)
                eid).2 with _ | r
            · rfl
            · rw [hP] at hret
              exact absurd hret.symm (gatewayPolicy_ret_ne_nil c _ _ eid r hP)
          · rcases hP : (gatewayPolicy c (boundNetwork n eid vethName) (bound e vethName)
                eid).2 with _ | r
            · rw [hP] at hret
              simp only at hret
              rcases hF : (joinFinish c (bound e vethName) vethName epOpts).2 with _ | r2
              · rfl
              · rw [hF] at hret
                simp only at hret
                rcases joinFinish_ret_cases c _ vethName epOpts r2 hF
                  with ⟨m, _, hm⟩ | ⟨_, m, _, hm⟩ <;> rw [hm] at hret <;> simp at hret
            · rw [hP] at hret
              exact absurd hret.symm (gatewayPolicy_ret_ne_nil c _ _ eid r hP)

/-- A resolution that returns a subnet was given a list that is not empty. -/
theorem getSubnetForIP_some_ne_nil (ip : Option IPNet) (L : List ipSubnet) (S : ipSubnet)
    (h : getSubnetForIP ip L = Run.done (some S)) : L ≠ [] := by
  intro hL
  subst hL
  simp [getSubnetForIP] at h

/-- The v4 block when the gateway text of the resolved subnet does not parse:
one call, the resolution. -/
theorem joinV4_gateway_unparsed (c : Collab) (n : network) (ep : endpoint) (eid : String)
    (S : ipSubnet)
    (hres : getSubnetforIPv4 n.config.Ipv4Subnets ep.addr = Run.done (some S))
    (hgw : ParseCIDR S.GwIP = none) :
    joinV4 c n ep eid =
      ([Event.getSubnetforIPv4 ep.addr],
        some (Ret.err ("gateway " ++ S.GwIP ++ " is not a valid ipv4 address: "
          ++ parseErrorText S.GwIP))) := by
  have hl : n.config.Ipv4Subnets.length > 0 :=
    List.length_pos.mpr (getSubnetForIP_some_ne_nil _ _ S hres)
  simp [joinV4, hl, hres, hgw]

/-- The v4 block when `SetGateway` refuses the gateway: two calls, the
resolution and `SetGateway`. -/
theorem joinV4_setgateway_fails (c : Collab) (n : network) (ep : endpoint) (eid : String)
    (S : ipSubnet) (gw : IP) (gwnet : IPNet) (msg : String)
    (hres : getSubnetforIPv4 n.config.Ipv4Subnets ep.addr = Run.done (some S))
    (hgw : ParseCIDR S.GwIP = some (gw, gwnet)) (hset : c.SetGateway gw = some msg) :
    joinV4 c n ep eid =
      ([Event.getSubnetforIPv4 ep.addr, Event.SetGateway gw], some (Ret.err msg)) := by
  have hl : n.config.Ipv4Subnets.length > 0 :=
    List.length_pos.mpr (getSubnetForIP_some_ne_nil _ _ S hres)
  simp [joinV4, hl, hres, hgw, hset]

/-- The v6 block when the gateway text of the resolved subnet does not parse:
one call, the resolution. -/
theorem joinV6_gateway_unparsed (c : Collab) (n : network) (ep : endpoint) (eid : String)
    (S : ipSubnet)
    (hres : getSubnetforIPv6 n.config.Ipv6Subnets ep.addrv6 = Run.done (some S))
    (hgw : ParseCIDR S.GwIP = none) :
    joinV6 c n ep eid =
      ([Event.getSubnetforIPv6 ep.addrv6],
        some (Ret.err ("gateway " ++ S.GwIP ++ " is not a valid ipv6 address: "
          ++ parseErrorText S.GwIP))) := by
  have hl : n.config.Ipv6Subnets.length > 0 :=
    List.length_pos.mpr (getSubnetForIP_some_ne_nil _ _ S hres)
  have ha : ep.addrv6 ≠ none := by
    intro ha
    rw [ha] at hres
    exact getSubnetForIP_nil_addr _ S hres
  simp [joinV6, hl, ha, hres, hgw]

/-- The v6 block when `SetGatewayIPv6` refuses the gateway: two calls, the
resolution and `SetGatewayIPv6`. -/
theorem joinV6_setgateway_fails (c : Collab) (n : network) (ep : endpoint) (eid : String)
    (S : ipSubnet) (gw : IP) (gwnet : IPNet) (msg : String)
    (hres : getSubnetforIPv6 n.config.Ipv6Subnets ep.addrv6 = Run.done (some S))
    (hgw : ParseCIDR S.GwIP = some (gw, gwnet)) (hset : c.SetGatewayIPv6 gw = some msg) :
    joinV6 c n ep eid =
      ([Event.getSubnetforIPv6 ep.addrv6, Event.SetGatewayIPv6 gw], some (Ret.err msg)) := by
  have hl : n.config.Ipv6Subnets.length > 0 :=
    List.length_pos.mpr (getSubnetForIP_some_ne_nil _ _ S hres)
  have ha : ep.addrv6 ≠ none := by
    intro ha
    rw [ha] at hres
    exact getSubnetForIP_nil_addr _ S hres
  simp [joinV6, hl, ha, hres, hgw, hset]

/-- The policy step of a network that is not internal, when the v4 block fell
through and the v6 block returns. -/
theorem gatewayPolicy_v6_returns (c : Collab) (n : network) (ep : endpoint) (eid : String)
    (hint : n.config.Internal = false) (ev4 ev6 : List Event) (r : Ret)
    (h4 : joinV4 c n ep eid = (ev4, none)) (h6 : joinV6 c n ep eid = (ev6, some r)) :
    gatewayPolicy c n ep eid = (ev4 ++ ev6, some r) := by
  simp [gatewayPolicy, hint, h4, h6]

/-- The calls of a reached `Join` whose policy step returns: the two creation
calls and those of the policy step, nothing after. -/
theorem Join_policy_returns_trace (c : Collab) (d : driver) (nid eid : String)
    (epOpts : Options) (n : network) (e : endpoint) (ifName vethName : String)
    (hn : getNetwork d nid = Except.ok n) (he : n.endpoint eid = some e)
    (hgen : c.GenerateIfaceName = Except.ok ifName)
    (hcreate : c.createMacVlan ifName n.config.Parent n.config.MacvlanMode
      = Except.ok vethName)
    (r : Ret)
    (hr : (gatewayPolicy c (boundNetwork n eid vethName) (bound e vethName) eid).2 = some r) :
    (Join c d nid eid epOpts).events =
      [Event.GenerateIfaceName,
        Event.createMacVlan ifName n.config.Parent n.config.MacvlanMode]
      ++ (gatewayPolicy c (boundNetwork n eid vethName) (bound e vethName) eid).1 := by
  rw [Join_reached_events c d nid eid epOpts n e ifName vethName hn he hgen hcreate, hr]
  simp

/-- The calls of a reached `Join` whose policy step fell through: the two
creation calls, those of the policy step, `SetNames` and, when `SetNames`
succeeded, the store update. -/
theorem Join_finish_trace (c : Collab) (d : driver) (nid eid : String)
    (epOpts : Options) (n : network) (e : endpoint) (ifName vethName : String)
    (hn : getNetwork d nid = Except.ok n) (he : n.endpoint eid = some e)
    (hgen : c.GenerateIfaceName = Except.ok ifName)
    (hcreate : c.createMacVlan ifName n.config.Parent n.config.MacvlanMode
      = Except.ok vethName)
    (hP : (gatewayPolicy c (boundNetwork n eid vethName) (bound e vethName) eid).2 = none) :
    (Join c d nid eid epOpts).events =
      [Event.GenerateIfaceName,
        Event.createMacVlan ifName n.config.Parent n.config.MacvlanMode]
      ++ (gatewayPolicy c (boundNetwork n eid vethName) (bound e vethName) eid).1
      ++ (match c.SetNames vethName c.containerVethPrefix (c.GetIfname epOpts) with
          | some _ => [Event.SetNames vethName c.containerVethPrefix (c.GetIfname epOpts)]
          | none => [Event.SetNames vethName c.containerVethPrefix (c.GetIfname epOpts),
                      Event.storeUpdate (bound e vethName)]) := by
  rw [Join_reached_events c d nid eid epOpts n e ifName vethName hn he hgen hcreate, hP]
  congr 1
  unfold joinFinish
  cases hnames : c.SetNames vethName c.containerVethPrefix (c.GetIfname epOpts) with
  | some m => rfl
  | none =>
    cases hstore : c.storeUpdate (bound e vethName) with
    | some m => rfl
    | none => rfl

/-- C14: `Join` returns success if and only if every step succeeds in order:
network lookup, endpoint lookup, interface-name generation, macvlan creation,
endpoint re-lookup, the gateway-policy step (on a network that is not
internal: exactly the resolution, gateway parsing and gateway setting the
policy mandates), `SetNames`, store update.  A failure at any step makes `Join`
return an error without invoking any later collaborator, which is stated by
the exact list of calls made in each case: none after a failed network or
endpoint lookup; only the name generation when it fails; only the name
generation and the creation when the creation fails; then the calls of the
policy step up to and including the failing one (a failing resolution or
gateway parsing is followed by no `SetGateway` or `SetGatewayIPv6`, and a
failing v4 step by no v6 call), then `SetNames` alone when it fails, then
`SetNames` and the store update.  The store update runs at most once and only
after `SetNames` was called and succeeded. -/
theorem Join_success_iff (c : Collab) (d : driver) (nid eid : String) (epOpts : Options) :
    ((Join c d nid eid epOpts).ret = Ret.nil ↔
      ∃ n e ifName vethName,
        getNetwork d nid = Except.ok n ∧ n.endpoint eid = some e ∧
        c.GenerateIfaceName = Except.ok ifName ∧
        c.createMacVlan ifName n.config.Parent n.config.MacvlanMode = Except.ok vethName ∧
        (boundNetwork n eid vethName).endpoint eid = some (bound e vethName) ∧
        (gatewayPolicy c (boundNetwork n eid vethName) (bound e vethName) eid).2 = none ∧
        c.SetNames vethName c.containerVethPrefix (c.GetIfname epOpts) = none ∧
        c.storeUpdate (bound e vethName) = none) ∧
    (∀ (n : network) (e : endpoint) (vethName : String), n.config.Internal = false →
      ((gatewayPolicy c (boundNetwork n eid vethName) (bound e vethName) eid).2 = none ↔
        gatewayStepsSucceed c n.config e)) ∧
    -- a failed network lookup: no call
    (∀ msg, getNetwork d nid = Except.error msg →
      (Join c d nid eid epOpts).ret = Ret.err msg ∧
      (Join c d nid eid epOpts).events = []) ∧
    -- a failed endpoint lookup: no call
    (∀ n, getNetwork d nid = Except.ok n → n.endpoint eid = none →
      (Join c d nid eid epOpts).ret = Ret.err ("could not find endpoint with id " ++ eid) ∧
      (Join c d nid eid epOpts).events = []) ∧
    -- a failed name generation: no creation
    (∀ n e msg, getNetwork d nid = Except.ok n → n.endpoint eid = some e →
      c.GenerateIfaceName = Except.error msg →
      (Join c d nid eid epOpts).ret
        = Ret.err ("error generating an interface name: " ++ msg) ∧
      (Join c d nid eid epOpts).events = [Event.GenerateIfaceName]) ∧
    -- a failed creation: nothing after it
    (∀ n e ifName msg, getNetwork d nid = Except.ok n → n.endpoint eid = some e →
      c.GenerateIfaceName = Except.ok ifName →
      c.createMacVlan ifName n.config.Parent n.config.MacvlanMode = Except.error msg →
      (Join c d nid eid epOpts).ret = Ret.err msg ∧
      (Join c d nid eid epOpts).events =
        [Event.GenerateIfaceName,
          Event.createMacVlan ifName n.config.Parent n.config.MacvlanMode]) ∧
    -- once the interface is created: the policy step, then the final stage
    (∀ n e ifName vethName, getNetwork d nid = Except.ok n → n.endpoint eid = some e →
      c.GenerateIfaceName = Except.ok ifName →
      c.createMacVlan ifName n.config.Parent n.config.MacvlanMode = Except.ok vethName →
      (∀ r, (gatewayPolicy c (boundNetwork n eid vethName) (bound e vethName) eid).2
          = some r →
        (Join c d nid eid epOpts).ret = r ∧
        (Join c d nid eid epOpts).events =
          [Event.GenerateIfaceName,
            Event.createMacVlan ifName n.config.Parent n.config.MacvlanMode]
          ++ (gatewayPolicy c (boundNetwork n eid vethName) (bound e vethName) eid).1 ∧
        ∀ ev ∈ (Join c d nid eid epOpts).events,
          ev.isSetNames = false ∧ ev.isStoreUpdate = false) ∧
      ((gatewayPolicy c (boundNetwork n eid vethName) (bound e vethName) eid).2 = none →
        (∀ msg, c.SetNames vethName c.containerVethPrefix (c.GetIfname epOpts) = some msg →
          (Join c d nid eid epOpts).ret = Ret.err msg ∧
          (Join c d nid eid epOpts).events =
            [Event.GenerateIfaceName,
              Event.createMacVlan ifName n.config.Parent n.config.MacvlanMode]
            ++ (gatewayPolicy c (boundNetwork n eid vethName) (bound e vethName) eid).1
            ++ [Event.SetNames vethName c.containerVethPrefix (c.GetIfname epOpts)] ∧
          ∀ ev ∈ (Join c d nid eid epOpts).events, ev.isStoreUpdate = false) ∧
        (c.SetNames vethName c.containerVethPrefix (c.GetIfname epOpts) = none →
          (Join c d nid eid epOpts).events =
            [Event.GenerateIfaceName,
              Event.createMacVlan ifName n.config.Parent n.config.MacvlanMode]
            ++ (gatewayPolicy c (boundNetwork n eid vethName) (bound e vethName) eid).1
            ++ [Event.SetNames vethName c.containerVethPrefix (c.GetIfname epOpts),
                Event.storeUpdate (bound e vethName)] ∧
          ∀ msg, c.storeUpdate (bound e vethName) = some msg →
            (Join c d nid eid epOpts).ret = Ret.err (storeErrorText e.id msg)))) ∧
    -- inside the policy step of a network that is not internal
    (∀ (N : network) (E : endpoint), N.config.Internal = false →
      -- the v4 block: each failing step ends the policy step at once
      (N.config.Ipv4Subnets ≠ [] →
        getSubnetforIPv4 N.config.Ipv4Subnets E.addr = Run.done none →
        gatewayPolicy c N E eid =
          ([Event.getSubnetforIPv4 E.addr],
            some (Ret.err ("could not find a valid ipv4 subnet for endpoint " ++ eid)))) ∧
      (∀ S, getSubnetforIPv4 N.config.Ipv4Subnets E.addr = Run.done (some S) →
        ParseCIDR S.GwIP = none →
        gatewayPolicy c N E eid =
          ([Event.getSubnetforIPv4 E.addr],
            some (Ret.err ("gateway " ++ S.GwIP ++ " is not a valid ipv4 address: "
              ++ parseErrorText S.GwIP)))) ∧
      (∀ S gw gwnet msg, getSubnetforIPv4 N.config.Ipv4Subnets E.addr = Run.done (some S) →
        ParseCIDR S.GwIP = some (gw, gwnet) → c.SetGateway gw = some msg →
        gatewayPolicy c N E eid =
          ([Event.getSubnetforIPv4 E.addr, Event.SetGateway gw], some (Ret.err msg))) ∧
      -- the v4 block when it does not return
      (N.config.Ipv4Subnets = [] → joinV4 c N E eid = ([], none)) ∧
      (∀ S gw gwnet, getSubnetforIPv4 N.config.Ipv4Subnets E.addr = Run.done (some S) →
        ParseCIDR S.GwIP = some (gw, gwnet) → c.SetGateway gw = none →
        joinV4 c N E eid = ([Event.getSubnetforIPv4 E.addr, Event.SetGateway gw], none)) ∧
      -- the v6 block, after the calls of a v4 block that did not return
      (∀ ev4, joinV4 c N E eid = (ev4, none) →
        (E.addrv6 ≠ none → N.config.Ipv6Subnets ≠ [] →
          getSubnetforIPv6 N.config.Ipv6Subnets E.addrv6 = Run.done none →
          gatewayPolicy c N E eid =
            (ev4 ++ [Event.getSubnetforIPv6 E.addrv6],
              some (Ret.err ("could not find a valid ipv6 subnet for endpoint " ++ eid)))) ∧
        (∀ S, getSubnetforIPv6 N.config.Ipv6Subnets E.addrv6 = Run.done (some S) →
          ParseCIDR S.GwIP = none →
          gatewayPolicy c N E eid =
            (ev4 ++ [Event.getSubnetforIPv6 E.addrv6],
              some (Ret.err ("gateway " ++ S.GwIP ++ " is not a valid ipv6 address: "
                ++ parseErrorText S.GwIP)))) ∧
        (∀ S gw gwnet msg,
          getSubnetforIPv6 N.config.Ipv6Subnets E.addrv6 = Run.done (some S) →
          ParseCIDR S.GwIP = some (gw, gwnet) → c.SetGatewayIPv6 gw = some msg →
          gatewayPolicy c N E eid =
            (ev4 ++ [Event.getSubnetforIPv6 E.addrv6, Event.SetGatewayIPv6 gw],
              some (Ret.err msg))))) ∧
    ((Join c d nid eid epOpts).events.filter Event.isStoreUpdate).length ≤ 1 ∧
    ((∃ ev ∈ (Join c d nid eid epOpts).events, ev.isStoreUpdate = true) →
      ∃ a b m, Event.SetNames a b m ∈ (Join c d nid eid epOpts).events ∧
        c.SetNames a b m = none) := by
  refine ⟨⟨?_, ?_⟩, ?_, ?_, ?_, ?_, ?_, ?_, ?_, (Join_store_once c d nid eid epOpts).1,
    (Join_store_once c d nid eid epOpts).2⟩
  · intro h
    obtain ⟨n, e, ifName, vethName, hn, he, hgen, hcreate, hP, hF⟩ :=
      Join_nil_inv c d nid eid epOpts h
    have hfin := joinFinish_nil c (bound e vethName) vethName epOpts hF
    exact ⟨n, e, ifName, vethName, hn, he, hgen, hcreate,
      boundNetwork_endpoint n eid vethName e he, hP, hfin.1, hfin.2.1⟩
  · rintro ⟨n, e, ifName, vethName, hn, he, hgen, hcreate, _, hP, hnames, hstore⟩
    rw [Join_reached_ret c d nid eid epOpts n e ifName vethName hn he hgen hcreate, hP,
      joinFinish_ok c _ vethName epOpts hnames hstore]
  · intro n e vethName hint
    exact gatewayPolicy_falls_through_iff c (boundNetwork n eid vethName) (bound e vethName)
      eid hint
  · intro msg hn
    simp [Join, hn]
  · intro n hn he
    simp [Join, hn, he]
  · intro n e msg hn he hgen
    simp [Join, hn, he, hgen]
  · intro n e ifName msg hn he hgen hcreate
    simp [Join, hn, he, hgen, hcreate]
  · intro n e ifName vethName hn he hgen hcreate
    refine ⟨?_, ?_⟩
    · intro r hP
      have h := Join_policy_returns c d nid eid epOpts n e ifName vethName hn he hgen hcreate
        r hP
      exact ⟨h.1,
        Join_policy_returns_trace c d nid eid epOpts n e ifName vethName hn he hgen hcreate
          r hP, h.2⟩
    · intro hP
      have htr := Join_finish_trace c d nid eid epOpts n e ifName vethName hn he hgen
        hcreate hP
      refine ⟨?_, ?_⟩
      · intro msg hnames
        have h := Join_setnames_fails c d nid eid epOpts n e ifName vethName hn he hgen
          hcreate hP msg hnames
        rw [hnames] at htr
        exact ⟨h.1, htr, h.2⟩
      · intro hnames
        rw [hnames] at htr
        refine ⟨htr, ?_⟩
        intro msg hstore
        exact Join_store_fails c d nid eid epOpts n e ifName vethName hn he hgen hcreate
          hP hnames msg hstore
  · intro N E hint
    refine ⟨?_, ?_, ?_, ?_, ?_, ?_⟩
    · intro h4 hres
      exact gatewayPolicy_v4_returns c N E eid hint _ _ (joinV4_unresolved c N E eid h4 hres)
    · intro S hres hgw
      exact gatewayPolicy_v4_returns c N E eid hint _ _
        (joinV4_gateway_unparsed c N E eid S hres hgw)
    · intro S gw gwnet msg hres hgw hset
      exact gatewayPolicy_v4_returns c N E eid hint _ _
        (joinV4_setgateway_fails c N E eid S gw gwnet msg hres hgw hset)
    · intro h4
      exact joinV4_skipped c N E eid h4
    · intro S gw gwnet hres hgw hset
      exact joinV4_resolved c N E eid S gw gwnet hres hgw hset
    · intro ev4 h4
      refine ⟨?_, ?_, ?_⟩
      · intro ha h6 hres
        exact gatewayPolicy_v6_returns c N E eid hint ev4 _ _ h4
          (joinV6_unresolved c N E eid ha h6 hres)
      · intro S hres hgw
        exact gatewayPolicy_v6_returns c N E eid hint ev4 _ _ h4
          (joinV6_gateway_unparsed c N E eid S hres hgw)
      · intro S gw gwnet msg hres hgw hset
        exact gatewayPolicy_v6_returns c N E eid hint ev4 _ _ h4
          (joinV6_setgateway_fails c N E eid S gw gwnet msg hres hgw hset)

/-- Witness for C14: with every collaborator succeeding on the network
`10.0.0.0/24`, the join of endpoint `10.0.0.5/24` returns success. -/
theorem Join_success_iff_witness :
    (Join okCollab (oneNetwork false [subnet24] [] (some addr_10_0_0_5) none)
        "n1" "e1" []).ret = Ret.nil :=
  (Join_success_iff okCollab (oneNetwork false [subnet24] [] (some addr_10_0_0_5) none)
    "n1" "e1" []).1.mpr
    ⟨{ id := "n1",
       config := { Internal := false, Parent := "eth0", MacvlanMode := "bridge",
                   Ipv4Subnets := [subnet24], Ipv6Subnets := [] },
       endpoints := [("e1", { id := "e1", nid := "n1", addr := some addr_10_0_0_5,
                              addrv6 := none, srcName := "" })] },
     { id := "e1", nid := "n1", addr := some addr_10_0_0_5, addrv6 := none, srcName := "" },
     "veth0a1b2c3", "veth0a1b2c3", rfl, rfl, rfl, rfl, rfl, by decide, rfl, rfl⟩

/-- C15 as stated fails for an endpoint identifier longer than seven
characters: the store error of endpoint `0123456789ab` reads
`failed to save macvlan endpoint 0123456 to store: boom` and does not contain
the identifier. -/
theorem Join_store_error_counterexample :
    (Join storeFailCollab (oneEndpoint "0123456789ab") "n1" "0123456789ab" []).ret
      = Ret.err "failed to save macvlan endpoint 0123456 to store: boom" ∧
    ¬ ("0123456789ab".data <:+:
        "failed to save macvlan endpoint 0123456 to store: boom".data) := by
  decide

/-- C15, amended: if the store update fails after every earlier step of `Join`
succeeded, `Join` returns the error
`failed to save macvlan endpoint <id7> to store: <err>`, where `<id7>` is the
first seven characters of the endpoint's identifier: the message contains
those seven characters, and the whole identifier when it has at most seven
characters. -/
theorem Join_store_error (c : Collab) (d : driver) (nid eid : String) (epOpts : Options)
    (n : network) (e : endpoint) (ifName vethName : String)
    (hn : getNetwork d nid = Except.ok n) (he : n.endpoint eid = some e)
    (hgen : c.GenerateIfaceName = Except.ok ifName)
    (hcreate : c.createMacVlan ifName n.config.Parent n.config.MacvlanMode
      = Except.ok vethName)
    (hP : (gatewayPolicy c (boundNetwork n eid vethName) (bound e vethName) eid).2 = none)
    (hnames : c.SetNames vethName c.containerVethPrefix (c.GetIfname epOpts) = none)
    (msg : String) (hstore : c.storeUpdate (bound e vethName) = some msg) :
    (Join c d nid eid epOpts).ret = Ret.err (storeErrorText e.id msg) ∧
    e.id.data.take 7 <:+: (storeErrorText e.id msg).data ∧
    (e.id.length ≤ 7 → e.id.data <:+: (storeErrorText e.id msg).data) := by
  have hin : e.id.data.take 7 <:+: (storeErrorText e.id msg).data := by
    refine ⟨"failed to save macvlan endpoint ".data, " to store: ".data ++ msg.data, ?_⟩
    simp [storeErrorText, String.data_append]
  refine ⟨Join_store_fails c d nid eid epOpts n e ifName vethName hn he hgen hcreate hP
    hnames msg hstore, hin, ?_⟩
  intro hlen
  have : e.id.data.take 7 = e.id.data := List.take_of_length_le hlen
  rw [this] at hin
  exact hin

/-- Witness for C15: the store error of endpoint `e1` contains `e1`. -/
theorem Join_store_error_witness :
    (Join storeFailCollab (oneEndpoint "e1") "n1" "e1" []).ret
      = Ret.err (storeErrorText "e1" "boom") ∧
    "e1".data <:+: (storeErrorText "e1" "boom").data :=
  have h := Join_store_error storeFailCollab (oneEndpoint "e1") "n1" "e1" []
    { id := "n1",
      config := { Internal := false, Parent := "eth0", MacvlanMode := "bridge",
                  Ipv4Subnets := [], Ipv6Subnets := [] },
      endpoints := [("e1", { id := "e1", nid := "n1", addr := none, addrv6 := none,
                             srcName := "" })] }
    { id := "e1", nid := "n1", addr := none, addrv6 := none, srcName := "" }
    "veth0a1b2c3" "veth0a1b2c3" rfl rfl rfl rfl (by decide) rfl "boom" rfl
  ⟨h.1, h.2.2 (by decide)⟩

/-! ## Error messages -/

/-- Every message built around `eid` contains it. -/
theorem builtWithEid_includes (eid msg : String) (h : builtWithEid eid msg) :
    includesId eid msg := by
  unfold includesId
  rcases h with h | h | h <;> subst h <;> rw [String.data_append] <;>
    exact (List.suffix_append _ _).isInfix

/-- Every error `Join` returns is built around `eid`, built without it, or a
collaborator's own. -/
theorem Join_err_cases (c : Collab) (d : driver) (nid eid : String) (epOpts : Options)
    (msg : String) (h : (Join c d nid eid epOpts).ret = Ret.err msg) :
    builtWithEid eid msg ∨ builtWithoutEid msg ∨ passedThrough c d nid msg := by
  cases hn : getNetwork d nid with
  | error m =>
    simp [Join, hn] at h
    subst h
    exact Or.inr (Or.inr (Or.inl hn))
  | ok n =>
    cases he : n.endpoint eid with
    | none =>
      simp [Join, hn, he] at h
      exact Or.inl (Or.inl h.symm)
    | some e =>
      cases hgen : c.GenerateIfaceName with
      | error m =>
        simp [Join, hn, he, hgen] at h
        exact Or.inr (Or.inl (Or.inl ⟨m, h.symm⟩))
      | ok ifName =>
        cases hcreate : c.createMacVlan ifName n.config.Parent n.config.MacvlanMode with
        | error m =>
          simp [Join, hn, he, hgen, hcreate] at h
          subst h
          exact Or.inr (Or.inr (Or.inr (Or.inl ⟨_, _, _, hcreate⟩)))
        | ok vethName =>
          rw [Join_reached_ret c d nid eid epOpts n e ifName vethName hn he hgen hcreate] at h
          rcases hP : (gatewayPolicy c (boundNetwork n eid vethName) (bound e vethName) eid).2
            with _ | r
          · rw [hP] at h
            simp only at h
            rcases hF : (joinFinish c (bound e vethName) vethName epOpts).2 with _ | r2
            · rw [hF] at h; simp at h
            · rw [hF] at h
              simp only at h
              subst h
              rcases joinFinish_ret_cases c _ vethName epOpts _ hF
                with ⟨m, hm, hr⟩ | ⟨_, m, _, hr⟩
              · have : m = msg := by simpa using hr.symm
                subst this
                exact Or.inr (Or.inr (Or.inr (Or.inr (Or.inr (Or.inr ⟨_, _, _, hm⟩)))))
              · have : storeErrorText (bound e vethName).id m = msg := by simpa using hr.symm
                exact Or.inr (Or.inl (Or.inr (Or.inr (Or.inr ⟨_, _, this.symm⟩))))
          · rw [hP] at h
            simp only at h
            subst h
            rcases gatewayPolicy_ret_cases c _ _ eid _ hP with h1 | h1 | h1
            · simp at h1
            · rcases joinV4_ret_cases c _ _ eid _ h1 with h2 | h2 | ⟨g, h2⟩ | ⟨gw, m, hs, h2⟩
              · simp at h2
              · exact Or.inl (Or.inr (Or.inl (by simpa using h2)))
              · exact Or.inr (Or.inl (Or.inr (Or.inl ⟨g, by simpa using h2⟩)))
              · have : msg = m := by simpa using h2
                subst this
                exact Or.inr (Or.inr (Or.inr (Or.inr (Or.inl ⟨gw, hs⟩))))
            · rcases joinV6_ret_cases c _ _ eid _ h1 with h2 | h2 | ⟨g, h2⟩ | ⟨gw, m, hs, h2⟩
              · simp at h2
              · exact Or.inl (Or.inr (Or.inr (by simpa using h2)))
              · exact Or.inr (Or.inl (Or.inr (Or.inr (Or.inl ⟨g, by simpa using h2⟩))))
              · have : msg = m := by simpa using h2
                subst this
                exact Or.inr (Or.inr (Or.inr (Or.inr (Or.inr (Or.inl ⟨gw, hs⟩)))))

/-- Every error `Leave` returns is the endpoint-not-found error built around
`eid`, or the error of one of the two lookups. -/
theorem Leave_err_cases (getEndpoint : network → String → Except String (Option endpoint))
    (d : driver) (nid eid : String) (msg : String)
    (h : (Leave getEndpoint d nid eid).ret = Ret.err msg) :
    msg = "could not find endpoint with id " ++ eid ∨
    getNetwork d nid = Except.error msg ∨
    ∃ n, getEndpoint n eid = Except.error msg := by
  cases hn : getNetwork d nid with
  | error m =>
    simp [Leave, hn] at h
    subst h
    exact Or.inr (Or.inl rfl)
  | ok n =>
    cases hg : getEndpoint n eid with
    | error m =>
      simp [Leave, hn, hg] at h
      subst h
      exact Or.inr (Or.inr ⟨n, hg⟩)
    | ok o =>
      cases o with
      | none =>
        simp [Leave, hn, hg] at h
        exact Or.inl h.symm
      | some ep => simp [Leave, hn, hg] at h

set_option maxRecDepth 4096 in
/-- C16 as stated fails: the name-generation error and the invalid-gateway
error of a `Join` for endpoint `e1` do not contain `e1`, and the store error
for endpoint `0123456789ab` contains only `0123456`. -/
theorem error_messages_counterexample :
    (Join genFailCollab (oneEndpoint "e1") "n1" "e1" []).ret
      = Ret.err "error generating an interface name: boom" ∧
    ¬ includesId "e1" "error generating an interface name: boom" ∧
    (Join okCollab (oneNetwork false [subnetScenario] [] (some addr_10_0_0_5) none)
        "n1" "e1" []).ret
      = Ret.err "gateway 10.0.0.1 is not a valid ipv4 address: invalid CIDR address: 10.0.0.1" ∧
    ¬ includesId "e1"
      "gateway 10.0.0.1 is not a valid ipv4 address: invalid CIDR address: 10.0.0.1" ∧
    (Join storeFailCollab (oneEndpoint "0123456789ab") "n1" "0123456789ab" []).ret
      = Ret.err "failed to save macvlan endpoint 0123456 to store: boom" ∧
    ¬ includesId "0123456789ab" "failed to save macvlan endpoint 0123456 to store: boom" := by
  unfold includesId
  refine ⟨by decide, by decide, by decide, by decide, by decide, by decide⟩

/-- C16, amended: every error `Join` returns is one of three kinds.  Built
around the identifier passed to the call (endpoint not found, no valid ipv4 or
ipv6 subnet): these contain it.  Built without it: the name-generation error
(the collaborator's text), the invalid-gateway errors (the gateway text) and
the store error, which contains the first seven characters of the stored
endpoint's identifier.  Or a collaborator's error returned unchanged.  Every
error `Leave` returns is the endpoint-not-found error, which contains the
identifier passed to the call, or the error of one of its two lookups. -/
theorem Join_Leave_error_messages (c : Collab) (d : driver) (nid eid : String)
    (epOpts : Options)
    (getEndpoint : network → String → Except String (Option endpoint)) :
    (∀ msg, (Join c d nid eid epOpts).ret = Ret.err msg →
      builtWithEid eid msg ∨ builtWithoutEid msg ∨ passedThrough c d nid msg) ∧
    (∀ msg, (Leave getEndpoint d nid eid).ret = Ret.err msg →
      msg = "could not find endpoint with id " ++ eid ∨
      getNetwork d nid = Except.error msg ∨
      ∃ n, getEndpoint n eid = Except.error msg) ∧
    (∀ msg, builtWithEid eid msg → includesId eid msg) ∧
    (∀ id e, includesId (String.mk (id.data.take 7)) (storeErrorText id e)) := by
  refine ⟨fun msg h => Join_err_cases c d nid eid epOpts msg h,
    fun msg h => Leave_err_cases getEndpoint d nid eid msg h,
    fun msg h => builtWithEid_includes eid msg h, ?_⟩
  intro id e
  unfold includesId
  refine ⟨"failed to save macvlan endpoint ".data, " to store: ".data ++ e.data, ?_⟩
  simp [storeErrorText, String.data_append]

/-- Witness for C16: the error `Leave` builds for the endpoint `e2`, absent
from the network, contains `e2`. -/
theorem Join_Leave_error_messages_witness :
    includesId "e2" ("could not find endpoint with id " ++ "e2") :=
  (Join_Leave_error_messages okCollab (oneEndpoint "e1") "n1" "e2" []
    (fun _ _ => Except.ok none)).2.2.1 _ (Or.inl rfl)

/-! ## Leave -/

/-- C17: `Leave` returns success if and only if the network exists in the
registry and the endpoint lookup in that network yields a present endpoint
without error; an unknown network, a lookup error, and an absent endpoint
returned without error each make `Leave` return an error. -/
theorem Leave_success_iff (getEndpoint : network → String → Except String (Option endpoint))
    (d : driver) (nid eid : String) :
    ((Leave getEndpoint d nid eid).ret = Ret.nil ↔
      ∃ n ep, getNetwork d nid = Except.ok n ∧ getEndpoint n eid = Except.ok (some ep)) ∧
    (∀ msg, getNetwork d nid = Except.error msg →
      (Leave getEndpoint d nid eid).ret = Ret.err msg) ∧
    (∀ n msg, getNetwork d nid = Except.ok n → getEndpoint n eid = Except.error msg →
      (Leave getEndpoint d nid eid).ret = Ret.err msg) ∧
    (∀ n, getNetwork d nid = Except.ok n → getEndpoint n eid = Except.ok none →
      (Leave getEndpoint d nid eid).ret
        = Ret.err ("could not find endpoint with id " ++ eid)) := by
  refine ⟨⟨?_, ?_⟩, ?_, ?_, ?_⟩
  · intro h
    cases hn : getNetwork d nid with
    | error m => simp [Leave, hn] at h
    | ok n =>
      cases hg : getEndpoint n eid with
      | error m => simp [Leave, hn, hg] at h
      | ok o =>
        cases o with
        | none => simp [Leave, hn, hg] at h
        | some ep => exact ⟨n, ep, rfl, hg⟩
  · rintro ⟨n, ep, hn, hg⟩
    simp [Leave, hn, hg]
  · intro msg hn
    simp [Leave, hn]
  · intro n msg hn hg
    simp [Leave, hn, hg]
  · intro n hn hg
    simp [Leave, hn, hg]

/-- Witness for C17: a lookup that yields an absent endpoint without error
makes `Leave` return the endpoint-not-found error. -/
theorem Leave_success_iff_witness :
    (Leave (fun _ _ => Except.ok none) (oneEndpoint "e1") "n1" "e1").ret
      = Ret.err ("could not find endpoint with id " ++ "e1") :=
  (Leave_success_iff (fun _ _ => Except.ok none) (oneEndpoint "e1") "n1" "e1").2.2.2
    { id := "n1",
      config := { Internal := false, Parent := "eth0", MacvlanMode := "bridge",
                  Ipv4Subnets := [], Ipv6Subnets := [] },
      endpoints := [("e1", { id := "e1", nid := "n1", addr := none, addrv6 := none,
                             srcName := "" })] }
    rfl rfl

/-- C18: `Leave` changes nothing.  Whether it succeeds or fails, the driver's
tables (every network configuration, every endpoint with its `srcName`) are
the same after the call as before, and it makes no call: no store update, no
interface teardown, no gateway retraction. -/
theorem Leave_changes_nothing
    (getEndpoint : network → String → Except String (Option endpoint))
    (d : driver) (nid eid : String) :
    (Leave getEndpoint d nid eid).d = d ∧ (Leave getEndpoint d nid eid).events = [] := by
  cases hn : getNetwork d nid with
  | error m => simp [Leave, hn]
  | ok n =>
    cases hg : getEndpoint n eid with
    | error m => simp [Leave, hn, hg]
    | ok o =>
      cases o with
      | none => simp [Leave, hn, hg]
      | some ep => simp [Leave, hn, hg]

/-- C19 as stated fails: endpoint `e1` was created in network `n1` and never
joined (its `srcName` is empty), and `Leave` returns success for it. -/
theorem Leave_never_joined_counterexample :
    ((oneEndpoint "e1").networks.lookup "n1").bind
        (fun n => (n.endpoint "e1").map (fun e => e.srcName)) = some "" ∧
    (Leave network.getEndpoint (oneEndpoint "e1") "n1" "e1").ret = Ret.nil := by
  decide

/-- C19, amended: `Leave` returns an error, not success, for an endpoint ID
that the lookup does not find in the network (a lookup error, or an absent
endpoint); for an endpoint that exists in the network it returns success
whether or not `Join` ever succeeded for it, whatever its `srcName`. -/
theorem Leave_never_joined (getEndpoint : network → String → Except String (Option endpoint))
    (d : driver) (nid eid : String) (n : network)
    (hn : getNetwork d nid = Except.ok n) :
    ((getEndpoint n eid = Except.ok none ∨ ∃ msg, getEndpoint n eid = Except.error msg) →
      ∃ msg, (Leave getEndpoint d nid eid).ret = Ret.err msg) ∧
    (∀ ep, getEndpoint n eid = Except.ok (some ep) →
      (Leave getEndpoint d nid eid).ret = Ret.nil) := by
  constructor
  · rintro (hg | ⟨msg, hg⟩)
    · exact ⟨"could not find endpoint with id " ++ eid, by simp [Leave, hn, hg]⟩
    · exact ⟨msg, by simp [Leave, hn, hg]⟩
  · intro ep hg
    simp [Leave, hn, hg]

/-- Witness for C19: endpoint `e2` is not in network `n1`, and `Leave` returns
an error for it. -/
theorem Leave_never_joined_witness :
    ∃ msg, (Leave network.getEndpoint (oneEndpoint "e1") "n1" "e2").ret = Ret.err msg :=
  (Leave_never_joined network.getEndpoint (oneEndpoint "e1") "n1" "e2"
    { id := "n1",
      config := { Internal := false, Parent := "eth0", MacvlanMode := "bridge",
                  Ipv4Subnets := [], Ipv6Subnets := [] },
      endpoints := [("e1", { id := "e1", nid := "n1", addr := none, addrv6 := none,
                             srcName := "" })] }
    rfl).1 (Or.inr ⟨"endpoint id e2 not found", rfl⟩)

/-! ## Join called twice -/

/-- The policy step reads the collaborators only through the two gateway
setters, the network only through its configuration and the endpoint only
through its two addresses. -/
theorem gatewayPolicy_congr (c c2 : Collab) (n n2 : network) (ep ep2 : endpoint)
    (eid : String)
    (hg : c2.SetGateway = c.SetGateway) (hg6 : c2.SetGatewayIPv6 = c.SetGatewayIPv6)
    (hcfg : n2.config = n.config) (ha : ep2.addr = ep.addr) (ha6 : ep2.addrv6 = ep.addrv6) :
    gatewayPolicy c2 n2 ep2 eid = gatewayPolicy c n ep eid := by
  simp only [gatewayPolicy, joinV4, joinV6, joinInternal, hg, hg6, hcfg, ha, ha6]

/-- C20 as stated fails: from the registry with endpoint `e1`, a first `Join`
succeeds, and a second `Join` for the same network and endpoint, with no
`Leave` in between, succeeds as well and creates an interface again. -/
theorem Join_twice_counterexample :
    (Join okCollab (oneEndpoint "e1") "n1" "e1" []).ret = Ret.nil ∧
    (Join renamingCollab (Join okCollab (oneEndpoint "e1") "n1" "e1" []).d
        "n1" "e1" []).ret = Ret.nil ∧
    Event.createMacVlan "veth0a1b2c3" "eth0" "bridge"
      ∈ (Join okCollab (oneEndpoint "e1") "n1" "e1" []).events ∧
    Event.createMacVlan "veth0a1b2c3" "eth0" "bridge"
      ∈ (Join renamingCollab (Join okCollab (oneEndpoint "e1") "n1" "e1" []).d
        "n1" "e1" []).events ∧
    ((Join renamingCollab (Join okCollab (oneEndpoint "e1") "n1" "e1" []).d
        "n1" "e1" []).d.networks.lookup "n1").bind
        (fun n => (n.endpoint "e1").map (fun e => e.srcName)) = some "veth9z8y7x6" := by
  decide

/-- C20, amended: `Join` does not detect an existing binding.  From any
registry state, if `Join` succeeds for an endpoint and is called again for
the same network and endpoint ID with no `Leave` in between, then, the
collaborators succeeding again (the gateway setters answering as before), the
second call succeeds as well, creates a second interface, and the endpoint
afterwards carries the second interface's name. -/
theorem Join_twice_succeeds (c c2 : Collab) (d : driver) (nid eid : String)
    (o1 o2 : Options)
    (h1 : (Join c d nid eid o1).ret = Ret.nil)
    (hg : c2.SetGateway = c.SetGateway) (hg6 : c2.SetGatewayIPv6 = c.SetGatewayIPv6)
    (if2 v2 : String) (hgen2 : c2.GenerateIfaceName = Except.ok if2)
    (hcreate2 : ∀ parent mode, c2.createMacVlan if2 parent mode = Except.ok v2)
    (hnames2 : c2.SetNames v2 c2.containerVethPrefix (c2.GetIfname o2) = none)
    (hstore2 : ∀ ep, c2.storeUpdate ep = none) :
    (Join c2 (Join c d nid eid o1).d nid eid o2).ret = Ret.nil ∧
    (∃ parent mode, Event.createMacVlan if2 parent mode
      ∈ (Join c2 (Join c d nid eid o1).d nid eid o2).events) ∧
    (∃ n2 e2, getNetwork (Join c2 (Join c d nid eid o1).d nid eid o2).d nid = Except.ok n2 ∧
      n2.endpoint eid = some e2 ∧ e2.srcName = v2) := by
  obtain ⟨n, e, if1, v1, hn, he, hgen, hcreate, hP, _⟩ := Join_nil_inv c d nid eid o1 h1
  have hd1 := Join_reached_d c d nid eid o1 n e if1 v1 hn he hgen hcreate
  have hn1 : getNetwork (Join c d nid eid o1).d nid = Except.ok (boundNetwork n eid v1) := by
    rw [hd1]
    exact getNetwork_setNetwork d nid n _ hn
  have he1 := boundNetwork_endpoint n eid v1 e he
  have hc2 := hcreate2 (boundNetwork n eid v1).config.Parent
    (boundNetwork n eid v1).config.MacvlanMode
  have hP2 : (gatewayPolicy c2 (boundNetwork (boundNetwork n eid v1) eid v2)
      (bound (bound e v1) v2) eid).2 = none := by
    rw [gatewayPolicy_congr c c2 (boundNetwork n eid v1) (boundNetwork (boundNetwork n eid v1)
      eid v2) (bound e v1) (bound (bound e v1) v2) eid hg hg6 rfl rfl rfl]
    exact hP
  refine ⟨?_, ?_, ?_⟩
  · rw [Join_reached_ret c2 _ nid eid o2 _ _ if2 v2 hn1 he1 hgen2 hc2, hP2,
      joinFinish_ok c2 _ v2 o2 hnames2 (hstore2 _)]
  · refine ⟨(boundNetwork n eid v1).config.Parent,
      (boundNetwork n eid v1).config.MacvlanMode, ?_⟩
    rw [Join_reached_events c2 _ nid eid o2 _ _ if2 v2 hn1 he1 hgen2 hc2]
    simp
  · refine ⟨boundNetwork (boundNetwork n eid v1) eid v2, bound (bound e v1) v2, ?_,
      boundNetwork_endpoint _ eid v2 _ he1, rfl⟩
    rw [Join_reached_d c2 _ nid eid o2 _ _ if2 v2 hn1 he1 hgen2 hc2]
    exact getNetwork_setNetwork _ nid _ _ hn1

/-- Witness for C20: after a first successful join of endpoint `e1`, a second
join succeeds and leaves the endpoint with the second interface's name. -/
theorem Join_twice_succeeds_witness :
    (Join renamingCollab (Join okCollab (oneEndpoint "e1") "n1" "e1" []).d
        "n1" "e1" []).ret = Ret.nil :=
  (Join_twice_succeeds okCollab renamingCollab (oneEndpoint "e1") "n1" "e1" [] []
    (by decide) rfl rfl "veth0a1b2c3" "veth9z8y7x6" rfl (fun _ _ => rfl) rfl
    (fun _ => rfl)).1

/-! ## Join: what it leaves untouched -/

theorem lookup_setNetwork_ne (k nid : String) (n1 : network) (l : List (String × network))
    (h : k ≠ nid) : (setNetwork nid n1 l).lookup k = l.lookup k := by
  induction l with
  | nil => simp [setNetwork]
  | cons p rest ih =>
    obtain ⟨key, m⟩ := p
    by_cases hk : (nid == key) = true
    · have hkey : nid = key := by simpa using hk
      have hne : (k == key) = false := by
        rw [← hkey]
        simpa using h
      simp [setNetwork, hk, List.lookup, hne]
    · have hk1 : (nid == key) = false := by simpa using hk
      by_cases hkk : (k == key) = true
      · simp [setNetwork, hk1, List.lookup, hkk]
      · have hkk1 : (k == key) = false := by simpa using hkk
        simp [setNetwork, hk1, List.lookup, hkk1, ih]

theorem lookup_setSrcName_ne (k eid vethName : String) (l : List (String × endpoint))
    (h : k ≠ eid) : (setSrcName eid vethName l).lookup k = l.lookup k := by
  induction l with
  | nil => simp [setSrcName]
  | cons p rest ih =>
    obtain ⟨key, e⟩ := p
    by_cases hk : (eid == key) = true
    · have hkey : eid = key := by simpa using hk
      have hne : (k == key) = false := by
        rw [← hkey]
        simpa using h
      simp [setSrcName, hk, List.lookup, hne]
    · have hk1 : (eid == key) = false := by simpa using hk
      by_cases hkk : (k == key) = true
      · simp [setSrcName, hk1, List.lookup, hkk]
      · have hkk1 : (k == key) = false := by simpa using hkk
        simp [setSrcName, hk1, List.lookup, hkk1, ih]

/-- The tables a `Join` leaves are those it found, or those with the created
name bound to the endpoint. -/
theorem Join_d_cases (c : Collab) (d : driver) (nid eid : String) (epOpts : Options) :
    (Join c d nid eid epOpts).d = d ∨
    ∃ n e vethName, d.networks.lookup nid = some n ∧ n.endpoint eid = some e ∧
      (Join c d nid eid epOpts).d
        = { networks := setNetwork nid (boundNetwork n eid vethName) d.networks } := by
  cases hn : getNetwork d nid with
  | error msg => simp [Join, hn]
  | ok n =>
    cases he : n.endpoint eid with
    | none => simp [Join, hn, he]
    | some e =>
      cases hgen : c.GenerateIfaceName with
      | error msg => simp [Join, hn, he, hgen]
      | ok ifName =>
        cases hcreate : c.createMacVlan ifName n.config.Parent n.config.MacvlanMode with
        | error msg => simp [Join, hn, he, hgen, hcreate]
        | ok vethName =>
          right
          exact ⟨n, e, vethName, getNetwork_ok_lookup d nid n hn, he,
            Join_reached_d c d nid eid epOpts n e ifName vethName hn he hgen hcreate⟩

/-- C21: `Join` never changes a network's configuration, and the only registry
field it changes is the `srcName` of the endpoint named in the call: every
network keeps its identity and configuration (parent interface, mode,
`Internal`, v4 and v6 subnet lists), every other endpoint is unchanged, and
the named endpoint keeps its identifiers and both addresses. -/
theorem Join_frame (c : Collab) (d : driver) (nid eid : String) (epOpts : Options) :
    (∀ k, ((Join c d nid eid epOpts).d.networks.lookup k).map (fun n => (n.id, n.config))
      = (d.networks.lookup k).map (fun n => (n.id, n.config))) ∧
    (∀ k ek, (k ≠ nid ∨ ek ≠ eid) →
      ((Join c d nid eid epOpts).d.networks.lookup k).bind (fun n => n.endpoint ek)
        = (d.networks.lookup k).bind (fun n => n.endpoint ek)) ∧
    (∀ k ek,
      (((Join c d nid eid epOpts).d.networks.lookup k).bind (fun n => n.endpoint ek)).map
          (fun e => (e.id, e.nid, e.addr, e.addrv6))
        = ((d.networks.lookup k).bind (fun n => n.endpoint ek)).map
          (fun e => (e.id, e.nid, e.addr, e.addrv6))) := by
  rcases Join_d_cases c d nid eid epOpts with h | ⟨n, e, v, hl, he, h⟩
  · rw [h]
    exact ⟨fun _ => rfl, fun _ _ _ => rfl, fun _ _ => rfl⟩
  · rw [h]
    have hnid := lookup_setNetwork nid n (boundNetwork n eid v) d.networks hl
    refine ⟨?_, ?_, ?_⟩
    · intro k
      by_cases hk : k = nid
      · subst hk
        dsimp only
        rw [hnid, hl]
        rfl
      · dsimp only
        rw [lookup_setNetwork_ne k nid _ d.networks hk]
    · intro k ek hne
      by_cases hk : k = nid
      · subst hk
        have hek : ek ≠ eid := by
          rcases hne with h1 | h1
          · exact absurd rfl h1
          · exact h1
        dsimp only
        rw [hnid, hl]
        simp only [Option.some_bind]
        unfold boundNetwork network.endpoint
        exact lookup_setSrcName_ne ek eid v _ hek
      · dsimp only
        rw [lookup_setNetwork_ne k nid _ d.networks hk]
    · intro k ek
      by_cases hk : k = nid
      · subst hk
        dsimp only
        rw [hnid, hl]
        simp only [Option.some_bind]
        by_cases hek : ek = eid
        · subst hek
          rw [boundNetwork_endpoint n ek v e he, he]
          rfl
        · unfold boundNetwork network.endpoint
          rw [lookup_setSrcName_ne ek eid v _ hek]
      · dsimp only
        rw [lookup_setNetwork_ne k nid _ d.networks hk]

/-- Witness for C21: after the join of endpoint `e1`, the lookup of another
endpoint ID in the same network gives what it gave before. -/
theorem Join_frame_witness :
    ((Join okCollab (oneEndpoint "e1") "n1" "e1" []).d.networks.lookup "n1").bind
        (fun n => n.endpoint "e2")
      = ((oneEndpoint "e1").networks.lookup "n1").bind (fun n => n.endpoint "e2") :=
  (Join_frame okCollab (oneEndpoint "e1") "n1" "e1" []).2.1 "n1" "e2" (Or.inr (by decide))

/-! ## Join: nil endpoint addresses -/

/-- The v4 block panics exactly when the endpoint has no v4 address and the
first configured v4 subnet parses: the loop then reads `ip.Mask` through the
nil pointer. -/
theorem joinV4_panics_iff (c : Collab) (n : network) (ep : endpoint) (eid : String) :
    (joinV4 c n ep eid).2 = some Ret.panicked ↔
      (ep.addr = none ∧
        ∃ s rest p, n.config.Ipv4Subnets = s :: rest ∧ ParseCIDR s.SubnetIP = some p) := by
  cases ha : ep.addr with
  | some a =>
    have hne : n.config.Ipv4Subnets ≠ [] → ep.addr ≠ none := fun _ => by simp [ha]
    constructor
    · intro h
      exfalso
      rcases joinV4_cases c n ep eid hne with ⟨_, h4⟩ | ⟨_, ⟨m, h4⟩ | ⟨g, m, h4⟩ | ⟨g, h4⟩⟩ <;>
        simp [h4] at h
    · rintro ⟨h, _⟩
      simp at h
  | none =>
    cases hL : n.config.Ipv4Subnets with
    | nil =>
      rw [joinV4_skipped c n ep eid hL]
      simp
    | cons s rest =>
      have hl : n.config.Ipv4Subnets.length > 0 := by simp [hL]
      cases hp : ParseCIDR s.SubnetIP with
      | none =>
        have hres : getSubnetforIPv4 n.config.Ipv4Subnets ep.addr = Run.done none := by
          simp [getSubnetforIPv4, hL, ha, getSubnetForIP, hp]
        rw [joinV4_unresolved c n ep eid (by simp [hL]) hres]
        simp [hp]
      | some p =>
        have hres : getSubnetforIPv4 n.config.Ipv4Subnets ep.addr = Run.panicked := by
          simp [getSubnetforIPv4, hL, ha, getSubnetForIP, hp]
        have : (joinV4 c n ep eid).2 = some Ret.panicked := by
          simp [joinV4, hl, hres]
        rw [this]
        simp only [true_iff, true_and]
        exact ⟨s, rest, p, rfl, hp⟩

/-- The v6 block never panics: its guard tests the address first. -/
theorem joinV6_never_panics (c : Collab) (n : network) (ep : endpoint) (eid : String) :
    (joinV6 c n ep eid).2 ≠ some Ret.panicked := by
  intro h
  rcases joinV6_cases c n ep eid with ⟨_, h6⟩ | ⟨_, ⟨m, h6⟩ | ⟨g, m, h6⟩ | ⟨g, h6⟩⟩ <;>
    simp [h6] at h

/-- The internal branch panics exactly when a family with configured subnets
has no address on the endpoint. -/
theorem joinInternal_panics_iff (n : network) (ep : endpoint) :
    (joinInternal n ep).2 = some Ret.panicked ↔
      ((n.config.Ipv4Subnets ≠ [] ∧ ep.addr = none) ∨
        (n.config.Ipv6Subnets ≠ [] ∧ ep.addrv6 = none)) := by
  unfold joinInternal
  by_cases h4 : n.config.Ipv4Subnets.length > 0 ∧ ep.addr = none
  · rw [if_pos h4]
    simp only [true_iff]
    exact Or.inl ⟨List.ne_nil_of_length_pos h4.1, h4.2⟩
  · rw [if_neg h4]
    by_cases h6 : n.config.Ipv6Subnets.length > 0 ∧ ep.addrv6 = none
    · rw [if_pos h6]
      simp only [true_iff]
      exact Or.inr ⟨List.ne_nil_of_length_pos h6.1, h6.2⟩
    · rw [if_neg h6]
      constructor
      · intro h
        simp at h
      · rintro (⟨hne, ha⟩ | ⟨hne, ha⟩)
        · exact absurd ⟨List.length_pos.mpr hne, ha⟩ h4
        · exact absurd ⟨List.length_pos.mpr hne, ha⟩ h6

/-- The policy step panics exactly on a nil address that it reads: in the
internal branch for a family with configured subnets, and in the v4 block of
the other branch once a v4 subnet parses. -/
theorem gatewayPolicy_panics_iff (c : Collab) (n : network) (ep : endpoint) (eid : String) :
    (gatewayPolicy c n ep eid).2 = some Ret.panicked ↔
      ((n.config.Internal = true ∧
          ((n.config.Ipv4Subnets ≠ [] ∧ ep.addr = none) ∨
            (n.config.Ipv6Subnets ≠ [] ∧ ep.addrv6 = none))) ∨
        (n.config.Internal = false ∧ ep.addr = none ∧
          ∃ s rest p, n.config.Ipv4Subnets = s :: rest ∧ ParseCIDR s.SubnetIP = some p)) := by
  cases hint : n.config.Internal with
  | true =>
    rw [gatewayPolicy_internal c n ep eid hint, joinInternal_panics_iff]
    simp
  | false =>
    rw [← joinV4_panics_iff c n ep eid]
    simp only [Bool.false_eq_true, false_and, false_or, true_and]
    rcases h4 : joinV4 c n ep eid with ⟨ev4, _ | r4⟩
    · rw [gatewayPolicy_after_v4 c n ep eid hint ev4 h4]
      have h6n := joinV6_never_panics c n ep eid
      rcases h6 : joinV6 c n ep eid with ⟨ev6, _ | r6⟩
      · simp only
        split <;> simp
      · rw [h6] at h6n
        simp only
        constructor
        · intro h
          exact absurd h h6n
        · intro h
          simp at h
    · rw [gatewayPolicy_v4_returns c n ep eid hint ev4 r4 h4]

/-- `Join` panics exactly when it reaches the gateway-policy step and that step
reads a nil endpoint address. -/
theorem Join_panics_iff (c : Collab) (d : driver) (nid eid : String) (epOpts : Options) :
    (Join c d nid eid epOpts).ret = Ret.panicked ↔
      ∃ n e ifName vethName,
        getNetwork d nid = Except.ok n ∧ n.endpoint eid = some e ∧
        c.GenerateIfaceName = Except.ok ifName ∧
        c.createMacVlan ifName n.config.Parent n.config.MacvlanMode = Except.ok vethName ∧
        ((n.config.Internal = true ∧
            ((n.config.Ipv4Subnets ≠ [] ∧ e.addr = none) ∨
              (n.config.Ipv6Subnets ≠ [] ∧ e.addrv6 = none))) ∨
          (n.config.Internal = false ∧ e.addr = none ∧
            ∃ s rest p, n.config.Ipv4Subnets = s :: rest ∧ ParseCIDR s.SubnetIP = some p)) := by
  constructor
  · intro h
    cases hn : getNetwork d nid with
    | error msg => simp [Join, hn] at h
    | ok n =>
      cases he : n.endpoint eid with
      | none => simp [Join, hn, he] at h
      | some e =>
        cases hgen : c.GenerateIfaceName with
        | error msg => simp [Join, hn, he, hgen] at h
        | ok ifName =>
          cases hcreate : c.createMacVlan ifName n.config.Parent n.config.MacvlanMode with
          | error msg => simp [Join, hn, he, hgen, hcreate] at h
          | ok vethName =>
            refine ⟨n, e, ifName, vethName, rfl, he, rfl, hcreate, ?_⟩
            rw [Join_reached_ret c d nid eid epOpts n e ifName vethName hn he hgen hcreate] at h
            rcases hP : (gatewayPolicy c (boundNetwork n eid vethName) (bound e vethName) eid).2
              with _ | r
            · rw [hP] at h
              simp only at h
              rcases hF : (joinFinish c (bound e vethName) vethName epOpts).2 with _ | r2
              · rw [hF] at h; simp at h
              · rw [hF] at h
                simp only at h
                subst h
                rcases joinFinish_ret_cases c _ vethName epOpts _ hF
                  with ⟨m, _, hr⟩ | ⟨_, m, _, hr⟩ <;> simp at hr
            · rw [hP] at h
              simp only at h
              subst h
              exact (gatewayPolicy_panics_iff c (boundNetwork n eid vethName)
                (bound e vethName) eid).mp hP
  · rintro ⟨n, e, ifName, vethName, hn, he, hgen, hcreate, hcond⟩
    have hP := (gatewayPolicy_panics_iff c (boundNetwork n eid vethName)
      (bound e vethName) eid).mpr hcond
    rw [Join_reached_ret c d nid eid epOpts n e ifName vethName hn he hgen hcreate, hP]

/-- C24, at the failing inputs: with all collaborators succeeding, `Join` ends
in a nil dereference for an endpoint without v6 address on an internal network
with a v6 subnet (line 98), for an endpoint without v4 address on an internal
network with a v4 subnet (line 94), and for an endpoint without v4 address on
a network that is not internal with a v4 subnet (line 152, reached from line
55); only the v6 block of the latter branch is guarded (line 71). -/
theorem Join_nil_address_dereferenced :
    (Join okCollab (oneNetwork true [] [subnetV6] (some addr_10_0_0_5) none)
        "n1" "e1" []).ret = Ret.panicked ∧
    (Join okCollab (oneNetwork true [subnet24] [] none (some addr_fd00_5))
        "n1" "e1" []).ret = Ret.panicked ∧
    (Join okCollab (oneNetwork false [subnet24] [] none (some addr_fd00_5))
        "n1" "e1" []).ret = Ret.panicked ∧
    (Join okCollab (oneNetwork false [] [subnetV6] (some addr_10_0_0_5) none)
        "n1" "e1" []).ret = Ret.nil := by
  decide

end Macvlan

namespace Convert

/-! ## Credential specs -/

theorem credentialSpecToGRPC_only_config (cfg : String) (h : cfg ≠ "") :
    credentialSpecToGRPC { Config := cfg, File := "", Registry := "" } =
      Except.ok { Source := some (swarmapi.Privileges_CredentialSpec_Source.Config cfg) } := by
  simp [credentialSpecToGRPC, credentialSpecOpts, h]

theorem credentialSpecToGRPC_only_file (file : String) (h : file ≠ "") :
    credentialSpecToGRPC { Config := "", File := file, Registry := "" } =
      Except.ok { Source := some (swarmapi.Privileges_CredentialSpec_Source.File file) } := by
  simp [credentialSpecToGRPC, credentialSpecOpts, h]

theorem credentialSpecToGRPC_only_registry (reg : String) (h : reg ≠ "") :
    credentialSpecToGRPC { Config := "", File := "", Registry := reg } =
      Except.ok { Source := some (swarmapi.Privileges_CredentialSpec_Source.Registry reg) } := by
  simp [credentialSpecToGRPC, credentialSpecOpts, h]

/-- C22: `credentialSpecToGRPC` succeeds if and only if exactly one of
`Config`, `File` and `Registry` is a non-empty string, and then the result's
source is the variant of that field carrying its value; with none set, or
with two or three set, it returns an error and no spec. -/
theorem credentialSpecToGRPC_ok_iff (c : types.CredentialSpec) :
    ((∃ spec, credentialSpecToGRPC c = Except.ok spec) ↔ exactlyOneSource c) ∧
    (c.Config ≠ "" → c.File = "" → c.Registry = "" →
      credentialSpecToGRPC c =
        Except.ok { Source := some (swarmapi.Privileges_CredentialSpec_Source.Config c.Config) }) ∧
    (c.Config = "" → c.File ≠ "" → c.Registry = "" →
      credentialSpecToGRPC c =
        Except.ok { Source := some (swarmapi.Privileges_CredentialSpec_Source.File c.File) }) ∧
    (c.Config = "" → c.File = "" → c.Registry ≠ "" →
      credentialSpecToGRPC c =
        Except.ok
          { Source := some (swarmapi.Privileges_CredentialSpec_Source.Registry c.Registry) }) ∧
    (¬ exactlyOneSource c → ∃ msg, credentialSpecToGRPC c = Except.error msg) := by
  by_cases h1 : c.Config = "" <;> by_cases h2 : c.File = "" <;> by_cases h3 : c.Registry = "" <;>
    simp [credentialSpecToGRPC, credentialSpecOpts, exactlyOneSource, h1, h2, h3]

/-- Witness for C22: with only `File` set, the result carries the File
variant. -/
theorem credentialSpecToGRPC_ok_iff_witness :
    credentialSpecToGRPC { Config := "", File := "spec.json", Registry := "" } =
      Except.ok { Source := some (swarmapi.Privileges_CredentialSpec_Source.File "spec.json") } :=
  (credentialSpecToGRPC_ok_iff { Config := "", File := "spec.json", Registry := "" }).2.2.1
    rfl (by decide) rfl

/-- C26: for every credential spec with exactly one of `Config`, `File` and
`Registry` non-empty, converting to the wire format and back gives the spec
itself. -/
theorem credentialSpec_roundtrip (c : types.CredentialSpec) (h : exactlyOneSource c) :
    ∃ spec, credentialSpecToGRPC c = Except.ok spec ∧ credentialSpecFromGRPC spec = c := by
  obtain ⟨cfg, file, reg⟩ := c
  rcases h with ⟨h1, h2, h3⟩ | ⟨h1, h2, h3⟩ | ⟨h1, h2, h3⟩
  · simp only at h1 h2 h3
    subst h2 h3
    exact ⟨_, ((credentialSpecToGRPC_only_config cfg h1)), by
      simp [credentialSpecFromGRPC, swarmapi.Privileges_CredentialSpec.GetConfig]⟩
  · simp only at h1 h2 h3
    subst h1 h3
    exact ⟨_, ((credentialSpecToGRPC_only_file file h2)), by
      simp [credentialSpecFromGRPC, swarmapi.Privileges_CredentialSpec.GetFile]⟩
  · simp only at h1 h2 h3
    subst h1 h2
    exact ⟨_, ((credentialSpecToGRPC_only_registry reg h3)), by
      simp [credentialSpecFromGRPC, swarmapi.Privileges_CredentialSpec.GetRegistry]⟩

/-- Witness for C26: a spec with only `Registry` set survives the round
trip. -/
theorem credentialSpec_roundtrip_witness :
    ∃ spec, credentialSpecToGRPC { Config := "", File := "", Registry := "HKLM" } = Except.ok spec ∧
      credentialSpecFromGRPC spec = { Config := "", File := "", Registry := "HKLM" } :=
  credentialSpec_roundtrip { Config := "", File := "", Registry := "HKLM" }
    (Or.inr (Or.inr ⟨rfl, rfl, by decide⟩))

/-! ## Config references -/

/-- One round of the loop of `configReferencesToGRPC` on a reference with
exactly one target appends its expected wire form. -/
theorem configReferencesToGRPCLoop_cons_ok (acc : List swarmapi.ConfigReference)
    (s : types.ConfigReference) (rest : List types.ConfigReference)
    (h : exactlyOneTarget s) :
    configReferencesToGRPCLoop acc (s :: rest) =
      configReferencesToGRPCLoop (acc ++ [expectedConfigReference s]) rest := by
  obtain ⟨file, runtime, id, name⟩ := s
  rcases h with ⟨hf, hr⟩ | ⟨hf, hr⟩
  · simp only at hf hr
    subst hr
    obtain ⟨f, rfl⟩ := Option.ne_none_iff_exists'.mp hf
    simp [configReferencesToGRPCLoop, expectedConfigReference]
  · simp only at hf hr
    subst hf
    obtain ⟨r, rfl⟩ := Option.ne_none_iff_exists'.mp hr
    simp [configReferencesToGRPCLoop, expectedConfigReference]

/-- One round of the loop on a reference with no target or with both ends the
conversion with an error. -/
theorem configReferencesToGRPCLoop_cons_bad (acc : List swarmapi.ConfigReference)
    (s : types.ConfigReference) (rest : List types.ConfigReference)
    (h : ¬ exactlyOneTarget s) :
    ∃ msg, configReferencesToGRPCLoop acc (s :: rest) = Except.error msg := by
  obtain ⟨file, runtime, id, name⟩ := s
  cases file with
  | none =>
    cases runtime with
    | none =>
      exact ⟨"either File or Runtime should be set", by simp [configReferencesToGRPCLoop]⟩
    | some r => exact absurd (Or.inr ⟨rfl, by simp⟩) h
  | some f =>
    cases runtime with
    | none => exact absurd (Or.inl ⟨by simp, rfl⟩) h
    | some r =>
      exact ⟨"cannot specify both File and Runtime", by simp [configReferencesToGRPCLoop]⟩

theorem configReferencesToGRPCLoop_all_ok (refs : List types.ConfigReference) :
    ∀ acc, (∀ s ∈ refs, exactlyOneTarget s) →
      configReferencesToGRPCLoop acc refs = Except.ok (acc ++ refs.map expectedConfigReference) := by
  induction refs with
  | nil => intro acc _; simp [configReferencesToGRPCLoop]
  | cons s rest ih =>
    intro acc h
    rw [configReferencesToGRPCLoop_cons_ok acc s rest (h s (List.mem_cons_self _ _)),
      ih _ (fun t ht => h t (List.mem_cons_of_mem _ ht))]
    simp

theorem configReferencesToGRPCLoop_some_bad (refs : List types.ConfigReference) :
    ∀ acc, (∃ s ∈ refs, ¬ exactlyOneTarget s) →
      ∃ msg, configReferencesToGRPCLoop acc refs = Except.error msg := by
  induction refs with
  | nil => intro acc h; simp at h
  | cons s rest ih =>
    intro acc h
    by_cases hs : exactlyOneTarget s
    · rw [configReferencesToGRPCLoop_cons_ok acc s rest hs]
      apply ih
      obtain ⟨t, ht, hbad⟩ := h
      rcases List.mem_cons.mp ht with h1 | h1
      · subst h1; exact absurd hs hbad
      · exact ⟨t, h1, hbad⟩
    · exact configReferencesToGRPCLoop_cons_bad acc s rest hs

/-- C23: `configReferencesToGRPC` returns an error if and only if some
reference has neither `File` nor `Runtime` set or has both set; otherwise it
returns one converted reference per input, in input order, each with the same
`ConfigID` and `ConfigName`, a Runtime target when `Runtime` is set and a File
target with the same `Name`, `UID`, `GID` and `Mode` when `File` is set. -/
theorem configReferencesToGRPC_spec (refs : List types.ConfigReference) :
    ((∃ msg, configReferencesToGRPC refs = Except.error msg) ↔
      ∃ s ∈ refs, ¬ exactlyOneTarget s) ∧
    ((∀ s ∈ refs, exactlyOneTarget s) →
      configReferencesToGRPC refs = Except.ok (refs.map expectedConfigReference)) := by
  have hok : (∀ s ∈ refs, exactlyOneTarget s) →
      configReferencesToGRPC refs = Except.ok (refs.map expectedConfigReference) := by
    intro h
    unfold configReferencesToGRPC
    rw [configReferencesToGRPCLoop_all_ok refs [] h]
    simp
  refine ⟨⟨?_, ?_⟩, hok⟩
  · rintro ⟨msg, hmsg⟩
    by_contra hcon
    have hall : ∀ s ∈ refs, exactlyOneTarget s := by
      intro s hs
      by_contra hbad
      exact hcon ⟨s, hs, hbad⟩
    rw [hok hall] at hmsg
    simp at hmsg
  · intro h
    exact configReferencesToGRPCLoop_some_bad refs [] h

/-- Witness for C23: a file reference followed by a runtime reference converts
to the two expected wire references, in that order. -/
theorem configReferencesToGRPC_spec_witness :
    configReferencesToGRPC [configWithFile, configWithRuntime] =
      Except.ok [expectedConfigReference configWithFile,
        expectedConfigReference configWithRuntime] :=
  (configReferencesToGRPC_spec [configWithFile, configWithRuntime]).2 (by
    intro s hs
    simp only [List.mem_cons, List.mem_singleton, List.not_mem_nil, or_false] at hs
    rcases hs with h | h
    · subst h; exact Or.inl ⟨by decide, rfl⟩
    · subst h; exact Or.inr ⟨rfl, by decide⟩)

/-- One round of the loop of `configReferencesFromGRPC` on the expected wire
form of a reference with exactly one target appends that reference. -/
theorem configReferencesFromGRPCLoop_cons_expected (acc : List types.ConfigReference)
    (s : types.ConfigReference) (rest : List swarmapi.ConfigReference)
    (h : exactlyOneTarget s) :
    configReferencesFromGRPCLoop acc (expectedConfigReference s :: rest) =
      configReferencesFromGRPCLoop (acc ++ [s]) rest := by
  obtain ⟨file, runtime, id, name⟩ := s
  rcases h with ⟨hf, hr⟩ | ⟨hf, hr⟩
  · simp only at hf hr
    subst hr
    obtain ⟨f, rfl⟩ := Option.ne_none_iff_exists'.mp hf
    simp [configReferencesFromGRPCLoop, expectedConfigReference,
      swarmapi.ConfigReference.GetRuntime, swarmapi.ConfigReference.GetFile]
  · simp only at hf hr
    subst hf
    obtain ⟨r, rfl⟩ := Option.ne_none_iff_exists'.mp hr
    simp [configReferencesFromGRPCLoop, expectedConfigReference,
      swarmapi.ConfigReference.GetRuntime]

theorem configReferencesFromGRPCLoop_expected (refs : List types.ConfigReference) :
    ∀ acc, (∀ s ∈ refs, exactlyOneTarget s) →
      configReferencesFromGRPCLoop acc (refs.map expectedConfigReference) = acc ++ refs := by
  induction refs with
  | nil => intro acc _; simp [configReferencesFromGRPCLoop]
  | cons s rest ih =>
    intro acc h
    rw [List.map_cons,
      configReferencesFromGRPCLoop_cons_expected acc s _ (h s (List.mem_cons_self _ _)),
      ih _ (fun t ht => h t (List.mem_cons_of_mem _ ht))]
    simp

/-- C25: for every list of config references in which each reference has
exactly one of `File` and `Runtime` set, converting to the wire format
succeeds, and converting the result back gives the list itself: same length
and order, same `ConfigID`, `ConfigName`, target kind and file fields. -/
theorem configReferences_roundtrip (refs : List types.ConfigReference)
    (h : ∀ s ∈ refs, exactlyOneTarget s) :
    ∃ wire, configReferencesToGRPC refs = Except.ok wire ∧
      configReferencesFromGRPC wire = refs := by
  refine ⟨refs.map expectedConfigReference, ?_, ?_⟩
  · unfold configReferencesToGRPC
    rw [configReferencesToGRPCLoop_all_ok refs [] h]
    simp
  · unfold configReferencesFromGRPC
    rw [configReferencesFromGRPCLoop_expected refs [] h]
    simp

/-- Witness for C25: a file reference and a runtime reference survive the
round trip. -/
theorem configReferences_roundtrip_witness :
    ∃ wire, configReferencesToGRPC [configWithFile, configWithRuntime] = Except.ok wire ∧
      configReferencesFromGRPC wire = [configWithFile, configWithRuntime] :=
  configReferences_roundtrip [configWithFile, configWithRuntime] (by
    intro s hs
    simp only [List.mem_cons, List.mem_singleton, List.not_mem_nil, or_false] at hs
    rcases hs with h | h
    · subst h; exact Or.inl ⟨by decide, rfl⟩
    · subst h; exact Or.inr ⟨rfl, by decide⟩)

/-! ## Secret references -/

theorem secretReferencesToGRPCLoop_eq (sr : List types.SecretReference) :
    ∀ acc, secretReferencesToGRPCLoop acc sr = acc ++ sr.map expectedSecretReference := by
  induction sr with
  | nil => intro acc; simp [secretReferencesToGRPCLoop]
  | cons s rest ih =>
    intro acc
    obtain ⟨file, id, name⟩ := s
    cases file with
    | none => simp [secretReferencesToGRPCLoop, expectedSecretReference, ih]
    | some f => simp [secretReferencesToGRPCLoop, expectedSecretReference, ih]

theorem secretReferencesFromGRPCLoop_expected (sr : List types.SecretReference) :
    ∀ acc, secretReferencesFromGRPCLoop acc (sr.map expectedSecretReference)
      = acc ++ sr.filter (fun s => s.File.isSome) := by
  induction sr with
  | nil => intro acc; simp [secretReferencesFromGRPCLoop]
  | cons s rest ih =>
    intro acc
    obtain ⟨file, id, name⟩ := s
    cases file with
    | none =>
      simp [secretReferencesFromGRPCLoop, expectedSecretReference,
        swarmapi.SecretReference.GetFile, ih]
    | some f =>
      simp [secretReferencesFromGRPCLoop, expectedSecretReference,
        swarmapi.SecretReference.GetFile, ih]

/-- C27: for every list of secret references, converting to the wire format
and back gives, field for field and in the same order, the sub-list of the
references whose `File` target is set: those survive unchanged, those without
a file target are dropped; neither converter has an error result. -/
theorem secretReferences_roundtrip (sr : List types.SecretReference) :
    secretReferencesFromGRPC (secretReferencesToGRPC sr)
      = sr.filter (fun s => s.File.isSome) := by
  unfold secretReferencesFromGRPC secretReferencesToGRPC
  rw [secretReferencesToGRPCLoop_eq sr [], List.nil_append,
    secretReferencesFromGRPCLoop_expected sr [], List.nil_append]

end Convert
